import Mathlib

/-!
# php-lsp — verification of the core data-model claims

A shallow embedding, in Lean 4, of the parts of the `php-lsp` language
server that the specification's claims talk about:

* the Composer autoload resolver (`php-lsp-index/src/composer.rs`),
* the rope position↔byte mapping (`php-lsp-parser/src/parser.rs`),
* the workspace symbol index (`php-lsp-index/src/workspace.rs`),
* the symbol extractor (`php-lsp-parser/src/symbols.rs`),
* the reference finder (`php-lsp-parser/src/references.rs`),
* the cursor resolver (`php-lsp-parser/src/resolve.rs`) together with the
  PHPDoc `@var` machinery it consults (`php-lsp-parser/src/phpdoc.rs`),
* the rename edit construction (`php-lsp-server/src/server.rs`).

Rust `String`s become Lean `String`s; all concrete sources used below are
ASCII, so Rust byte offsets coincide with character indices and the models
index by character.  `DashMap`s become association lists (`List (String × _)`);
`DashMap` iteration order is unspecified in Rust, the list order stands in
for one such order and no theorem below depends on it beyond what the
claims themselves fix.  Tree-sitter trees become an inductive `Tree` whose
concrete instances are transcriptions of the tree-sitter-php parses of the
claim inputs.
-/

set_option autoImplicit false

namespace PhpLsp

/-! ## String helpers shared by several source files -/

/-- `Vec::contains` / `str::contains` for a single character. -/
def strContainsChar (s : String) (c : Char) : Bool :=
  s.toList.contains c

/-- Rust `str::replace(from, to)` for a one-character pattern and
one-character replacement. -/
def strReplaceChar (s : String) (oldC newC : Char) : String :=
  String.mk (s.toList.map (fun c => if c = oldC then newC else c))

/-- Rust `str::replace(['\\', '_'], "/")` — replace either character. -/
def strReplaceTwoChars (s : String) (a b newC : Char) : String :=
  String.mk (s.toList.map (fun c => if c = a ∨ c = b then newC else c))

/-- Rust `str::strip_prefix`: `some rest` when `pre` is a prefix of `s`. -/
def stripPre (s pre : String) : Option String :=
  if pre.toList.isPrefixOf s.toList then
    some (String.mk (s.toList.drop pre.toList.length))
  else
    none

/-- First `n` characters of `s` (Rust `&s[..n]` on ASCII data). -/
def strTake (s : String) (n : Nat) : String :=
  String.mk (s.toList.take n)

/-- Characters of `s` from index `n` on (Rust `&s[n..]` on ASCII data). -/
def strDrop (s : String) (n : Nat) : String :=
  String.mk (s.toList.drop n)

/-- Rust `str::rfind(pat)`: index of the last occurrence of `pat` in `s`. -/
def rfindStr (s pat : String) : Option Nat :=
  ((List.range (s.toList.length + 1)).filter
      (fun i => pat.toList.isPrefixOf (s.toList.drop i))).getLast?

/-- Rust `str::rsplit_once(sep)`: split `s` at the last occurrence of
`sep` into the part before and the part after. -/
def rsplitOnceStr (s sep : String) : Option (String × String) :=
  (rfindStr s sep).map
    (fun i => (strTake s i, strDrop s (i + sep.toList.length)))

/-- Rust `str::split(c)` (list of parts, separators dropped; an input with
no separator yields one part, possibly empty). -/
def splitCharList (l : List Char) (c : Char) : List (List Char) :=
  match l with
  | [] => [[]]
  | x :: xs =>
    if x = c then
      [] :: splitCharList xs c
    else
      match splitCharList xs c with
      | [] => [[x]]
      | h :: t => (x :: h) :: t

def splitChar (s : String) (c : Char) : List String :=
  (splitCharList s.toList c).map String.mk

/-- Rust `str::trim` (ASCII whitespace at both ends). -/
def strTrim (s : String) : String :=
  String.mk ((s.toList.dropWhile (·.isWhitespace)).reverse.dropWhile
    (·.isWhitespace) |>.reverse)

/-- Rust `str::trim_start`. -/
def strTrimStart (s : String) : String :=
  String.mk (s.toList.dropWhile (·.isWhitespace))

/-- Rust `str::trim_end`. -/
def strTrimEnd (s : String) : String :=
  String.mk ((s.toList.reverse.dropWhile (·.isWhitespace)).reverse)

/-- Rust `str::trim_start_matches(c)`: strip every leading `c`. -/
def trimStartMatchesChar (s : String) (c : Char) : String :=
  String.mk (s.toList.dropWhile (· = c))

/-- Rust `str::split('\\')` as used on qualified names. -/
def splitBackslash (s : String) : List String :=
  splitChar s '\\'

/-- Rust `name.rsplit('\\').next()`: the last backslash-separated segment. -/
def lastSegment (s : String) : String :=
  match (splitBackslash s).getLast? with
  | some seg => seg
  | none => s

/-- Rust `parts[1..].join("\\")`. -/
def joinBackslash (parts : List String) : String :=
  String.intercalate "\\" parts

/-- Rust `str::split_whitespace().next()` (`first_word` in phpdoc.rs);
falls back to the whole string as the source does via `unwrap_or(s)`. -/
def firstWord (s : String) : String :=
  match ((splitChar s ' ').filter (fun p => ¬ p.isEmpty)).head? with
  | some w => w
  | none => s

/-! ## Composer autoload resolver — `php-lsp-index/src/composer.rs`

Paths are modelled as strings; `PathBuf::join` keeps its Rust semantics
(an absolute right-hand side replaces the left-hand side entirely). -/

/-- Rust `Path::join` on string paths. -/
def pathJoin (dir rel : String) : String :=
  if rel.toList.head? = some '/' then rel
  else if dir = "" then rel
  else if dir.toList.getLast? = some '/' then dir ++ rel
  else dir ++ "/" ++ rel

/-- `NamespaceMap` from composer.rs (classmap and files carried along
although `resolve_class_to_paths` does not read them). -/
structure NamespaceMap where
  psr4 : List (String × List String)
  psr0 : List (String × List String)
  classmap : List String
  files : List String
  deriving DecidableEq, Repr

/-- `NamespaceMap::resolve_class_to_paths`, translated clause by clause:
every PSR-4 prefix that `strip_prefix` accepts contributes
`dir.join(tail.replace('\\', "/") + ".php")` for each of its directories,
then every PSR-0 prefix contributes the same with `_` also mapped to `/`. -/
def resolveClassToPaths (m : NamespaceMap) (fqn : String) : List String :=
  (m.psr4.flatMap (fun pd =>
    match stripPre fqn pd.1 with
    | some rel =>
      let relativePath := strReplaceChar rel '\\' '/' ++ ".php"
      pd.2.map (fun dir => pathJoin dir relativePath)
    | none => [])) ++
  (m.psr0.flatMap (fun pd =>
    match stripPre fqn pd.1 with
    | some rel =>
      let relativePath := strReplaceTwoChars rel '\\' '_' '/' ++ ".php"
      pd.2.map (fun dir => pathJoin dir relativePath)
    | none => []))

/-- The resolver as the spec words it, with "prefix" read as plain
(not necessarily strict) prefix.  Used to compare against the
implementation. -/
def resolveClassToPathsSpec (m : NamespaceMap) (fqn : String) : List String :=
  (m.psr4.flatMap (fun pd =>
    if pd.1.toList.isPrefixOf fqn.toList then
      let tail := String.mk (fqn.toList.drop pd.1.toList.length)
      pd.2.map (fun dir => pathJoin dir (strReplaceChar tail '\\' '/' ++ ".php"))
    else [])) ++
  (m.psr0.flatMap (fun pd =>
    if pd.1.toList.isPrefixOf fqn.toList then
      let tail := String.mk (fqn.toList.drop pd.1.toList.length)
      pd.2.map (fun dir => pathJoin dir (strReplaceTwoChars tail '\\' '_' '/' ++ ".php"))
    else []))

/-- The resolver as the claim words it: only *strict* prefixes contribute. -/
def resolveClassToPathsStrict (m : NamespaceMap) (fqn : String) : List String :=
  (m.psr4.flatMap (fun pd =>
    if pd.1.toList.isPrefixOf fqn.toList ∧ pd.1 ≠ fqn then
      let tail := String.mk (fqn.toList.drop pd.1.toList.length)
      pd.2.map (fun dir => pathJoin dir (strReplaceChar tail '\\' '/' ++ ".php"))
    else [])) ++
  (m.psr0.flatMap (fun pd =>
    if pd.1.toList.isPrefixOf fqn.toList ∧ pd.1 ≠ fqn then
      let tail := String.mk (fqn.toList.drop pd.1.toList.length)
      pd.2.map (fun dir => pathJoin dir (strReplaceTwoChars tail '\\' '_' '/' ++ ".php"))
    else []))

/-! ## Rope position↔byte mapping — `php-lsp-parser/src/parser.rs`

The ropey rope is modelled by its character sequence; `len_lines`,
`line_to_byte` and `byte_to_line` follow ropey's conventions (an empty
buffer has one line; a line starts right after each newline). -/

/-- Byte indices at which the second and later lines start. -/
def lineStartsAux : List Char → Nat → List Nat
  | [], _ => []
  | c :: cs, i =>
    if c = '\n' then (i + 1) :: lineStartsAux cs (i + 1)
    else lineStartsAux cs (i + 1)

/-- Byte indices at which lines start (ropey: one line minimum). -/
def lineStarts (s : List Char) : List Nat :=
  0 :: lineStartsAux s 0

/-- `Rope::len_bytes` (ASCII model: one byte per character). -/
def ropeLenBytes (s : String) : Nat :=
  s.toList.length

/-- `Rope::len_lines`. -/
def ropeLenLines (s : String) : Nat :=
  (lineStarts s.toList).length

/-- `Rope::line_to_byte` (total model: out-of-range defaults to the
buffer length, an index the source never queries). -/
def lineToByte (s : String) (i : Nat) : Nat :=
  (lineStarts s.toList).getD i (ropeLenBytes s)

/-- `Rope::byte_to_line`: the line containing byte `b`. -/
def byteToLine (s : String) (b : Nat) : Nat :=
  (s.toList.take b).countP (fun c => c = '\n')

/-- `FileParser::position_to_byte`. -/
def positionToByteRope (s : String) (line character : Nat) : Nat :=
  if ropeLenLines s ≤ line then ropeLenBytes s
  else
    let lineStart := lineToByte s line
    let lineLen :=
      if line + 1 < ropeLenLines s then lineToByte s (line + 1) - lineStart
      else ropeLenBytes s - lineStart
    lineStart + min character lineLen

/-- `FileParser::byte_to_position`. -/
def byteToPositionRope (s : String) (byte : Nat) : Nat × Nat :=
  let byte := min byte (ropeLenBytes s)
  let line := byteToLine s byte
  let lineStart := lineToByte s line
  (line, byte - lineStart)

/-! ## Type model — `php-lsp-types/src/lib.rs` -/

inductive PhpSymbolKind where
  | Class | Interface | Trait | Enum | Function | Method | Property
  | ClassConstant | GlobalConstant | EnumCase | Namespace
  deriving DecidableEq, Repr

inductive Visibility where
  | Public | Protected | Private
  deriving DecidableEq, Repr

structure SymbolModifiers where
  is_static : Bool := false
  is_abstract : Bool := false
  is_final : Bool := false
  is_readonly : Bool := false
  is_deprecated : Bool := false
  is_builtin : Bool := false
  deriving DecidableEq, Repr

inductive TypeInfo where
  | Simple (name : String)
  | Union (types : List TypeInfo)
  | Intersection (types : List TypeInfo)
  | Nullable (inner : TypeInfo)
  | Void | Never | Mixed | Self_ | Static_ | Parent_

structure ParamInfo where
  name : String
  type_info : Option TypeInfo
  default_value : Option String
  is_variadic : Bool
  is_by_ref : Bool
  is_promoted : Bool

structure Signature where
  params : List ParamInfo
  return_type : Option TypeInfo

structure PhpDocParam where
  name : String
  type_info : Option TypeInfo
  description : Option String

structure PhpDocProperty where
  name : String
  type_info : Option TypeInfo
  description : Option String

structure PhpDocMethod where
  name : String
  return_type : Option TypeInfo
  params : List ParamInfo
  is_static : Bool
  description : Option String

structure PhpDoc where
  summary : Option String := none
  params : List PhpDocParam := []
  return_type : Option TypeInfo := none
  var_type : Option TypeInfo := none
  throws : List TypeInfo := []
  deprecated : Option String := none
  properties : List PhpDocProperty := []
  methods : List PhpDocMethod := []

/-- `SymbolInfo`.

The snapshot of `php-lsp-types/src/lib.rs` declares this struct *without*
`extends`/`implements` fields, yet `php-lsp-index/src/workspace.rs` reads
`class_sym.extends` and `class_sym.implements` and constructs the struct
with both fields in its tests — the two crates as given cannot compile
together.  The embedding keeps the fields (`extends_` / `implements_`,
renamed because `extends` is a Lean keyword) so that the index crate is
representable; the symbol extractor (`symbols.rs`) never sets them, so
every symbol it emits carries empty lists — exactly what the given
`extract_class_like` records. -/
structure SymbolInfo where
  name : String
  fqn : String
  kind : PhpSymbolKind
  uri : String
  range : Nat × Nat × Nat × Nat
  selection_range : Nat × Nat × Nat × Nat
  visibility : Visibility
  modifiers : SymbolModifiers
  doc_comment : Option String
  signature : Option Signature
  parent_fqn : Option String
  extends_ : List String := []
  implements_ : List String := []

inductive UseKind where
  | Class | Function | Constant
  deriving DecidableEq, Repr

/-- `UseStatement`.  `symbols.rs` constructs it with a `range` field that
the snapshot of `php-lsp-types` omits; the embedding keeps it (`alias` is
a Lean keyword, hence `alias_`). -/
structure UseStatement where
  fqn : String
  alias_ : Option String
  kind : UseKind
  range : Nat × Nat × Nat × Nat

structure FileSymbols where
  namespace_ : Option String := none
  use_statements : List UseStatement := []
  symbols : List SymbolInfo := []

/-! ## Association-list model of `DashMap` -/

def alLookup {α : Type} (l : List (String × α)) (k : String) : Option α :=
  (l.find? (fun p => p.1 = k)).map (·.2)

/-- `DashMap::insert`: replace the value under an existing key, append
otherwise. -/
def alInsert {α : Type} (l : List (String × α)) (k : String) (v : α) :
    List (String × α) :=
  if (l.find? (fun p => p.1 = k)).isSome then
    l.map (fun p => if p.1 = k then (k, v) else p)
  else
    l ++ [(k, v)]

/-- `DashMap::remove` (by key). -/
def alRemove {α : Type} (l : List (String × α)) (k : String) :
    List (String × α) :=
  l.filter (fun p => ¬ p.1 = k)

/-! ## Workspace index — `php-lsp-index/src/workspace.rs` -/

structure WorkspaceIndex where
  types : List (String × SymbolInfo) := []
  functions : List (String × SymbolInfo) := []
  constants : List (String × SymbolInfo) := []
  file_symbols : List (String × FileSymbols) := []

def WorkspaceIndex.empty : WorkspaceIndex := {}

/-- Is the kind projected into the `types` map? -/
def isClassLikeKind (k : PhpSymbolKind) : Bool :=
  match k with
  | .Class | .Interface | .Trait | .Enum => true
  | _ => false

/-- One iteration of the symbol loop in `remove_file`. -/
def projRemoveSym (idx : WorkspaceIndex) (s : SymbolInfo) : WorkspaceIndex :=
  match s.kind with
  | .Class | .Interface | .Trait | .Enum =>
    { idx with types := alRemove idx.types s.fqn }
  | .Function => { idx with functions := alRemove idx.functions s.fqn }
  | .GlobalConstant => { idx with constants := alRemove idx.constants s.fqn }
  | _ => idx

/-- One iteration of the symbol loop in `update_file`. -/
def projInsertSym (idx : WorkspaceIndex) (s : SymbolInfo) : WorkspaceIndex :=
  match s.kind with
  | .Class | .Interface | .Trait | .Enum =>
    { idx with types := alInsert idx.types s.fqn s }
  | .Function => { idx with functions := alInsert idx.functions s.fqn s }
  | .GlobalConstant => { idx with constants := alInsert idx.constants s.fqn s }
  | _ => idx

/-- `WorkspaceIndex::remove_file`. -/
def removeFile (idx : WorkspaceIndex) (uri : String) : WorkspaceIndex :=
  match alLookup idx.file_symbols uri with
  | some old =>
    let idx' := old.symbols.foldl projRemoveSym idx
    { idx' with file_symbols := alRemove idx'.file_symbols uri }
  | none => idx

/-- `WorkspaceIndex::update_file`. -/
def updateFile (idx : WorkspaceIndex) (uri : String) (fs : FileSymbols) :
    WorkspaceIndex :=
  let idx1 := removeFile idx uri
  let idx2 := fs.symbols.foldl projInsertSym idx1
  { idx2 with file_symbols := alInsert idx2.file_symbols uri fs }

/-- `WorkspaceIndex::get_direct_members`: members of a type scanned out of
every stored digest. -/
def getDirectMembers (idx : WorkspaceIndex) (typeFqn : String) :
    List SymbolInfo :=
  idx.file_symbols.flatMap
    (fun p => p.2.symbols.filter (fun s => s.parent_fqn = some typeFqn))

/-- Number of `types` keys not yet visited — the measure that makes the
hierarchy walks well-founded: a class is expanded only when it is a
`types` key not in `visited`, and it is pushed before recursing. -/
def keysNotVisited (idx : WorkspaceIndex) (visited : List String) : Nat :=
  ((idx.types.map Prod.fst).filter (fun k => decide (k ∉ visited))).length

theorem length_filter_mono {α : Type} (l : List α) (p q : α → Bool)
    (h : ∀ a, p a = true → q a = true) :
    (l.filter p).length ≤ (l.filter q).length := by
  induction l with
  | nil => simp
  | cons a l ih =>
    simp only [List.filter_cons]
    by_cases hp : p a = true
    · rw [if_pos hp, if_pos (h a hp)]
      exact Nat.succ_le_succ ih
    · rw [if_neg hp]
      by_cases hq : q a = true
      · rw [if_pos hq]
        exact Nat.le_succ_of_le ih
      · rw [if_neg hq]
        exact ih

theorem length_filter_lt {α : Type} (l : List α) (p q : α → Bool) (x : α)
    (h : ∀ a, p a = true → q a = true) (hx : x ∈ l) (hqx : q x = true)
    (hpx : p x = false) :
    (l.filter p).length < (l.filter q).length := by
  induction l with
  | nil => cases hx
  | cons a l ih =>
    simp only [List.filter_cons]
    rcases List.mem_cons.mp hx with rfl | hxl
    · rw [if_neg (by simp [hpx]), if_pos hqx]
      exact Nat.lt_succ_of_le (length_filter_mono l p q h)
    · by_cases hp : p a = true
      · rw [if_pos hp, if_pos (h a hp)]
        exact Nat.succ_lt_succ (ih hxl)
      · rw [if_neg hp]
        by_cases hq : q a = true
        · rw [if_pos hq]
          exact Nat.lt_succ_of_le (length_filter_mono l p q h)
        · rw [if_neg hq]
          exact ih hxl

theorem keysNotVisited_append_le (idx : WorkspaceIndex) (v d : List String) :
    keysNotVisited idx (v ++ d) ≤ keysNotVisited idx v := by
  apply length_filter_mono
  intro a ha
  simp only [decide_eq_true_eq] at ha ⊢
  intro hm
  exact ha (List.mem_append.mpr (Or.inl hm))

theorem keysNotVisited_push_lt (idx : WorkspaceIndex) (v : List String)
    (k : String) (hk : k ∈ idx.types.map Prod.fst)
    (hv : ¬ v.contains k = true) :
    keysNotVisited idx (v ++ [k]) < keysNotVisited idx v := by
  have hkv : k ∉ v := by
    intro hm
    exact hv (List.elem_eq_true_of_mem hm)
  apply length_filter_lt _ _ _ k
  · intro a ha
    simp only [decide_eq_true_eq] at ha ⊢
    intro hm
    exact ha (List.mem_append.mpr (Or.inl hm))
  · exact hk
  · simpa using hkv
  · simp [List.mem_append]

theorem alLookup_key_mem {α : Type} {l : List (String × α)} {k : String}
    {v : α} (h : alLookup l k = some v) : k ∈ l.map Prod.fst := by
  unfold alLookup at h
  rcases hf : l.find? (fun p => p.1 = k) with _ | p
  · rw [hf] at h; cases h
  · have hm : p ∈ l := List.mem_of_find?_eq_some hf
    have hp := List.find?_some hf
    simp only [decide_eq_true_eq] at hp
    rw [← hp]
    exact List.mem_map_of_mem Prod.fst hm

mutual

/-- `resolve_member_in_hierarchy`.

The Rust function threads a `&mut Vec<String>` visited set through the
recursion; the embedding returns, next to the result, the *delta* of
freshly visited class FQNs, and each caller extends its own visited list
with the delta — the same visited sets arise.  Termination: a class is
expanded only when it is an unvisited `types` key, and it is pushed onto
`visited` before the recursive calls, so the number of unvisited `types`
keys (`keysNotVisited`) strictly decreases. -/
def rmihGo (idx : WorkspaceIndex) (classFqn memberName originalFqn : String)
    (visited : List String) : Option SymbolInfo × List String :=
  if hvis : visited.contains classFqn then
    (none, [])
  else
    let members := getDirectMembers idx classFqn
    match members.find? (fun m => m.fqn = originalFqn) with
    | some sym => (some sym, [classFqn])
    | none =>
      match members.find? (fun m => m.name = memberName) with
      | some sym => (some sym, [classFqn])
      | none =>
        match hty : alLookup idx.types classFqn with
        | some classSym =>
          let r1 := rmihList idx classSym.extends_ memberName originalFqn
            (visited ++ [classFqn])
          match r1.1 with
          | some sym => (some sym, classFqn :: r1.2)
          | none =>
            let r2 := rmihList idx classSym.implements_ memberName originalFqn
              ((visited ++ [classFqn]) ++ r1.2)
            (r2.1, classFqn :: (r1.2 ++ r2.2))
        | none => (none, [classFqn])
termination_by (keysNotVisited idx visited, 0)
decreasing_by
  · exact Prod.Lex.left _ _ (keysNotVisited_push_lt idx visited classFqn
      (alLookup_key_mem hty) hvis)
  · have h1 : keysNotVisited idx ((visited ++ [classFqn]) ++ r1.2) ≤
        keysNotVisited idx (visited ++ [classFqn]) :=
      keysNotVisited_append_le idx _ _
    have h2 : keysNotVisited idx (visited ++ [classFqn]) <
        keysNotVisited idx visited :=
      keysNotVisited_push_lt idx visited classFqn (alLookup_key_mem hty) hvis
    exact Prod.Lex.left _ _ (Nat.lt_of_le_of_lt h1 h2)

/-- The `for parent_fqn in …` loops of `resolve_member_in_hierarchy`
(early return on the first hit, visited threaded left to right). -/
def rmihList (idx : WorkspaceIndex) (parents : List String)
    (memberName originalFqn : String) (visited : List String) :
    Option SymbolInfo × List String :=
  match parents with
  | [] => (none, [])
  | p :: rest =>
    let r := rmihGo idx p memberName originalFqn visited
    match r.1 with
    | some sym => (some sym, r.2)
    | none =>
      let r2 := rmihList idx rest memberName originalFqn (visited ++ r.2)
      (r2.1, r.2 ++ r2.2)
termination_by (keysNotVisited idx visited, parents.length + 1)
decreasing_by
  · exact Prod.Lex.right _ (Nat.zero_lt_succ _)
  · rcases Nat.lt_or_ge (keysNotVisited idx (visited ++ r.2))
      (keysNotVisited idx visited) with h | h
    · exact Prod.Lex.left _ _ h
    · have he : keysNotVisited idx (visited ++ r.2) =
          keysNotVisited idx visited :=
        Nat.le_antisymm (keysNotVisited_append_le idx _ _) h
      rw [he]
      exact Prod.Lex.right _ (Nat.lt_succ_self _)

end

/-- Non-dependent restatement of the `rmihGo` equation (the definition
pattern-matches with a named scrutinee equation for its termination proof,
which blocks rewriting; this lemma is the same equation with plain
matches). -/
theorem rmihGo_eq (idx : WorkspaceIndex)
    (classFqn memberName originalFqn : String) (visited : List String) :
    rmihGo idx classFqn memberName originalFqn visited =
    if visited.contains classFqn then (none, [])
    else
      let members := getDirectMembers idx classFqn
      match members.find? (fun m => m.fqn = originalFqn) with
      | some sym => (some sym, [classFqn])
      | none =>
        match members.find? (fun m => m.name = memberName) with
        | some sym => (some sym, [classFqn])
        | none =>
          match alLookup idx.types classFqn with
          | some classSym =>
            let r1 := rmihList idx classSym.extends_ memberName originalFqn
              (visited ++ [classFqn])
            match r1.1 with
            | some sym => (some sym, classFqn :: r1.2)
            | none =>
              let r2 := rmihList idx classSym.implements_ memberName
                originalFqn ((visited ++ [classFqn]) ++ r1.2)
              (r2.1, classFqn :: (r1.2 ++ r2.2))
          | none => (none, [classFqn]) := by
  rw [rmihGo.eq_def]
  by_cases hv : visited.contains classFqn = true
  · rw [dif_pos hv, if_pos hv]
  · rw [dif_neg hv, if_neg hv]
    rcases h1 : (getDirectMembers idx classFqn).find?
        (fun m => decide (m.fqn = originalFqn)) with _ | s
    · rcases h2 : (getDirectMembers idx classFqn).find?
          (fun m => decide (m.name = memberName)) with _ | s
      · rcases h3 : alLookup idx.types classFqn with _ | cs
        · simp only [h1, h2, h3]
        · simp only [h1, h2, h3]
      · simp only [h1, h2]
    · simp only [h1]

/-- `WorkspaceIndex::resolve_member`. -/
def resolveMember (idx : WorkspaceIndex) (fqn : String) : Option SymbolInfo :=
  match rsplitOnceStr fqn "::" with
  | some (classFqn, memberName) =>
    (rmihGo idx classFqn memberName fqn []).1
  | none => none

/-- `WorkspaceIndex::resolve_fqn`. -/
def resolveFqn (idx : WorkspaceIndex) (fqn : String) : Option SymbolInfo :=
  match alLookup idx.types fqn with
  | some sym => some sym
  | none =>
    match alLookup idx.functions fqn with
    | some sym => some sym
    | none =>
      match alLookup idx.constants fqn with
      | some sym => some sym
      | none => resolveMember idx fqn

mutual

/-- `collect_members_recursive`, with the same delta-visited convention
as `rmihGo`. -/
def cmrGo (idx : WorkspaceIndex) (typeFqn : String) (visited : List String) :
    List SymbolInfo × List String :=
  if hvis : visited.contains typeFqn then
    ([], [])
  else
    let direct := getDirectMembers idx typeFqn
    match hty : alLookup idx.types typeFqn with
    | some classSym =>
      let r1 := cmrList idx classSym.extends_ (visited ++ [typeFqn])
      let r2 := cmrList idx classSym.implements_
        ((visited ++ [typeFqn]) ++ r1.2)
      (direct ++ r1.1 ++ r2.1, typeFqn :: (r1.2 ++ r2.2))
    | none => (direct, [typeFqn])
termination_by (keysNotVisited idx visited, 0)
decreasing_by
  · exact Prod.Lex.left _ _ (keysNotVisited_push_lt idx visited typeFqn
      (alLookup_key_mem hty) hvis)
  · have h1 : keysNotVisited idx ((visited ++ [typeFqn]) ++ r1.2) ≤
        keysNotVisited idx (visited ++ [typeFqn]) :=
      keysNotVisited_append_le idx _ _
    have h2 : keysNotVisited idx (visited ++ [typeFqn]) <
        keysNotVisited idx visited :=
      keysNotVisited_push_lt idx visited typeFqn (alLookup_key_mem hty) hvis
    exact Prod.Lex.left _ _ (Nat.lt_of_le_of_lt h1 h2)

/-- The parent loops of `collect_members_recursive`. -/
def cmrList (idx : WorkspaceIndex) (parents : List String)
    (visited : List String) : List SymbolInfo × List String :=
  match parents with
  | [] => ([], [])
  | p :: rest =>
    let r := cmrGo idx p visited
    let r2 := cmrList idx rest (visited ++ r.2)
    (r.1 ++ r2.1, r.2 ++ r2.2)
termination_by (keysNotVisited idx visited, parents.length + 1)
decreasing_by
  · exact Prod.Lex.right _ (Nat.zero_lt_succ _)
  · rcases Nat.lt_or_ge (keysNotVisited idx (visited ++ r.2))
      (keysNotVisited idx visited) with h | h
    · exact Prod.Lex.left _ _ h
    · have he : keysNotVisited idx (visited ++ r.2) =
          keysNotVisited idx visited :=
        Nat.le_antisymm (keysNotVisited_append_le idx _ _) h
      rw [he]
      exact Prod.Lex.right _ (Nat.lt_succ_self _)

end

/-- Non-dependent restatement of the `cmrGo` equation. -/
theorem cmrGo_eq (idx : WorkspaceIndex) (typeFqn : String)
    (visited : List String) :
    cmrGo idx typeFqn visited =
    if visited.contains typeFqn then ([], [])
    else
      let direct := getDirectMembers idx typeFqn
      match alLookup idx.types typeFqn with
      | some classSym =>
        let r1 := cmrList idx classSym.extends_ (visited ++ [typeFqn])
        let r2 := cmrList idx classSym.implements_
          ((visited ++ [typeFqn]) ++ r1.2)
        (direct ++ r1.1 ++ r2.1, typeFqn :: (r1.2 ++ r2.2))
      | none => (direct, [typeFqn]) := by
  rw [cmrGo.eq_def]
  by_cases hv : visited.contains typeFqn = true
  · rw [dif_pos hv, if_pos hv]
  · rw [dif_neg hv, if_neg hv]
    rcases h3 : alLookup idx.types typeFqn with _ | cs
    · simp only [h3]
    · simp only [h3]

/-- `WorkspaceIndex::get_members`. -/
def getMembers (idx : WorkspaceIndex) (typeFqn : String) : List SymbolInfo :=
  (cmrGo idx typeFqn []).1

/-! ## CST model — tree-sitter nodes

A tree-sitter node carries a kind, a named/anonymous flag, the field name
it occupies in its parent, a byte range and a point range.  `id` stands in
for tree-sitter's node identity (`Node::id`); concrete trees below assign
distinct ids.  `children` lists *all* children (anonymous tokens
included), `named_children` filters, exactly as in the Rust API.  Parent
and sibling navigation go through `Loc`, a node paired with its ancestor
stack (each frame: parent tree and the node's index among the parent's
children). -/

structure NodeData where
  id : Nat
  kind : String
  field : Option String := none
  named : Bool := true
  startByte : Nat
  endByte : Nat
  startRow : Nat
  startCol : Nat
  endRow : Nat
  endCol : Nat
  deriving DecidableEq, Repr

inductive Tree where
  | node (data : NodeData) (children : List Tree)

def Tree.data : Tree → NodeData
  | .node d _ => d

def Tree.children : Tree → List Tree
  | .node _ cs => cs

def Tree.size : Tree → Nat
  | .node _ cs => 1 + ((cs.attach.map (fun c => Tree.size c.1)).sum)
termination_by t => sizeOf t
decreasing_by
  have h := List.sizeOf_lt_of_mem c.2
  simp only [Tree.node.sizeOf_spec]
  omega

theorem Tree.size_eq (d : NodeData) (cs : List Tree) :
    Tree.size (.node d cs) = 1 + ((cs.attach.map (fun c => Tree.size c.1)).sum) := by
  rw [Tree.size]

theorem Tree.size_child_lt {c t : Tree} (h : c ∈ t.children) :
    Tree.size c < Tree.size t := by
  rcases t with ⟨d, cs⟩
  have hc : c ∈ cs := h
  have hmem : Tree.size c ∈ cs.attach.map (fun x => Tree.size x.1) :=
    List.mem_map.mpr ⟨⟨c, hc⟩, List.mem_attach _ _, rfl⟩
  have hle : Tree.size c ≤ (cs.attach.map (fun x => Tree.size x.1)).sum :=
    List.single_le_sum (fun _ _ => Nat.zero_le _) _ hmem
  rw [Tree.size_eq]
  omega

def Tree.kind (t : Tree) : String := t.data.kind

def Tree.isNamed (t : Tree) : Bool := t.data.named

/-- `&source[node.byte_range()]` (ASCII model). -/
def nodeText (source : String) (t : Tree) : String :=
  String.mk ((source.toList.drop t.data.startByte).take
    (t.data.endByte - t.data.startByte))

/-- `node_range` as used in symbols.rs / resolve.rs / references.rs. -/
def nodeRange (t : Tree) : Nat × Nat × Nat × Nat :=
  (t.data.startRow, t.data.startCol, t.data.endRow, t.data.endCol)

/-- `Node::child_by_field_name` (first child carrying the field). -/
def Tree.childByField (t : Tree) (f : String) : Option Tree :=
  t.children.find? (fun c => c.data.field = some f)

def Tree.namedChildren (t : Tree) : List Tree :=
  t.children.filter (fun c => c.data.named)

def Tree.namedChild (t : Tree) (i : Nat) : Option Tree :=
  t.namedChildren.get? i

def Tree.namedChildCount (t : Tree) : Nat :=
  t.namedChildren.length

def Tree.childAt (t : Tree) (i : Nat) : Option Tree :=
  t.children.get? i

def Tree.childCount (t : Tree) : Nat :=
  t.children.length

/-- A node together with its ancestor stack (innermost frame first). -/
structure Loc where
  t : Tree
  up : List (Tree × Nat)

def Loc.root (t : Tree) : Loc := ⟨t, []⟩

def Loc.parent (l : Loc) : Option Loc :=
  match l.up with
  | [] => none
  | (p, _) :: rest => some ⟨p, rest⟩

def Loc.prevSibling (l : Loc) : Option Loc :=
  match l.up with
  | [] => none
  | (p, i) :: rest =>
    match i with
    | 0 => none
    | Nat.succ j => (p.children.get? j).map (fun c => ⟨c, (p, j) :: rest⟩)

/-- All children of the focused node, as `Loc`s. -/
def Loc.childLocs (l : Loc) : List Loc :=
  (l.t.children.enum).map (fun p => ⟨p.2, (l.t, p.1) :: l.up⟩)

def Loc.namedChildLocs (l : Loc) : List Loc :=
  l.childLocs.filter (fun c => c.t.data.named)

def Loc.childByFieldLoc (l : Loc) (f : String) : Option Loc :=
  l.childLocs.find? (fun c => c.t.data.field = some f)

def Loc.namedChildLoc (l : Loc) (i : Nat) : Option Loc :=
  l.namedChildLocs.get? i

def Loc.kind (l : Loc) : String := l.t.data.kind

theorem Loc.childLocs_t_mem {l : Loc} {c : Loc} (h : c ∈ l.childLocs) :
    c.t ∈ l.t.children := by
  unfold Loc.childLocs at h
  rcases List.mem_map.mp h with ⟨p, hp, rfl⟩
  have := List.mem_enum_iff_getElem?.mp hp
  exact List.getElem?_mem this

/-- Point order: `(row, col)` lexicographic. -/
def posLe (a b : Nat × Nat) : Bool :=
  a.1 < b.1 ∨ (a.1 = b.1 ∧ a.2 ≤ b.2)

def posLt (a b : Nat × Nat) : Bool :=
  a.1 < b.1 ∨ (a.1 = b.1 ∧ a.2 < b.2)

/-- Does the node's `[start_point, end_point)` range contain `p`?  (All
cursor positions used below sit strictly inside a token, so the boundary
convention is immaterial.) -/
def treeContainsPoint (t : Tree) (p : Nat × Nat) : Bool :=
  posLe (t.data.startRow, t.data.startCol) p ∧
    posLt p (t.data.endRow, t.data.endCol)

/-- Descent step of `Node::descendant_for_point_range(p, p)`: go to the
first child containing the point while one exists. -/
def descendToPoint (l : Loc) (p : Nat × Nat) : Loc :=
  match h : l.childLocs.find? (fun c => treeContainsPoint c.t p) with
  | some c => descendToPoint c p
  | none => l
termination_by l.t.size
decreasing_by
  exact Tree.size_child_lt (Loc.childLocs_t_mem (List.mem_of_find?_eq_some h))

/-- `Node::descendant_for_point_range(p, p)` from the root. -/
def descendantForPoint (root : Tree) (p : Nat × Nat) : Option Loc :=
  if treeContainsPoint root p then some (descendToPoint (Loc.root root) p)
  else none

/-! ## Symbol extractor — `php-lsp-parser/src/symbols.rs` -/

theorem Tree.namedChild_mem {t : Tree} {i : Nat} {c : Tree}
    (h : t.namedChild i = some c) : c ∈ t.children := by
  unfold Tree.namedChild at h
  have := List.get?_mem h
  exact List.mem_of_mem_filter this

/-- `has_child_kind`. -/
def hasChildKind (t : Tree) (k : String) : Bool :=
  t.children.any (fun c => c.data.kind = k)

/-- `make_fqn`. -/
def makeFqn (ns : Option String) (name : String) : String :=
  match ns with
  | some n => if ¬ n = "" then n ++ "\\" ++ name else name
  | none => name

/-- `extract_visibility`: first `visibility_modifier` child decides. -/
def extractVisibility (t : Tree) (source : String) : Visibility :=
  match t.children.find? (fun c => c.data.kind = "visibility_modifier") with
  | some c =>
    let txt := nodeText source c
    if txt = "public" then .Public
    else if txt = "protected" then .Protected
    else if txt = "private" then .Private
    else .Public
  | none => .Public

/-- `extract_modifiers` (a fold over the children, as the Rust loop). -/
def extractModifiers (t : Tree) (source : String) : SymbolModifiers :=
  t.children.foldl
    (fun mods c =>
      if c.data.kind = "static_modifier" then { mods with is_static := true }
      else if c.data.kind = "abstract_modifier" then
        { mods with is_abstract := true }
      else if c.data.kind = "final_modifier" then { mods with is_final := true }
      else if c.data.kind = "readonly_modifier" then
        { mods with is_readonly := true }
      else if nodeText source c = "static" then { mods with is_static := true }
      else mods)
    {}

/-- `find_doc_comment`: scan earlier siblings; the first comment decides
(`/**` attaches, any other comment stops the search); non-comment
siblings are skipped. -/
def findDocCommentAux (cs : List Tree) (i : Nat) (source : String) :
    Option String :=
  match i with
  | 0 => none
  | j + 1 =>
    match cs.get? j with
    | none => none
    | some c =>
      if c.data.kind = "comment" then
        let text := nodeText source c
        if "/**".toList.isPrefixOf text.toList then some text else none
      else findDocCommentAux cs j source

def findDocComment (l : Loc) (source : String) : Option String :=
  match l.up with
  | [] => none
  | (p, i) :: _ => findDocCommentAux p.children i source

/-- `parse_type_node`. -/
def parseTypeNode (t : Tree) (source : String) : TypeInfo :=
  if t.data.kind = "union_type" then
    .Union (((t.children.attach.filter (fun c => ¬ c.1.data.kind = "|")).map
      (fun c => parseTypeNode c.1 source)))
  else if t.data.kind = "intersection_type" then
    .Intersection (((t.children.attach.filter
      (fun c => ¬ c.1.data.kind = "&")).map
      (fun c => parseTypeNode c.1 source)))
  else if t.data.kind = "optional_type" then
    match h : t.namedChild 0 with
    | some inner => .Nullable (parseTypeNode inner source)
    | none => .Mixed
  else
    let text := nodeText source t
    if text.toLower = "void" then .Void
    else if text.toLower = "never" then .Never
    else if text.toLower = "mixed" then .Mixed
    else if text.toLower = "self" then .Self_
    else if text.toLower = "static" then .Static_
    else if text.toLower = "parent" then .Parent_
    else .Simple text
termination_by t.size
decreasing_by
  · exact Tree.size_child_lt c.2
  · exact Tree.size_child_lt c.2
  · exact Tree.size_child_lt (Tree.namedChild_mem h)

/-- `extract_param`. -/
def extractParam (t : Tree) (source : String) : ParamInfo :=
  let rawName :=
    match t.childByField "name" with
    | some n => nodeText source n
    | none => "$unknown"
  let name :=
    match stripPre rawName "$" with
    | some rest => rest
    | none => rawName
  { name := name
    type_info := (t.childByField "type").map (fun ty => parseTypeNode ty source)
    default_value := (t.childByField "default_value").map
      (fun d => nodeText source d)
    is_variadic := t.data.kind = "variadic_parameter"
    is_by_ref := hasChildKind t "reference_modifier"
    is_promoted := t.data.kind = "property_promotion_parameter" }

/-- `extract_signature`. -/
def extractSignature (t : Tree) (source : String) : Signature :=
  let params :=
    match t.childByField "parameters" with
    | some paramList =>
      (paramList.children.filter (fun c =>
        c.data.kind = "simple_parameter" ∨
        c.data.kind = "variadic_parameter" ∨
        c.data.kind = "property_promotion_parameter")).map
        (fun c => extractParam c source)
    | none => []
  { params := params
    return_type := (t.childByField "return_type").map
      (fun ty => parseTypeNode ty source) }

/-- `find_namespace_name`: the `namespace_name` child, if any. -/
def findNamespaceName (t : Tree) (source : String) : Option String :=
  (t.children.find? (fun c => c.data.kind = "namespace_name")).map
    (fun c => nodeText source c)

/-- `determine_use_kind`. -/
def determineUseKindChildren : List Tree → UseKind
  | [] => .Class
  | c :: rest =>
    if c.data.kind = "function" then .Function
    else if c.data.kind = "const" then .Constant
    else if c.data.kind = "namespace_use_clause" ∨
        c.data.kind = "namespace_use_group" then .Class
    else determineUseKindChildren rest

def determineUseKind (t : Tree) (source : String) : UseKind :=
  let text := nodeText source t
  if "use function ".toList.isPrefixOf text.toList ∨
      "use function\t".toList.isPrefixOf text.toList then .Function
  else if "use const ".toList.isPrefixOf text.toList ∨
      "use const\t".toList.isPrefixOf text.toList then .Constant
  else determineUseKindChildren t.children

/-- `extract_single_use_clause` (the Rust loop's `fqn`/`alias`/`saw_as`
state threaded through a fold). -/
def extractSingleUseClause (clause : Tree) (source : String)
    (result : FileSymbols) (kind : UseKind) : FileSymbols :=
  let st :=
    clause.children.foldl
      (fun (st : Option String × Option String × Bool) child =>
        let k := child.data.kind
        if (k = "qualified_name" ∨ k = "namespace_name" ∨ k = "name") ∧
            ¬ st.2.2 then
          (some (nodeText source child), st.2.1, st.2.2)
        else if k = "as" then (st.1, st.2.1, true)
        else if k = "name" ∧ st.2.2 then
          (st.1, some (nodeText source child), st.2.2)
        else st)
      (none, none, false)
  match st.1 with
  | some fqn =>
    { result with use_statements := result.use_statements ++
        [{ fqn := fqn, alias_ := st.2.1, kind := kind,
           range := nodeRange clause }] }
  | none => result

/-- `extract_use_group`. -/
def extractUseGroup (group parent : Tree) (source : String)
    (result : FileSymbols) (kind : UseKind) : FileSymbols :=
  let pre :=
    match parent.childByField "prefix" with
    | some n => nodeText source n
    | none => ""
  group.children.foldl
    (fun result child =>
      if child.data.kind = "namespace_use_clause" then
        match child.childByField "name" with
        | some nameNode =>
          let name := nodeText source nameNode
          let fqn := if pre = "" then name else pre ++ "\\" ++ name
          let al := (child.childByField "alias").map
            (fun a => nodeText source a)
          { result with use_statements := result.use_statements ++
              [{ fqn := fqn, alias_ := al, kind := kind,
                 range := nodeRange child }] }
        | none => result
      else result)
    result

/-- `extract_use_statements`. -/
def extractUseStatements (t : Tree) (source : String)
    (result : FileSymbols) : FileSymbols :=
  let kind := determineUseKind t source
  t.children.foldl
    (fun result child =>
      if child.data.kind = "namespace_use_clause" then
        extractSingleUseClause child source result kind
      else if child.data.kind = "namespace_use_group" then
        extractUseGroup child t source result kind
      else result)
    result

/-- `extract_method`. -/
def extractMethod (l : Loc) (source uri : String) (result : FileSymbols)
    (parentFqn : String) : FileSymbols :=
  match l.t.childByField "name" with
  | none => result
  | some nameNode =>
    let name := nodeText source nameNode
    let fqn := parentFqn ++ "::" ++ name
    { result with symbols := result.symbols ++
        [{ name := name, fqn := fqn, kind := .Method, uri := uri,
           range := nodeRange l.t, selection_range := nodeRange nameNode,
           visibility := extractVisibility l.t source,
           modifiers := extractModifiers l.t source,
           doc_comment := findDocComment l source,
           signature := some (extractSignature l.t source),
           parent_fqn := some parentFqn }] }

/-- `extract_function`. -/
def extractFunction (l : Loc) (source uri : String) (result : FileSymbols)
    (currentNs : Option String) : FileSymbols :=
  match l.t.childByField "name" with
  | none => result
  | some nameNode =>
    let name := nodeText source nameNode
    let fqn := makeFqn currentNs name
    { result with symbols := result.symbols ++
        [{ name := name, fqn := fqn, kind := .Function, uri := uri,
           range := nodeRange l.t, selection_range := nodeRange nameNode,
           visibility := .Public, modifiers := {},
           doc_comment := findDocComment l source,
           signature := some (extractSignature l.t source),
           parent_fqn := none }] }

/-- `extract_properties`. -/
def extractProperties (l : Loc) (source uri : String) (result : FileSymbols)
    (parentFqn : String) : FileSymbols :=
  let visibility := extractVisibility l.t source
  let modifiers := extractModifiers l.t source
  let docComment := findDocComment l source
  let typeInfo := (l.t.childByField "type").map
    (fun ty => parseTypeNode ty source)
  l.t.children.foldl
    (fun result child =>
      if child.data.kind = "property_element" then
        match child.childByField "name" with
        | some nameNode =>
          let rawName := nodeText source nameNode
          let name :=
            match stripPre rawName "$" with
            | some rest => rest
            | none => rawName
          let fqn := parentFqn ++ "::$" ++ name
          { result with symbols := result.symbols ++
              [{ name := name, fqn := fqn, kind := .Property, uri := uri,
                 range := nodeRange l.t,
                 selection_range := nodeRange nameNode,
                 visibility := visibility, modifiers := modifiers,
                 doc_comment := docComment,
                 signature := typeInfo.map (fun t =>
                   { params := [], return_type := some t }),
                 parent_fqn := some parentFqn }] }
        | none => result
      else result)
    result

/-- `extract_class_constants`. -/
def extractClassConstants (l : Loc) (source uri : String)
    (result : FileSymbols) (parentFqn : String) : FileSymbols :=
  let visibility := extractVisibility l.t source
  let modifiers := extractModifiers l.t source
  let docComment := findDocComment l source
  l.t.children.foldl
    (fun result child =>
      if child.data.kind = "const_element" then
        let nameNode :=
          match child.childByField "name" with
          | some n => some n
          | none => child.children.find? (fun c => c.data.kind = "name")
        match nameNode with
        | some nameNode =>
          let name := nodeText source nameNode
          let fqn := parentFqn ++ "::" ++ name
          { result with symbols := result.symbols ++
              [{ name := name, fqn := fqn, kind := .ClassConstant, uri := uri,
                 range := nodeRange l.t,
                 selection_range := nodeRange nameNode,
                 visibility := visibility, modifiers := modifiers,
                 doc_comment := docComment, signature := none,
                 parent_fqn := some parentFqn }] }
        | none => result
      else result)
    result

/-- `extract_global_constants`. -/
def extractGlobalConstants (l : Loc) (source uri : String)
    (result : FileSymbols) (currentNs : Option String) : FileSymbols :=
  let docComment := findDocComment l source
  l.t.children.foldl
    (fun result child =>
      if child.data.kind = "const_element" then
        match child.childByField "name" with
        | some nameNode =>
          let name := nodeText source nameNode
          let fqn := makeFqn currentNs name
          { result with symbols := result.symbols ++
              [{ name := name, fqn := fqn, kind := .GlobalConstant,
                 uri := uri, range := nodeRange l.t,
                 selection_range := nodeRange nameNode,
                 visibility := .Public, modifiers := {},
                 doc_comment := docComment, signature := none,
                 parent_fqn := none }] }
        | none => result
      else result)
    result

/-- `extract_enum_case`. -/
def extractEnumCase (l : Loc) (source uri : String) (result : FileSymbols)
    (parentFqn : String) : FileSymbols :=
  match l.t.childByField "name" with
  | none => result
  | some nameNode =>
    let name := nodeText source nameNode
    let fqn := parentFqn ++ "::" ++ name
    { result with symbols := result.symbols ++
        [{ name := name, fqn := fqn, kind := .EnumCase, uri := uri,
           range := nodeRange l.t, selection_range := nodeRange nameNode,
           visibility := .Public, modifiers := {},
           doc_comment := findDocComment l source, signature := none,
           parent_fqn := some parentFqn }] }

/-- `extract_class_body`. -/
def extractClassBody (body : Loc) (source uri : String)
    (result : FileSymbols) (parentFqn : String) : FileSymbols :=
  body.childLocs.foldl
    (fun result child =>
      if child.t.data.kind = "method_declaration" then
        extractMethod child source uri result parentFqn
      else if child.t.data.kind = "property_declaration" then
        extractProperties child source uri result parentFqn
      else if child.t.data.kind = "class_const_declaration" ∨
          child.t.data.kind = "const_declaration" then
        extractClassConstants child source uri result parentFqn
      else if child.t.data.kind = "enum_case" then
        extractEnumCase child source uri result parentFqn
      else result)
    result

/-- `extract_class_like`: emits the type symbol — with *no*
extends/implements recorded, as in the source — then the members. -/
def extractClassLike (l : Loc) (source uri : String) (result : FileSymbols)
    (currentNs : Option String) (kind : PhpSymbolKind) : FileSymbols :=
  match l.childByFieldLoc "name" with
  | none => result
  | some nameLoc =>
    let name := nodeText source nameLoc.t
    let fqn := makeFqn currentNs name
    let result :=
      { result with symbols := result.symbols ++
          [{ name := name, fqn := fqn, kind := kind, uri := uri,
             range := nodeRange l.t,
             selection_range := nodeRange nameLoc.t,
             visibility := .Public,
             modifiers := extractModifiers l.t source,
             doc_comment := findDocComment l source, signature := none,
             parent_fqn := none }] }
    match l.childByFieldLoc "body" with
    | some body => extractClassBody body source uri result fqn
    | none =>
      match l.childLocs.find? (fun c =>
          c.t.data.kind = "declaration_list" ∨
          c.t.data.kind = "enum_declaration_list" ∨
          c.t.data.kind = "class_body") with
      | some body => extractClassBody body source uri result fqn
      | none => result

mutual

/-- `extract_from_node`. -/
def extractFromNode (l : Loc) (source uri : String) (result : FileSymbols)
    (currentNs : Option String) : FileSymbols :=
  if l.t.data.kind = "namespace_use_declaration" then
    extractUseStatements l.t source result
  else if l.t.data.kind = "class_declaration" then
    extractClassLike l source uri result currentNs .Class
  else if l.t.data.kind = "interface_declaration" then
    extractClassLike l source uri result currentNs .Interface
  else if l.t.data.kind = "trait_declaration" then
    extractClassLike l source uri result currentNs .Trait
  else if l.t.data.kind = "enum_declaration" then
    extractClassLike l source uri result currentNs .Enum
  else if l.t.data.kind = "function_definition" then
    extractFunction l source uri result currentNs
  else if l.t.data.kind = "const_declaration" then
    extractGlobalConstants l source uri result currentNs
  else
    extractChildren l source uri result currentNs
termination_by (l.t.size, 1)

/-- `extract_children`. -/
def extractChildren (l : Loc) (source uri : String) (result : FileSymbols)
    (currentNs : Option String) : FileSymbols :=
  (l.childLocs.attach).foldl
    (fun result c => extractFromNode c.1 source uri result currentNs)
    result
termination_by (l.t.size, 0)
decreasing_by
  exact Prod.Lex.left _ _ (Tree.size_child_lt (Loc.childLocs_t_mem c.2))

end

/-- `extract_file_symbols`: the top-level walk over the program node's
children, tracking the braceless-namespace state. -/
def extractFileSymbols (tree : Tree) (source uri : String) : FileSymbols :=
  ((Loc.root tree).childLocs.foldl
    (fun (acc : FileSymbols × Option String) child =>
      if child.t.data.kind = "namespace_definition" then
        let nsName := findNamespaceName child.t source
        let result :=
          match nsName with
          | some ns => { acc.1 with namespace_ := some ns }
          | none => acc.1
        let result :=
          match child.childByFieldLoc "body" with
          | some body => extractChildren body source uri result nsName
          | none => result
        (result, nsName)
      else
        (extractFromNode child source uri acc.1 acc.2, acc.2))
    ({}, none)).1

/-! ## Reference finder — `php-lsp-parser/src/references.rs` -/

structure ReferenceLocation where
  range : Nat × Nat × Nat × Nat
  deriving DecidableEq, Repr

/-- The alias under which a `use` statement is addressed
(`alias.unwrap_or_else(|| fqn.rsplit('\\').next() …)`). -/
def useAlias (u : UseStatement) : String :=
  match u.alias_ with
  | some a => a
  | none => lastSegment u.fqn

/-- `resolve_name_to_fqn` (the references.rs copy, with its pass-through
list of primitive names). -/
def refResolveNameToFqn (name : String) (fs : FileSymbols) : String :=
  if name.toList.head? = some '\\' then trimStartMatchesChar name '\\'
  else if name = "self" ∨ name = "static" ∨ name = "parent" ∨
      name = "$this" ∨ name = "string" ∨ name = "int" ∨ name = "float" ∨
      name = "bool" ∨ name = "array" ∨ name = "callable" ∨
      name = "iterable" ∨ name = "object" ∨ name = "mixed" ∨
      name = "void" ∨ name = "never" ∨ name = "null" ∨ name = "false" ∨
      name = "true" then name
  else
    let parts := splitBackslash name
    let firstPart := parts.headD ""
    match fs.use_statements.find? (fun u =>
        u.kind = UseKind.Class ∧ useAlias u = firstPart) with
    | some u =>
      if parts.length = 1 then u.fqn
      else u.fqn ++ "\\" ++ joinBackslash parts.tail
    | none =>
      match fs.namespace_ with
      | some ns => ns ++ "\\" ++ name
      | none => name

/-- `resolve_function_name_to_fqn` (references.rs). -/
def refResolveFunctionNameToFqn (name : String) (fs : FileSymbols) : String :=
  if name.toList.head? = some '\\' then trimStartMatchesChar name '\\'
  else
    match fs.use_statements.find? (fun u =>
        u.kind = UseKind.Function ∧ useAlias u = name) with
    | some u => u.fqn
    | none =>
      match fs.namespace_ with
      | some ns => ns ++ "\\" ++ name
      | none => name

/-- `check_class_name_ref` (as the list it appends). -/
def checkClassNameRef (t : Tree) (source : String) (fs : FileSymbols)
    (targetFqn : String) : List ReferenceLocation :=
  let text := nodeText source t
  if refResolveNameToFqn text fs = targetFqn then [{ range := nodeRange t }]
  else []

/-- `walk_for_class_refs`. -/
def walkForClassRefs (t : Tree) (source : String) (fs : FileSymbols)
    (targetFqn : String) : List ReferenceLocation :=
  let here :=
    if t.data.kind = "object_creation_expression" then
      match t.namedChildren.find? (fun c =>
          c.data.kind = "name" ∨ c.data.kind = "qualified_name") with
      | some child => checkClassNameRef child source fs targetFqn
      | none => []
    else if t.data.kind = "scoped_call_expression" ∨
        t.data.kind = "scoped_property_access_expression" then
      match t.childByField "scope" with
      | some scopeNode => checkClassNameRef scopeNode source fs targetFqn
      | none => []
    else if t.data.kind = "named_type" then
      (t.namedChildren.filter (fun c =>
          c.data.kind = "name" ∨ c.data.kind = "qualified_name")).flatMap
        (fun c => checkClassNameRef c source fs targetFqn) ++
      (if t.namedChildCount = 0 then checkClassNameRef t source fs targetFqn
       else [])
    else if t.data.kind = "base_clause" ∨
        t.data.kind = "class_interface_clause" then
      (t.namedChildren.filter (fun c =>
          c.data.kind = "name" ∨ c.data.kind = "qualified_name")).flatMap
        (fun c => checkClassNameRef c source fs targetFqn)
    else if t.data.kind = "instanceof_expression" then
      match t.childByField "right" with
      | some right => checkClassNameRef right source fs targetFqn
      | none => []
    else if t.data.kind = "catch_clause" then
      match t.childByField "type" with
      | some typeNode =>
        (typeNode.namedChildren.filter (fun c =>
            c.data.kind = "name" ∨ c.data.kind = "qualified_name")).flatMap
          (fun c => checkClassNameRef c source fs targetFqn) ++
        (if typeNode.data.kind = "name" ∨ typeNode.data.kind = "qualified_name"
         then checkClassNameRef typeNode source fs targetFqn
         else [])
      | none => []
    else []
  here ++ (t.namedChildren.attach.flatMap
    (fun c => walkForClassRefs c.1 source fs targetFqn))
termination_by t.size
decreasing_by
  exact Tree.size_child_lt (List.mem_of_mem_filter c.2)

/-- The declaration emissions of `find_class_references`. -/
def classDeclRefs (fs : FileSymbols) (targetFqn : String) :
    List ReferenceLocation :=
  (fs.symbols.filter (fun s => s.fqn = targetFqn ∧
      isClassLikeKind s.kind)).map (fun s => { range := s.selection_range })

/-- `find_class_references`. -/
def findClassReferences (root : Tree) (source : String) (fs : FileSymbols)
    (targetFqn : String) (includeDeclaration : Bool) :
    List ReferenceLocation :=
  (if includeDeclaration then classDeclRefs fs targetFqn else []) ++
    walkForClassRefs root source fs targetFqn

/-- `walk_for_function_refs`. -/
def walkForFunctionRefs (t : Tree) (source : String) (fs : FileSymbols)
    (targetFqn : String) : List ReferenceLocation :=
  let here :=
    if t.data.kind = "function_call_expression" then
      match t.childByField "function" with
      | some funcNode =>
        let text := nodeText source funcNode
        if refResolveFunctionNameToFqn text fs = targetFqn then
          [{ range := nodeRange funcNode }]
        else []
      | none => []
    else []
  here ++ (t.namedChildren.attach.flatMap
    (fun c => walkForFunctionRefs c.1 source fs targetFqn))
termination_by t.size
decreasing_by
  exact Tree.size_child_lt (List.mem_of_mem_filter c.2)

def functionDeclRefs (fs : FileSymbols) (targetFqn : String) :
    List ReferenceLocation :=
  (fs.symbols.filter (fun s => s.fqn = targetFqn ∧
      s.kind = PhpSymbolKind.Function)).map
    (fun s => { range := s.selection_range })

/-- `find_function_references`. -/
def findFunctionReferences (root : Tree) (source : String) (fs : FileSymbols)
    (targetFqn : String) (includeDeclaration : Bool) :
    List ReferenceLocation :=
  (if includeDeclaration then functionDeclRefs fs targetFqn else []) ++
    walkForFunctionRefs root source fs targetFqn

/-- `walk_for_member_refs`.  The name at a `member_*` access matches by
bare text comparison against `member_name` — the member part of the
target FQN taken verbatim, `$` included for properties. -/
def walkForMemberRefs (t : Tree) (source : String) (fs : FileSymbols)
    (targetFqn memberName : String) : List ReferenceLocation :=
  let here :=
    if t.data.kind = "member_access_expression" ∨
        t.data.kind = "member_call_expression" then
      match t.childByField "name" with
      | some nameNode =>
        if nodeText source nameNode = memberName then
          [{ range := nodeRange nameNode }]
        else []
      | none => []
    else if t.data.kind = "scoped_call_expression" ∨
        t.data.kind = "scoped_property_access_expression" then
      match t.childByField "name" with
      | some nameNode =>
        if nodeText source nameNode = memberName then
          match t.childByField "scope" with
          | some scopeNode =>
            let scopeText := nodeText source scopeNode
            let scopeFqn := refResolveNameToFqn scopeText fs
            let expectedClass :=
              strTake targetFqn ((rfindStr targetFqn "::").getD 0)
            if scopeFqn = expectedClass ∨ scopeText = "self" ∨
                scopeText = "static" ∨ scopeText = "parent" then
              [{ range := nodeRange nameNode }]
            else []
          | none => []
        else []
      | none => []
    else []
  here ++ (t.namedChildren.attach.flatMap
    (fun c => walkForMemberRefs c.1 source fs targetFqn memberName))
termination_by t.size
decreasing_by
  exact Tree.size_child_lt (List.mem_of_mem_filter c.2)

def memberDeclRefs (fs : FileSymbols) (targetFqn : String) :
    List ReferenceLocation :=
  (fs.symbols.filter (fun s => s.fqn = targetFqn)).map
    (fun s => { range := s.selection_range })

/-- `find_member_references`: a target without `::` returns *before* the
declaration scan. -/
def findMemberReferences (root : Tree) (source : String) (fs : FileSymbols)
    (targetFqn : String) (includeDeclaration : Bool) :
    List ReferenceLocation :=
  match rfindStr targetFqn "::" with
  | none => []
  | some pos =>
    let memberName := strDrop targetFqn (pos + 2)
    (if includeDeclaration then memberDeclRefs fs targetFqn else []) ++
      walkForMemberRefs root source fs targetFqn memberName

/-- `walk_for_constant_refs` (needs the parent kind, hence `Loc`). -/
def walkForConstantRefs (l : Loc) (source : String) (fs : FileSymbols)
    (targetFqn : String) : List ReferenceLocation :=
  let here :=
    if l.t.data.kind = "name" ∨ l.t.data.kind = "qualified_name" then
      let parentKind :=
        match l.parent with
        | some p => p.t.data.kind
        | none => ""
      if ¬ (parentKind = "function_call_expression" ∨
          parentKind = "object_creation_expression" ∨
          parentKind = "class_declaration" ∨
          parentKind = "interface_declaration" ∨
          parentKind = "trait_declaration" ∨
          parentKind = "enum_declaration" ∨
          parentKind = "function_definition" ∨
          parentKind = "named_type" ∨
          parentKind = "use_declaration" ∨
          parentKind = "namespace_use_clause") then
        let text := nodeText source l.t
        if refResolveNameToFqn text fs = targetFqn then
          [{ range := nodeRange l.t }]
        else []
      else []
    else []
  here ++ (l.namedChildLocs.attach.flatMap
    (fun c => walkForConstantRefs c.1 source fs targetFqn))
termination_by l.t.size
decreasing_by
  exact Tree.size_child_lt
    (Loc.childLocs_t_mem (List.mem_of_mem_filter c.2))

def constantDeclRefs (fs : FileSymbols) (targetFqn : String) :
    List ReferenceLocation :=
  (fs.symbols.filter (fun s => s.fqn = targetFqn ∧
      s.kind = PhpSymbolKind.GlobalConstant)).map
    (fun s => { range := s.selection_range })

/-- `find_constant_references`. -/
def findConstantReferences (root : Tree) (source : String) (fs : FileSymbols)
    (targetFqn : String) (includeDeclaration : Bool) :
    List ReferenceLocation :=
  (if includeDeclaration then constantDeclRefs fs targetFqn else []) ++
    walkForConstantRefs (Loc.root root) source fs targetFqn

/-- `find_references_in_file`. -/
def findReferencesInFile (root : Tree) (source : String) (fs : FileSymbols)
    (targetFqn : String) (targetKind : PhpSymbolKind)
    (includeDeclaration : Bool) : List ReferenceLocation :=
  match targetKind with
  | .Class | .Interface | .Trait | .Enum =>
    findClassReferences root source fs targetFqn includeDeclaration
  | .Function =>
    findFunctionReferences root source fs targetFqn includeDeclaration
  | .Method | .Property | .ClassConstant | .EnumCase =>
    findMemberReferences root source fs targetFqn includeDeclaration
  | .GlobalConstant =>
    findConstantReferences root source fs targetFqn includeDeclaration
  | .Namespace => []

/-! ## PHPDoc parser — `php-lsp-parser/src/phpdoc.rs` -/

/-- Rust `str::lines` (ASCII: split on newline, no trailing empty line). -/
def strLines (s : String) : List String :=
  let parts := splitChar s '\n'
  if parts.getLast? = some "" then parts.dropLast else parts

/-- Rust `str::contains(pat)` for a string pattern. -/
def strContainsSub (s pat : String) : Bool :=
  (rfindStr s pat).isSome

theorem splitCharList_ne_nil (l : List Char) (c : Char) :
    splitCharList l c ≠ [] := by
  cases l with
  | nil => unfold splitCharList; simp
  | cons x xs =>
    unfold splitCharList
    by_cases hx : x = c
    · rw [if_pos hx]; simp
    · rw [if_neg hx]
      rcases splitCharList xs c with _ | _ <;> simp

theorem splitCharList_length_le {l : List Char} {c : Char} {p : List Char}
    (h : p ∈ splitCharList l c) : p.length ≤ l.length := by
  induction l generalizing p with
  | nil =>
    unfold splitCharList at h
    simp at h
    simp [h]
  | cons x xs ih =>
    unfold splitCharList at h
    by_cases hx : x = c
    · rw [if_pos hx] at h
      rcases List.mem_cons.mp h with rfl | hm
      · simp
      · exact Nat.le_succ_of_le (ih hm)
    · rw [if_neg hx] at h
      rcases hsp : splitCharList xs c with _ | ⟨hd, tl⟩
      · exact absurd hsp (splitCharList_ne_nil xs c)
      · rw [hsp] at h
        rcases List.mem_cons.mp h with rfl | hm
        · have hhd : hd ∈ splitCharList xs c := by
            rw [hsp]; exact List.mem_cons_self _ _
          simpa using Nat.succ_le_succ (ih hhd)
        · have hp : p ∈ splitCharList xs c := by
            rw [hsp]; exact List.mem_cons_of_mem _ hm
          exact Nat.le_succ_of_le (ih hp)

theorem splitCharList_length_lt {l : List Char} {c : Char} {p : List Char}
    (hc : c ∈ l) (h : p ∈ splitCharList l c) : p.length < l.length := by
  induction l generalizing p with
  | nil => cases hc
  | cons x xs ih =>
    unfold splitCharList at h
    by_cases hx : x = c
    · rw [if_pos hx] at h
      rcases List.mem_cons.mp h with rfl | hm
      · simp
      · exact Nat.lt_succ_of_le (splitCharList_length_le hm)
    · have hcx : c ∈ xs := by
        rcases List.mem_cons.mp hc with he | hm
        · exact absurd he.symm hx
        · exact hm
      rw [if_neg hx] at h
      rcases hsp : splitCharList xs c with _ | ⟨hd, tl⟩
      · exact absurd hsp (splitCharList_ne_nil xs c)
      · rw [hsp] at h
        rcases List.mem_cons.mp h with rfl | hm
        · have hhd : hd ∈ splitCharList xs c := by
            rw [hsp]; exact List.mem_cons_self _ _
          simpa using Nat.succ_lt_succ (ih hcx hhd)
        · have hp : p ∈ splitCharList xs c := by
            rw [hsp]; exact List.mem_cons_of_mem _ hm
          exact Nat.lt_succ_of_lt (ih hcx hp)

theorem strTrim_length_le (s : String) :
    (strTrim s).toList.length ≤ s.toList.length := by
  unfold strTrim
  have h1 : (s.toList.dropWhile (·.isWhitespace)).length ≤ s.toList.length :=
    (List.dropWhile_sublist _).length_le
  have h2 : ((s.toList.dropWhile (·.isWhitespace)).reverse.dropWhile
      (·.isWhitespace)).length ≤
      (s.toList.dropWhile (·.isWhitespace)).reverse.length :=
    (List.dropWhile_sublist _).length_le
  rw [List.length_reverse] at h2
  calc (String.mk (((s.toList.dropWhile (·.isWhitespace)).reverse.dropWhile
        (·.isWhitespace)).reverse)).toList.length
      = ((s.toList.dropWhile (·.isWhitespace)).reverse.dropWhile
        (·.isWhitespace)).reverse.length := rfl
    _ = ((s.toList.dropWhile (·.isWhitespace)).reverse.dropWhile
        (·.isWhitespace)).length := List.length_reverse _
    _ ≤ (s.toList.dropWhile (·.isWhitespace)).length := h2
    _ ≤ s.toList.length := h1

theorem splitChar_length_lt {s : String} {c : Char} {p : String}
    (hc : strContainsChar s c = true) (h : p ∈ splitChar s c) :
    p.toList.length < s.toList.length := by
  unfold splitChar at h
  rcases List.mem_map.mp h with ⟨pl, hpl, rfl⟩
  have hcm : c ∈ s.toList := by
    unfold strContainsChar at hc
    simpa using hc
  have := splitCharList_length_lt hcm hpl
  simpa using this

/-- `parse_type_string` (recursion bounded by the string length: every
split part is strictly shorter once the separator occurs). -/
def parseTypeString (s : String) : TypeInfo :=
  let t := strTrim s
  if hu : strContainsChar t '|' = true then
    .Union (((splitChar t '|').attach.map
      (fun p => parseTypeString (strTrim p.1))))
  else if hi : strContainsChar t '&' = true ∧
      ¬ strContainsSub t "&$" = true then
    .Intersection (((splitChar t '&').attach.map
      (fun p => parseTypeString (strTrim p.1))))
  else
    match hq : stripPre t "?" with
    | some inner => .Nullable (parseTypeString inner)
    | none =>
      if t.toLower = "void" then .Void
      else if t.toLower = "never" then .Never
      else if t.toLower = "mixed" then .Mixed
      else if t.toLower = "self" then .Self_
      else if t.toLower = "static" then .Static_
      else if t.toLower = "parent" then .Parent_
      else .Simple t
termination_by s.toList.length
decreasing_by
  · have h1 := splitChar_length_lt hu p.2
    have h2 := strTrim_length_le p.1
    have h3 : t.toList.length ≤ s.toList.length := strTrim_length_le s
    omega
  · have h1 := splitChar_length_lt hi.1 p.2
    have h2 := strTrim_length_le p.1
    have h3 : t.toList.length ≤ s.toList.length := strTrim_length_le s
    omega
  · have h3 : t.toList.length ≤ s.toList.length := strTrim_length_le s
    unfold stripPre at hq
    by_cases hp : "?".toList.isPrefixOf t.toList
    · rw [if_pos hp] at hq
      have hinner : inner = String.mk (t.toList.drop "?".toList.length) := by
        injection hq with hq'; exact hq'.symm
      subst hinner
      have hpre : "?".toList <+: t.toList :=
        List.isPrefixOf_iff_prefix.mp hp
      have hlen : 1 ≤ t.toList.length := by
        have := hpre.length_le
        simpa using this
      show (String.mk (t.toList.drop "?".toList.length)).toList.length <
        s.toList.length
      have hd : (String.mk (t.toList.drop "?".toList.length)).toList.length =
          t.toList.length - 1 := by
        simp
      omega
    · rw [if_neg hp] at hq
      cases hq

/-- `first_word`, `parse_param_tag`, `parse_property_tag`,
`parse_method_tag`, `parse_tag`, `strip_comment_markers`, `parse_phpdoc`.
`splitn(3, whitespace)` is modelled for the single-space ASCII comments
used here. -/
def splitN3Whitespace (s : String) : List String :=
  let ws := (splitChar s ' ').filter (fun p => ¬ p.isEmpty)
  match ws with
  | [] => []
  | [a] => [a]
  | [a, b] => [a, b]
  | a :: b :: rest => [a, b, String.intercalate " " rest]

def parseParamTag (rest : String) (doc : PhpDoc) : PhpDoc :=
  let parts := splitN3Whitespace rest
  match parts with
  | [] => doc
  | p0 :: more =>
    if p0.toList.head? = some '$' then
      let name := (stripPre p0 "$").getD p0
      { doc with params := doc.params ++
          [{ name := name, type_info := none,
             description := more.head? }] }
    else
      match more with
      | p1 :: more2 =>
        if p1.toList.head? = some '$' then
          let name := (stripPre p1 "$").getD p1
          { doc with params := doc.params ++
              [{ name := name, type_info := some (parseTypeString p0),
                 description := more2.head? }] }
        else doc
      | [] => doc

def parsePropertyTag (rest : String) (doc : PhpDoc) : PhpDoc :=
  let parts := splitN3Whitespace rest
  match parts with
  | p0 :: p1 :: more =>
    let name := (stripPre p1 "$").getD p1
    { doc with properties := doc.properties ++
        [{ name := name, type_info := some (parseTypeString p0),
           description := more.head? }] }
  | _ => doc

def parseMethodTag (rest0 : String) (doc : PhpDoc) : PhpDoc :=
  let rest0 := strTrim rest0
  let (isStatic, rest) :=
    match stripPre rest0 "static" with
    | some r => (true, strTrimStart r)
    | none => (false, rest0)
  match (List.range (rest.toList.length)).find?
      (fun i => rest.toList.get? i = some '(') with
  | none => doc
  | some parenPos =>
    let beforeParen := strTrim (strTake rest parenPos)
    let ws := (splitChar beforeParen ' ').filter (fun p => ¬ p.isEmpty)
    match ws.reverse with
    | [] =>
      { doc with methods := doc.methods ++
          [{ name := beforeParen, return_type := none, params := [],
             is_static := isStatic, description := none }] }
    | [n] =>
      { doc with methods := doc.methods ++
          [{ name := n, return_type := none, params := [],
             is_static := isStatic, description := none }] }
    | n :: rty =>
      { doc with methods := doc.methods ++
          [{ name := n,
             return_type := some (parseTypeString
               (String.intercalate " " rty.reverse)),
             params := [], is_static := isStatic, description := none }] }

def parseTag (line : String) (doc : PhpDoc) : PhpDoc :=
  match stripPre line "@param" with
  | some rest => parseParamTag (strTrim rest) doc
  | none =>
  match stripPre line "@return" with
  | some rest =>
    let rest := strTrim rest
    if ¬ rest.isEmpty then
      { doc with return_type := some (parseTypeString (firstWord rest)) }
    else doc
  | none =>
  match stripPre line "@var" with
  | some rest =>
    let rest := strTrim rest
    if ¬ rest.isEmpty then
      { doc with var_type := some (parseTypeString (firstWord rest)) }
    else doc
  | none =>
  match stripPre line "@throws" with
  | some rest =>
    let rest := strTrim rest
    if ¬ rest.isEmpty then
      { doc with throws := doc.throws ++ [parseTypeString (firstWord rest)] }
    else doc
  | none =>
  match stripPre line "@deprecated" with
  | some rest =>
    let rest := strTrim rest
    let v := some (if rest.isEmpty then "Deprecated" else rest)
    { doc with deprecated := v }
  | none =>
  match stripPre line "@property-read" with
  | some rest => parsePropertyTag (strTrim rest) doc
  | none =>
  match stripPre line "@property-write" with
  | some rest => parsePropertyTag (strTrim rest) doc
  | none =>
  match stripPre line "@property" with
  | some rest => parsePropertyTag (strTrim rest) doc
  | none =>
  match stripPre line "@method" with
  | some rest => parseMethodTag (strTrim rest) doc
  | none => doc

/-- `strip_comment_markers`. -/
def stripCommentMarkers (comment : String) : List String :=
  (strLines comment).foldl
    (fun lines line =>
      let trimmed := strTrim line
      let stripped? : Option String :=
        match stripPre trimmed "/**" with
        | some rest => some (strTrim rest)
        | none =>
          if "*/".toList.isPrefixOf trimmed.toList then none
          else
            match stripPre trimmed "*" with
            | some rest => some (strTrimStart rest)
            | none => some trimmed
      match stripped? with
      | none => lines
      | some stripped =>
        let stripped :=
          if stripped.toList.length ≥ 2 ∧
              (stripped.toList.drop (stripped.toList.length - 2)) =
                "*/".toList then
            strTrimEnd (strTake stripped (stripped.toList.length - 2))
          else stripped
        if ¬ stripped.isEmpty then lines ++ [stripped] else lines)
    []

/-- `parse_phpdoc`. -/
def parsePhpdoc (comment : String) : PhpDoc :=
  let lines := stripCommentMarkers comment
  let st :=
    lines.foldl
      (fun (st : PhpDoc × List String × Bool) line =>
        let (doc, summaryLines, inSummary) := st
        let trimmed := strTrim line
        if trimmed.isEmpty then
          if inSummary ∧ ¬ summaryLines.isEmpty then
            (doc, summaryLines, false)
          else (doc, summaryLines, inSummary)
        else if trimmed.toList.head? = some '@' then
          (parseTag trimmed doc, summaryLines, false)
        else if inSummary then (doc, summaryLines ++ [trimmed], inSummary)
        else (doc, summaryLines, inSummary))
      ({}, [], true)
  let doc := st.1
  if ¬ st.2.1.isEmpty then
    { doc with summary := some (String.intercalate " " st.2.1) }
  else doc

/-! ## Cursor resolver — `php-lsp-parser/src/resolve.rs` -/

inductive RefKind where
  | ClassName | FunctionCall | MethodCall | PropertyAccess
  | StaticPropertyAccess | ClassConstant | GlobalConstant | Variable
  | NamespaceName | Unknown
  deriving DecidableEq, Repr

structure SymbolAtPosition where
  fqn : String
  name : String
  ref_kind : RefKind
  object_expr : Option String
  range : Nat × Nat × Nat × Nat
  deriving DecidableEq, Repr

/-- `resolve_class_name` (resolve.rs; distinct from the references.rs
copy — only `self`/`static`/`parent`/`$this` pass through here). -/
def resolveClassName (name : String) (fs : FileSymbols) : String :=
  if name.toList.head? = some '\\' then trimStartMatchesChar name '\\'
  else if name = "self" ∨ name = "static" ∨ name = "parent" ∨
      name = "$this" then name
  else
    let parts := splitBackslash name
    let firstPart := parts.headD ""
    match fs.use_statements.find? (fun u =>
        u.kind = UseKind.Class ∧ useAlias u = firstPart) with
    | some u =>
      if parts.length = 1 then u.fqn
      else u.fqn ++ "\\" ++ joinBackslash parts.tail
    | none =>
      match fs.namespace_ with
      | some ns => ns ++ "\\" ++ name
      | none => name

/-- `resolve_function_name` (resolve.rs: keeps already-qualified names
stable, unlike the references.rs copy). -/
def resolveFunctionName (name : String) (fs : FileSymbols) : String :=
  if name.toList.head? = some '\\' then trimStartMatchesChar name '\\'
  else
    match fs.use_statements.find? (fun u =>
        u.kind = UseKind.Function ∧ useAlias u = name) with
    | some u => u.fqn
    | none =>
      if strContainsChar name '\\' then name
      else
        match fs.namespace_ with
        | some ns => ns ++ "\\" ++ name
        | none => name

/-- `resolve_constant_name`. -/
def resolveConstantName (name : String) (fs : FileSymbols) : String :=
  if name.toList.head? = some '\\' then trimStartMatchesChar name '\\'
  else
    let parts := splitBackslash name
    let firstPart := parts.headD ""
    match fs.use_statements.find? (fun u =>
        u.kind = UseKind.Constant ∧ useAlias u = firstPart) with
    | some u =>
      if parts.length = 1 then u.fqn
      else u.fqn ++ "\\" ++ joinBackslash parts.tail
    | none =>
      if strContainsChar name '\\' then
        match fs.namespace_ with
        | some ns => ns ++ "\\" ++ name
        | none => name
      else
        match fs.namespace_ with
        | some ns => ns ++ "\\" ++ name
        | none => name

/-- `is_constant_reference_context`. -/
def isConstantReferenceContext (parentKind : String) : Bool :=
  ¬ (parentKind = "class_declaration" ∨
     parentKind = "interface_declaration" ∨
     parentKind = "trait_declaration" ∨
     parentKind = "enum_declaration" ∨
     parentKind = "function_definition" ∨
     parentKind = "method_declaration" ∨
     parentKind = "named_type" ∨
     parentKind = "optional_type" ∨
     parentKind = "union_type" ∨
     parentKind = "intersection_type" ∨
     parentKind = "object_creation_expression" ∨
     parentKind = "function_call_expression" ∨
     parentKind = "scoped_call_expression" ∨
     parentKind = "member_call_expression" ∨
     parentKind = "namespace_use_clause" ∨
     parentKind = "namespace_definition")

/-- `normalize_var_name`. -/
def normalizeVarName (text : String) : String :=
  if text.toList.head? = some '$' then text else "$" ++ text

/-- `is_builtin_non_object_type`. -/
def isBuiltinNonObjectType (name : String) : Bool :=
  let n := (trimStartMatchesChar name '\\').toLower
  n = "int" ∨ n = "float" ∨ n = "string" ∨ n = "bool" ∨ n = "boolean" ∨
  n = "array" ∨ n = "object" ∨ n = "null" ∨ n = "void" ∨ n = "never" ∨
  n = "mixed" ∨ n = "callable" ∨ n = "iterable" ∨ n = "true" ∨
  n = "false" ∨ n = "resource" ∨ n = "self" ∨ n = "static" ∨ n = "parent"

/-- `find_enclosing_function`: nearest enclosing
function/method/arrow/anonymous-function node. -/
def findEnclosingFunction (l : Loc) : Option Loc :=
  match h : l.up with
  | [] => none
  | (p, _) :: rest =>
    let pl : Loc := ⟨p, rest⟩
    if pl.t.data.kind = "method_declaration" ∨
        pl.t.data.kind = "function_definition" ∨
        pl.t.data.kind = "arrow_function" ∨
        pl.t.data.kind = "anonymous_function_creation_expression" then
      some pl
    else findEnclosingFunction pl
termination_by l.up.length
decreasing_by
  simp [pl, h]

/-- `find_root_node`. -/
def Loc.rootLoc (l : Loc) : Loc :=
  match h : l.up with
  | [] => l
  | (p, _) :: rest => Loc.rootLoc ⟨p, rest⟩
termination_by l.up.length
decreasing_by
  simp [h]

/-- `find_parent_class_fqn`. -/
def findParentClassFqn (l : Loc) (source : String) (fs : FileSymbols) :
    Option String :=
  match h : l.up with
  | [] => none
  | (p, _) :: rest =>
    let pl : Loc := ⟨p, rest⟩
    if pl.t.data.kind = "class_declaration" ∨
        pl.t.data.kind = "interface_declaration" ∨
        pl.t.data.kind = "trait_declaration" ∨
        pl.t.data.kind = "enum_declaration" then
      match pl.t.childByField "name" with
      | some nameNode => some (resolveClassName (nodeText source nameNode) fs)
      | none => none
    else findParentClassFqn pl source fs
termination_by l.up.length
decreasing_by
  simp [pl, h]

/-- The `while !node.is_named()` climb of `find_node_at_point`. -/
def climbToNamed (l : Loc) : Option Loc :=
  if l.t.data.named then some l
  else
    match h : l.up with
    | [] => none
    | (p, _) :: rest => climbToNamed ⟨p, rest⟩
termination_by l.up.length
decreasing_by
  simp [h]

/-- `find_node_at_point`. -/
def findNodeAtPoint (root : Tree) (pt : Nat × Nat) : Option Loc :=
  match descendantForPoint root pt with
  | none => none
  | some l0 =>
    match climbToNamed l0 with
    | none => none
    | some l =>
      if l.t.data.kind = "name" then
        match l.parent with
        | some par =>
          if par.t.data.kind = "variable_name" then some par else some l
        | none => some l
      else some l

/-- `extract_type_name`. -/
def extractTypeName (t : Tree) (source : String) : Option String :=
  if t.data.kind = "named_type" then
    (t.namedChildren.find? (fun c =>
        c.data.kind = "name" ∨ c.data.kind = "qualified_name")).map
      (fun c => nodeText source c)
  else if t.data.kind = "optional_type" then
    t.namedChildren.attach.findSome? (fun c => extractTypeName c.1 source)
  else if t.data.kind = "name" ∨ t.data.kind = "qualified_name" then
    some (nodeText source t)
  else none
termination_by t.size
decreasing_by
  exact Tree.size_child_lt (List.mem_of_mem_filter c.2)

/-- `find_preceding_phpdoc_comment`: unlike the extractor's doc-comment
search this stops at the first *named* sibling. -/
def findPrecedingPhpdocAux (cs : List Tree) (i : Nat) (source : String) :
    Option String :=
  match i with
  | 0 => none
  | j + 1 =>
    match cs.get? j with
    | none => none
    | some c =>
      if c.data.kind = "comment" then
        let text := nodeText source c
        if "/**".toList.isPrefixOf text.toList then some text else none
      else if c.data.named then none
      else findPrecedingPhpdocAux cs j source

def findPrecedingPhpdocComment (l : Loc) (source : String) : Option String :=
  match l.up with
  | [] => none
  | (p, i) :: _ => findPrecedingPhpdocAux p.children i source

/-- Rust `split_whitespace`. -/
def splitWsAux : List Char → List Char → List (List Char)
  | [], cur => if cur.isEmpty then [] else [cur.reverse]
  | c :: cs, cur =>
    if c.isWhitespace then
      if cur.isEmpty then splitWsAux cs []
      else cur.reverse :: splitWsAux cs []
    else splitWsAux cs (c :: cur)

def splitWhitespace (s : String) : List String :=
  (splitWsAux s.toList []).map String.mk

/-- `normalize_doc_var_token`. -/
def normalizeDocVarToken (token : String) : Option String :=
  let isTrimmable : Char → Bool := fun c =>
    c = ',' ∨ c = ';' ∨ c = ')' ∨ c = '('
  let trimmed := String.mk
    (((token.toList.dropWhile isTrimmable).reverse.dropWhile
      isTrimmable).reverse)
  if ¬ trimmed.toList.head? = some '$' then none
  else
    let ident := String.mk (trimmed.toList.takeWhile (fun c =>
      c.isAlphanum ∨ c = '_' ∨ c = '$'))
    if ident.toList.length > 1 then some ident else none

/-- `parse_tagged_var_name`. -/
def parseTaggedVarName (comment : String) : Option String :=
  (strLines comment).findSome? (fun rawLine =>
    let line := strTrim rawLine
    let line :=
      match stripPre line "/**" with
      | some rest => strTrimStart rest
      | none => line
    let line :=
      match stripPre line "*" with
      | some rest => strTrimStart rest
      | none => line
    if "*/".toList.isPrefixOf line.toList ∨ line.isEmpty then none
    else
      match stripPre line "@var" with
      | some rest => (splitWhitespace rest).findSome? normalizeDocVarToken
      | none => none)

/-- `resolve_phpdoc_var_type`. -/
def resolvePhpdocVarType (ti : TypeInfo) (contextNode : Loc)
    (source : String) (fs : FileSymbols) : Option String :=
  match ti with
  | .Simple name =>
    if isBuiltinNonObjectType name then none
    else some (resolveClassName name fs)
  | .Nullable inner => resolvePhpdocVarType inner contextNode source fs
  | .Union types =>
    types.attach.findSome?
      (fun ty => resolvePhpdocVarType ty.1 contextNode source fs)
  | .Intersection types =>
    types.attach.findSome?
      (fun ty => resolvePhpdocVarType ty.1 contextNode source fs)
  | .Self_ => findParentClassFqn contextNode source fs
  | .Static_ => findParentClassFqn contextNode source fs
  | .Parent_ => none
  | .Void => none
  | .Never => none
  | .Mixed => none
termination_by sizeOf ti
decreasing_by
  · simp
  · have := List.sizeOf_lt_of_mem ty.2
    simp only [TypeInfo.Union.sizeOf_spec]
    omega
  · have := List.sizeOf_lt_of_mem ty.2
    simp only [TypeInfo.Intersection.sizeOf_spec]
    omega

/-- `assignment_rhs_for_var`. -/
def assignmentRhsForVar (stmt : Loc) (varName : String) (source : String) :
    Option Loc :=
  if ¬ stmt.t.data.kind = "expression_statement" then none
  else
    match stmt.namedChildLoc 0 with
    | none => none
    | some expr =>
      if ¬ expr.t.data.kind = "assignment_expression" then none
      else
        match expr.childByFieldLoc "left" with
        | none => none
        | some left =>
          match expr.childByFieldLoc "right" with
          | none => none
          | some right =>
            if normalizeVarName (nodeText source left.t) = varName then
              some right
            else none

/-- `extract_preceding_phpdoc_var_type`. -/
def extractPrecedingPhpdocVarType (stmt : Loc) (varName : String)
    (allowUnnamedVarTag : Bool) (source : String) (fs : FileSymbols) :
    Option String :=
  match findPrecedingPhpdocComment stmt source with
  | none => none
  | some comment =>
    let phpdoc := parsePhpdoc comment
    match phpdoc.var_type with
    | none => none
    | some typeInfo =>
      match parseTaggedVarName comment with
      | some name =>
        if ¬ normalizeVarName name = varName then none
        else resolvePhpdocVarType typeInfo stmt source fs
      | none =>
        if ¬ allowUnnamedVarTag then none
        else resolvePhpdocVarType typeInfo stmt source fs

mutual

/-- `try_resolve_object_type`.

The Rust recursion `try_resolve_object_type → infer_variable_type →
find_variable_type_before_usage → try_resolve_object_type` has no
structural bound (on pathological inputs such as `$x = $x;` the Rust code
recurses forever); the embedding threads a fuel that drops by one on each
`try_resolve_object_type` entry and answers `none` when exhausted.
`symbolAtPosition` seeds fuel with the source length + 1, far beyond any
chain the inputs below reach, so on terminating runs it agrees with the
Rust semantics. -/
def tryResolveObjectType (fuel : Nat) (objectNode : Loc) (source : String)
    (fs : FileSymbols) : Option String :=
  match fuel with
  | 0 => none
  | f + 1 =>
    if objectNode.t.data.kind = "object_creation_expression" then
      match objectNode.t.namedChildren.find? (fun c =>
          c.data.kind = "name" ∨ c.data.kind = "qualified_name") with
      | some child =>
        some (resolveClassName (nodeText source child) fs)
      | none => none
    else if objectNode.t.data.kind = "parenthesized_expression" then
      objectNode.namedChildLocs.findSome?
        (fun c => tryResolveObjectType f c source fs)
    else if objectNode.t.data.kind = "variable_name" then
      let text := nodeText source objectNode.t
      if text = "$this" then findParentClassFqn objectNode source fs
      else inferVariableType f objectNode text source fs
    else if objectNode.t.data.kind = "name" ∨
        objectNode.t.data.kind = "qualified_name" then
      some (resolveClassName (nodeText source objectNode.t) fs)
    else none
termination_by (fuel, 0, 0)

/-- `infer_variable_type`. -/
def inferVariableType (fuel : Nat) (varNode : Loc) (varName : String)
    (source : String) (fs : FileSymbols) : Option String :=
  let scope :=
    match findEnclosingFunction varNode with
    | some s => s
    | none => varNode.rootLoc
  inferVariableTypeInScope fuel scope varName varNode.t.data.startByte
    source fs
termination_by (fuel, 3, 0)

/-- `infer_variable_type_in_scope`. -/
def inferVariableTypeInScope (fuel : Nat) (scopeNode : Loc)
    (varName : String) (usageStart : Nat) (source : String)
    (fs : FileSymbols) : Option String :=
  let fromParams :=
    match scopeNode.t.childByField "parameters" with
    | some params =>
      params.namedChildren.findSome? (fun param =>
        if param.data.kind = "simple_parameter" ∨
            param.data.kind = "property_promotion_parameter" then
          match param.childByField "name" with
          | some nameNode =>
            if normalizeVarName (nodeText source nameNode) = varName then
              match param.childByField "type" with
              | some typeNode =>
                match extractTypeName typeNode source with
                | some className => some (resolveClassName className fs)
                | none => none
              | none => none
            else none
          | none => none
        else none)
    | none => none
  match fromParams with
  | some r => some r
  | none =>
    let statements :=
      match scopeNode.childByFieldLoc "body" with
      | some b => b
      | none => scopeNode
    findVariableTypeBeforeUsage fuel statements varName usageStart source fs
termination_by (fuel, 2, 0)

/-- `find_variable_type_before_usage` — the statement loop, with the
`inferred` state threaded. -/
def fvtbuLoop (fuel : Nat) (stmts : List Loc) (varName : String)
    (usageStart : Nat) (source : String) (fs : FileSymbols)
    (inferred : Option (Nat × String)) : Option (Nat × String) :=
  match stmts with
  | [] => inferred
  | stmt :: rest =>
    if usageStart ≤ stmt.t.data.startByte then inferred
    else
      let rhs := assignmentRhsForVar stmt varName source
      match extractPrecedingPhpdocVarType stmt varName rhs.isSome source
          fs with
      | some docType =>
        fvtbuLoop fuel rest varName usageStart source fs
          (some (stmt.t.data.startByte, docType))
      | none =>
        match rhs with
        | some right =>
          match tryResolveObjectType fuel right source fs with
          | some resolved =>
            fvtbuLoop fuel rest varName usageStart source fs
              (some (stmt.t.data.startByte, resolved))
          | none =>
            fvtbuLoop fuel rest varName usageStart source fs inferred
        | none => fvtbuLoop fuel rest varName usageStart source fs inferred
termination_by (fuel, 1, stmts.length)

def findVariableTypeBeforeUsage (fuel : Nat) (body : Loc)
    (varName : String) (usageStart : Nat) (source : String)
    (fs : FileSymbols) : Option String :=
  (fvtbuLoop fuel body.namedChildLocs varName usageStart source fs
    none).map (·.2)
termination_by (fuel, 1, body.namedChildLocs.length + 1)

end

/-- `resolve_name_node`. -/
def resolveNameNode (node : Loc) (source : String) (fs : FileSymbols) :
    Option SymbolAtPosition :=
  let text := nodeText source node.t
  let parentKind :=
    match node.parent with
    | some p => p.t.data.kind
    | none => ""
  if text.toList.head? = some '$' then
    some { fqn := text, name := text, ref_kind := .Variable,
           object_expr := none, range := nodeRange node.t }
  else if isConstantReferenceContext parentKind then
    some { fqn := resolveConstantName text fs, name := text,
           ref_kind := .GlobalConstant, object_expr := none,
           range := nodeRange node.t }
  else
    some { fqn := resolveClassName text fs, name := text,
           ref_kind := .ClassName, object_expr := none,
           range := nodeRange node.t }

/-- `resolve_node` — the big `match parent_kind` of resolve.rs, branch by
branch and in source order (the Rust guarded arms fall through exactly as
the `if`/`else if` chain does).  `fuel` feeds `tryResolveObjectType`. -/
def resolveNode (fuel : Nat) (node : Loc) (source : String)
    (fs : FileSymbols) : Option SymbolAtPosition :=
  match node.parent with
  | none => none
  | some parent =>
    let nodeText' := nodeText source node.t
    let parentKind := parent.t.data.kind
    if parentKind = "member_access_expression" then
      let nameField := parent.t.childByField "name"
      let objectField := parent.childByFieldLoc "object"
      if nameField.map (·.data.id) = some node.t.data.id then
        let objectText := objectField.map (fun o => nodeText source o.t)
        let propertyName :=
          if nodeText'.toList.head? = some '$' then nodeText'
          else "$" ++ nodeText'
        let classFqn := objectField.bind
          (fun o => tryResolveObjectType fuel o source fs)
        let fqn :=
          match classFqn with
          | some cls => cls ++ "::" ++ propertyName
          | none => propertyName
        some { fqn := fqn, name := nodeText', ref_kind := .PropertyAccess,
               object_expr := objectText, range := nodeRange node.t }
      else resolveNameNode node source fs
    else if parentKind = "member_call_expression" then
      let nameField := parent.t.childByField "name"
      let objectField := parent.childByFieldLoc "object"
      if nameField.map (·.data.id) = some node.t.data.id then
        let objectText := objectField.map (fun o => nodeText source o.t)
        let classFqn := objectField.bind
          (fun o => tryResolveObjectType fuel o source fs)
        let fqn :=
          match classFqn with
          | some cls => cls ++ "::" ++ nodeText'
          | none => nodeText'
        some { fqn := fqn, name := nodeText', ref_kind := .MethodCall,
               object_expr := objectText, range := nodeRange node.t }
      else resolveNameNode node source fs
    else if parentKind = "scoped_call_expression" then
      let nameField := parent.t.childByField "name"
      let scopeField := parent.t.childByField "scope"
      if nameField.map (·.data.id) = some node.t.data.id then
        let scopeText := scopeField.map (fun sN => nodeText source sN)
        let scopeFqn :=
          match scopeText with
          | some st =>
            if st = "self" ∨ st = "static" then
              match findParentClassFqn parent source fs with
              | some cls => cls
              | none => st
            else resolveClassName st fs
          | none => ""
        some { fqn := if scopeFqn = "" then nodeText'
                 else scopeFqn ++ "::" ++ nodeText',
               name := nodeText', ref_kind := .MethodCall,
               object_expr := scopeText, range := nodeRange node.t }
      else
        let resolved :=
          if nodeText' = "self" ∨ nodeText' = "static" then
            match findParentClassFqn parent source fs with
            | some cls => cls
            | none => resolveClassName nodeText' fs
          else resolveClassName nodeText' fs
        some { fqn := resolved, name := nodeText', ref_kind := .ClassName,
               object_expr := none, range := nodeRange node.t }
    else if parentKind = "scoped_property_access_expression" then
      let nameField := parent.t.childByField "name"
      let scopeField := parent.t.childByField "scope"
      if nameField.map (·.data.id) = some node.t.data.id then
        let scopeText := scopeField.map (fun sN => nodeText source sN)
        let scopeFqn :=
          match scopeText with
          | some st =>
            if st = "self" ∨ st = "static" then
              match findParentClassFqn parent source fs with
              | some cls => cls
              | none => st
            else resolveClassName st fs
          | none => ""
        let refKind :=
          if nodeText'.toList.head? = some '$' then
            RefKind.StaticPropertyAccess
          else RefKind.ClassConstant
        some { fqn := if scopeFqn = "" then nodeText'
                 else scopeFqn ++ "::" ++ nodeText',
               name := nodeText', ref_kind := refKind,
               object_expr := scopeText, range := nodeRange node.t }
      else
        let resolved :=
          if nodeText' = "self" ∨ nodeText' = "static" then
            match findParentClassFqn parent source fs with
            | some cls => cls
            | none => resolveClassName nodeText' fs
          else resolveClassName nodeText' fs
        some { fqn := resolved, name := nodeText', ref_kind := .ClassName,
               object_expr := none, range := nodeRange node.t }
    else if parentKind = "function_call_expression" then
      let funcField := parent.t.childByField "function"
      if funcField.map (·.data.id) = some node.t.data.id ∨
          (node.t.data.kind = "name" ∨ node.t.data.kind = "qualified_name" ∨
           node.t.data.kind = "namespace_name") then
        let functionText :=
          match funcField with
          | some f => nodeText source f
          | none => nodeText'
        some { fqn := resolveFunctionName functionText fs,
               name := nodeText', ref_kind := .FunctionCall,
               object_expr := none, range := nodeRange node.t }
      else resolveNameNode node source fs
    else if (parentKind = "qualified_name" ∨
        parentKind = "namespace_name") ∧
        ((parent.parent.map (fun gp => gp.t.data.kind)) =
          some "function_call_expression") then
      let qnameText := nodeText source parent.t
      some { fqn := resolveFunctionName qnameText fs, name := nodeText',
             ref_kind := .FunctionCall, object_expr := none,
             range := nodeRange node.t }
    else if parentKind = "class_constant_access_expression" then
      let scopeNode := parent.t.namedChild 0
      let nameNode := parent.t.namedChild 1
      if nameNode.map (·.data.id) = some node.t.data.id then
        let scopeText := scopeNode.map (fun sN => nodeText source sN)
        let scopeFqn :=
          match scopeText with
          | some st =>
            if st = "self" ∨ st = "static" then
              match findParentClassFqn parent source fs with
              | some cls => cls
              | none => st
            else resolveClassName st fs
          | none => ""
        some { fqn := if scopeFqn = "" then nodeText'
                 else scopeFqn ++ "::" ++ nodeText',
               name := nodeText', ref_kind := .ClassConstant,
               object_expr := scopeText, range := nodeRange node.t }
      else if scopeNode.map (·.data.id) = some node.t.data.id then
        let resolved :=
          if nodeText' = "self" ∨ nodeText' = "static" then
            match findParentClassFqn parent source fs with
            | some cls => cls
            | none => resolveClassName nodeText' fs
          else resolveClassName nodeText' fs
        some { fqn := resolved, name := nodeText', ref_kind := .ClassName,
               object_expr := none, range := nodeRange node.t }
      else none
    else if parentKind = "object_creation_expression" then
      some { fqn := resolveClassName nodeText' fs, name := nodeText',
             ref_kind := .ClassName, object_expr := none,
             range := nodeRange node.t }
    else if parentKind = "class_declaration" ∨
        parentKind = "interface_declaration" ∨
        parentKind = "trait_declaration" ∨
        parentKind = "enum_declaration" then
      let nameField := parent.t.childByField "name"
      if nameField.map (·.data.id) = some node.t.data.id then
        some { fqn := resolveClassName nodeText' fs, name := nodeText',
               ref_kind := .ClassName, object_expr := none,
               range := nodeRange node.t }
      else none
    else if parentKind = "function_definition" ∨
        parentKind = "method_declaration" then
      let nameField := parent.t.childByField "name"
      if nameField.map (·.data.id) = some node.t.data.id then
        let fqn :=
          if parentKind = "method_declaration" then
            match findParentClassFqn parent source fs with
            | some cls => cls ++ "::" ++ nodeText'
            | none => nodeText'
          else resolveFunctionName nodeText' fs
        let refKind :=
          if parentKind = "method_declaration" then RefKind.MethodCall
          else RefKind.FunctionCall
        some { fqn := fqn, name := nodeText', ref_kind := refKind,
               object_expr := none, range := nodeRange node.t }
      else none
    else if parentKind = "base_clause" ∨
        parentKind = "class_interface_clause" ∨
        parentKind = "type_list" then
      some { fqn := resolveClassName nodeText' fs, name := nodeText',
             ref_kind := .ClassName, object_expr := none,
             range := nodeRange node.t }
    else if parentKind = "named_type" ∨ parentKind = "optional_type" ∨
        parentKind = "union_type" ∨ parentKind = "intersection_type" then
      if node.t.data.kind = "name" ∨
          node.t.data.kind = "qualified_name" then
        some { fqn := resolveClassName nodeText' fs, name := nodeText',
               ref_kind := .ClassName, object_expr := none,
               range := nodeRange node.t }
      else none
    else if node.t.data.kind = "variable_name" ∨
        (node.t.data.kind = "name" ∧
          nodeText'.toList.head? = some '$') then
      some { fqn := nodeText', name := nodeText', ref_kind := .Variable,
             object_expr := none, range := nodeRange node.t }
    else if node.t.data.kind = "qualified_name" ∨
        node.t.data.kind = "name" then
      resolveNameNode node source fs
    else
      if node.t.data.kind = "name" ∨ node.t.data.kind = "qualified_name" ∨
          node.t.data.kind = "namespace_name" then
        resolveNameNode node source fs
      else none

/-- `symbol_at_position`.  Fuel for the object-type inference is seeded
with the source length + 1 (see `tryResolveObjectType`). -/
def symbolAtPosition (tree : Tree) (source : String) (line character : Nat)
    (fs : FileSymbols) : Option SymbolAtPosition :=
  match findNodeAtPoint tree (line, character) with
  | none => none
  | some node => resolveNode (source.toList.length + 1) node source fs

/-! ## Rename — `php-lsp-server/src/server.rs` -/

structure TextEdit where
  range : Nat × Nat × Nat × Nat
  new_text : String
  deriving DecidableEq, Repr

/-- `normalize_variable_new_name`. -/
def normalizeVariableNewName (newName : String) : Option String :=
  let trimmed := strTrim newName
  if trimmed.isEmpty then none
  else
    let raw := (stripPre trimmed "$").getD trimmed
    if raw.isEmpty then none
    else
      match raw.toList with
      | [] => none
      | first :: rest =>
        if ¬ (first = '_' ∨ first.isAlpha) then none
        else if ¬ rest.all (fun c => c = '_' ∨ c.isAlphanum) then none
        else some ("$" ++ raw)

/-- `normalize_property_new_name`. -/
def normalizePropertyNewName (newName : String) : Option String :=
  (normalizeVariableNewName newName).map
    (fun v => trimStartMatchesChar v '$')

/-- `is_renameable_variable`. -/
def isRenameableVariable (varName : String) : Bool :=
  ¬ (varName = "$this" ∨ varName = "$GLOBALS" ∨ varName = "$_SERVER" ∨
     varName = "$_GET" ∨ varName = "$_POST" ∨ varName = "$_FILES" ∨
     varName = "$_COOKIE" ∨ varName = "$_SESSION" ∨
     varName = "$_REQUEST" ∨ varName = "$_ENV" ∨
     varName = "$http_response_header" ∨ varName = "$argc" ∨
     varName = "$argv")

/-- Rust `str::split_inclusive('\n')`. -/
def splitInclNlAux : List Char → List Char → List (List Char)
  | [], cur => if cur.isEmpty then [] else [cur.reverse]
  | c :: cs, cur =>
    if c = '\n' then (c :: cur).reverse :: splitInclNlAux cs []
    else splitInclNlAux cs (c :: cur)

/-- The per-line scan of `line_col_to_byte` (ASCII: `len_utf8 = 1`). -/
def lcbLine : List Char → Nat → Nat → Nat → Option Nat
  | [], col, charCol, byteCol =>
    if charCol = col then some byteCol else none
  | ch :: rest, col, charCol, byteCol =>
    if charCol = col then some byteCol
    else
      if ch = '\n' then
        if charCol + 1 = col then some (byteCol + 1) else none
      else lcbLine rest col (charCol + 1) (byteCol + 1)

def lcbLoop : List (List Char) → Nat → Nat → Nat → Nat → Option Nat
  | [], _, _, _, _ => none
  | l :: rest, line, curLine, off, col =>
    if curLine = line then (lcbLine l col 0 0).map (fun b => off + b)
    else lcbLoop rest line (curLine + 1) (off + l.length) col

/-- `line_col_to_byte`. -/
def lineColToByte (source : String) (line col : Nat) : Option Nat :=
  lcbLoop (splitInclNlAux source.toList []) line 0 0 col

/-- `range_starts_with_dollar`. -/
def rangeStartsWithDollar (source : String)
    (range : Nat × Nat × Nat × Nat) : Bool :=
  match lineColToByte source range.1 range.2.1 with
  | none => false
  | some start => source.toList.get? start = some '$'

/-- `resolve_fqn_with_fallback`. -/
def resolveFqnWithFallback (idx : WorkspaceIndex) (fqn : String)
    (refKind : RefKind) : Option SymbolInfo :=
  match resolveFqn idx fqn with
  | some sym => some sym
  | none =>
    if refKind = RefKind.FunctionCall ∨ refKind = RefKind.GlobalConstant
    then
      match rsplitOnceStr fqn "\\" with
      | some (_, shortName) => resolveFqn idx shortName
      | none => none
    else none

/-- Outcome of the rename handler (`Err(invalid_params)`, `Ok(None)`, the
local-variable branch, or `Ok(Some(WorkspaceEdit))`). -/
inductive RenameOutcome where
  | invalidParams (msg : String)
  | noResult
  | variableBranch
  | edits (changes : List (String × List TextEdit))
  deriving DecidableEq, Repr

/-- The tail of the rename handler: everything after a non-variable
symbol has been resolved at the cursor (server.rs lines 1370–1499). -/
def renameApplyEdits (openFiles : List (String × Tree × String))
    (idx : WorkspaceIndex) (newName : String) (sym : SymbolAtPosition) :
    RenameOutcome :=
  let kindOpt : Option PhpSymbolKind :=
    match sym.ref_kind with
    | .ClassName => some .Class
    | .FunctionCall => some .Function
    | .MethodCall => some .Method
    | .PropertyAccess => some .Property
    | .StaticPropertyAccess => some .Property
    | .ClassConstant => some .ClassConstant
    | .GlobalConstant => some .GlobalConstant
    | _ => none
  match kindOpt with
  | none => .noResult
  | some kind =>
    let (targetFqn, targetKind) :=
      match resolveFqnWithFallback idx sym.fqn sym.ref_kind with
      | some resolved => (resolved.fqn, resolved.kind)
      | none => (sym.fqn, kind)
    let propertyNewNameOpt : Option (Option String) :=
      if targetKind = PhpSymbolKind.Property then
        match normalizePropertyNewName newName with
        | some n => some (some n)
        | none => none
      else some none
    match propertyNewNameOpt with
    | none => .invalidParams "Invalid property name"
    | some propertyNewName =>
      let builtinHit :=
        match resolveFqn idx targetFqn with
        | some sym2 => sym2.modifiers.is_builtin
        | none => false
      if builtinHit then
        .invalidParams "Cannot rename built-in symbols"
      else
        let changes :=
          idx.file_symbols.foldl
            (fun (changes : List (String × List TextEdit)) entry =>
              match alLookup openFiles entry.1 with
              | none => changes
              | some (ftree, fsource) =>
                let refs := findReferencesInFile ftree fsource
                  entry.2 targetFqn targetKind true
                if refs.isEmpty then changes
                else
                  let edits := refs.map (fun r =>
                    { range := r.range,
                      new_text :=
                        if targetKind = PhpSymbolKind.Property ∧
                            rangeStartsWithDollar fsource r.range
                        then
                          "$" ++ ((propertyNewName).getD
                            (trimStartMatchesChar newName '$'))
                        else
                          (propertyNewName).getD newName })
                  match alLookup changes entry.1 with
                  | some old =>
                    alInsert changes entry.1 (old ++ edits)
                  | none => changes ++ [(entry.1, edits)])
            []
        if changes.isEmpty then .noResult else .edits changes

/-- The rename handler of server.rs for non-variable symbols.

`openFiles` maps URIs to (tree, source).  Two deliberate restrictions,
neither reachable in the scenarios proved below: the local-variable
branch (source lines 1332–1368) is answered with the `variableBranch`
marker instead of being modelled, and files present in the index but not
in `openFiles` are skipped where the source re-parses them from disk. -/
def renameAtPosition (openFiles : List (String × Tree × String))
    (idx : WorkspaceIndex) (uriStr : String) (line character : Nat)
    (newName : String) : RenameOutcome :=
  if newName.isEmpty ∨ strContainsChar newName ' ' ∨
      strContainsChar newName '\\' then
    .invalidParams "Invalid new name"
  else
    match alLookup openFiles uriStr with
    | none => .noResult
    | some (tree, source) =>
      let fileSymbols := extractFileSymbols tree source uriStr
      match symbolAtPosition tree source line character fileSymbols with
      | none => .noResult
      | some sym =>
        if sym.ref_kind = RefKind.Variable then .variableBranch
        else if sym.ref_kind = RefKind.Unknown ∨
            sym.ref_kind = RefKind.NamespaceName then .noResult
        else renameApplyEdits openFiles idx newName sym

/-! ## Eliminating `List.attach` from the recursive walkers' equations -/

theorem attach_foldl_eq {α β : Type} (l : List α) (f : β → α → β)
    (init : β) :
    l.attach.foldl (fun acc c => f acc c.1) init = l.foldl f init := by
  conv_rhs => rw [← List.attach_map_subtype_val l]
  rw [List.foldl_map]

theorem attach_flatMap_eq {α β : Type} (l : List α) (f : α → List β) :
    l.attach.flatMap (fun c => f c.1) = l.flatMap f := by
  conv_rhs => rw [← List.attach_map_subtype_val l]
  rw [List.flatMap_map]

theorem attach_findSome_eq {α β : Type} (l : List α) (f : α → Option β) :
    l.attach.findSome? (fun c => f c.1) = l.findSome? f := by
  conv_rhs => rw [← List.attach_map_subtype_val l]
  rw [List.findSome?_map]
  rfl

theorem attach_filter_map_eq {α β : Type} (l : List α) (p : α → Bool)
    (f : α → β) :
    ((l.attach.filter (fun c => p c.1)).map (fun c => f c.1)) =
      (l.filter p).map f := by
  conv_rhs => rw [← List.attach_map_subtype_val l]
  rw [List.filter_map, List.map_map]
  rfl

/-! ## Non-dependent equation lemmas for the remaining well-founded
recursions (their definitions name the match scrutinee for the
termination proof, which blocks rewriting; these restate the equations
with plain matches, and without `List.attach`). -/

theorem descendToPoint_eq (l : Loc) (p : Nat × Nat) :
    descendToPoint l p =
    match l.childLocs.find? (fun c => treeContainsPoint c.t p) with
    | some c => descendToPoint c p
    | none => l := by
  rw [descendToPoint.eq_def]
  split
  next c h => rw [h]
  next h => rw [h]

theorem climbToNamed_eq (l : Loc) :
    climbToNamed l =
    if l.t.data.named then some l
    else
      match l.up with
      | [] => none
      | (p, _) :: rest => climbToNamed ⟨p, rest⟩ := by
  rw [climbToNamed.eq_def]
  rcases h : l.up with _ | ⟨⟨p, i⟩, rest⟩
  · simp only [h]
  · simp only [h]

theorem findEnclosingFunction_eq (l : Loc) :
    findEnclosingFunction l =
    match l.up with
    | [] => none
    | (p, _) :: rest =>
      let pl : Loc := ⟨p, rest⟩
      if pl.t.data.kind = "method_declaration" ∨
          pl.t.data.kind = "function_definition" ∨
          pl.t.data.kind = "arrow_function" ∨
          pl.t.data.kind = "anonymous_function_creation_expression" then
        some pl
      else findEnclosingFunction pl := by
  rw [findEnclosingFunction.eq_def]
  rcases h : l.up with _ | ⟨⟨p, i⟩, rest⟩
  · simp only [h]
  · simp only [h]

theorem findParentClassFqn_eq (l : Loc) (source : String)
    (fs : FileSymbols) :
    findParentClassFqn l source fs =
    match l.up with
    | [] => none
    | (p, _) :: rest =>
      let pl : Loc := ⟨p, rest⟩
      if pl.t.data.kind = "class_declaration" ∨
          pl.t.data.kind = "interface_declaration" ∨
          pl.t.data.kind = "trait_declaration" ∨
          pl.t.data.kind = "enum_declaration" then
        match pl.t.childByField "name" with
        | some nameNode =>
          some (resolveClassName (nodeText source nameNode) fs)
        | none => none
      else findParentClassFqn pl source fs := by
  rw [findParentClassFqn.eq_def]
  rcases h : l.up with _ | ⟨⟨p, i⟩, rest⟩
  · simp only [h]
  · simp only [h]

theorem extractChildren_eq (l : Loc) (source uri : String)
    (result : FileSymbols) (currentNs : Option String) :
    extractChildren l source uri result currentNs =
    l.childLocs.foldl
      (fun result c => extractFromNode c source uri result currentNs)
      result := by
  rw [extractChildren.eq_def]
  exact attach_foldl_eq l.childLocs
    (fun result c => extractFromNode c source uri result currentNs) result

theorem tryResolveObjectType_succ (f : Nat) (objectNode : Loc)
    (source : String) (fs : FileSymbols) :
    tryResolveObjectType (f + 1) objectNode source fs =
    (if objectNode.t.data.kind = "object_creation_expression" then
      match objectNode.t.namedChildren.find? (fun c =>
          c.data.kind = "name" ∨ c.data.kind = "qualified_name") with
      | some child =>
        some (resolveClassName (nodeText source child) fs)
      | none => none
    else if objectNode.t.data.kind = "parenthesized_expression" then
      objectNode.namedChildLocs.findSome?
        (fun c => tryResolveObjectType f c source fs)
    else if objectNode.t.data.kind = "variable_name" then
      let text := nodeText source objectNode.t
      if text = "$this" then findParentClassFqn objectNode source fs
      else inferVariableType f objectNode text source fs
    else if objectNode.t.data.kind = "name" ∨
        objectNode.t.data.kind = "qualified_name" then
      some (resolveClassName (nodeText source objectNode.t) fs)
    else none) := by
  rw [tryResolveObjectType.eq_def]

theorem walkForMemberRefs_eq (t : Tree) (source : String)
    (fs : FileSymbols) (targetFqn memberName : String) :
    walkForMemberRefs t source fs targetFqn memberName =
    (if t.data.kind = "member_access_expression" ∨
        t.data.kind = "member_call_expression" then
      match t.childByField "name" with
      | some nameNode =>
        if nodeText source nameNode = memberName then
          [{ range := nodeRange nameNode }]
        else []
      | none => []
    else if t.data.kind = "scoped_call_expression" ∨
        t.data.kind = "scoped_property_access_expression" then
      match t.childByField "name" with
      | some nameNode =>
        if nodeText source nameNode = memberName then
          match t.childByField "scope" with
          | some scopeNode =>
            let scopeText := nodeText source scopeNode
            let scopeFqn := refResolveNameToFqn scopeText fs
            let expectedClass :=
              strTake targetFqn ((rfindStr targetFqn "::").getD 0)
            if scopeFqn = expectedClass ∨ scopeText = "self" ∨
                scopeText = "static" ∨ scopeText = "parent" then
              [{ range := nodeRange nameNode }]
            else []
          | none => []
        else []
      | none => []
    else []) ++
      (t.namedChildren.flatMap
        (fun c => walkForMemberRefs c source fs targetFqn memberName)) := by
  have ha := attach_flatMap_eq t.namedChildren
    (fun c => walkForMemberRefs c source fs targetFqn memberName)
  rw [walkForMemberRefs.eq_def, ha]

/-! ## Concrete inputs: sources and their tree-sitter-php CSTs

Each tree mirrors the CST tree-sitter-php produces for the source above
it (node kinds, fields, named flags, byte offsets and point ranges, all
ASCII).  Node ids are distinct per tree; each node is its own
definition, parents listing their children by name. -/

def c2Source : String :=
  "<?php\nclass Repo \x7b\n    private array $users = [];\n\n    public function add(string $u): void \x7b\n        $this->users[] = $u;\n        echo $this->users[0] ?? '';\n    \x7d\n\x7d\n"

def c2n1 : Tree :=
  Tree.node { id := 1, kind := "php_tag", field := none, named := true, startByte := 0, endByte := 5, startRow := 0, startCol := 0, endRow := 0, endCol := 5 }
    []

def c2n3 : Tree :=
  Tree.node { id := 3, kind := "class", field := none, named := false, startByte := 6, endByte := 11, startRow := 1, startCol := 0, endRow := 1, endCol := 5 }
    []

def c2n4 : Tree :=
  Tree.node { id := 4, kind := "name", field := some "name", named := true, startByte := 12, endByte := 16, startRow := 1, startCol := 6, endRow := 1, endCol := 10 }
    []

def c2n6 : Tree :=
  Tree.node { id := 6, kind := "\x7b", field := none, named := false, startByte := 17, endByte := 18, startRow := 1, startCol := 11, endRow := 1, endCol := 12 }
    []

def c2n8 : Tree :=
  Tree.node { id := 8, kind := "visibility_modifier", field := none, named := true, startByte := 23, endByte := 30, startRow := 2, startCol := 4, endRow := 2, endCol := 11 }
    []

def c2n9 : Tree :=
  Tree.node { id := 9, kind := "primitive_type", field := some "type", named := true, startByte := 31, endByte := 36, startRow := 2, startCol := 12, endRow := 2, endCol := 17 }
    []

def c2n12 : Tree :=
  Tree.node { id := 12, kind := "$", field := none, named := false, startByte := 37, endByte := 38, startRow := 2, startCol := 18, endRow := 2, endCol := 19 }
    []

def c2n13 : Tree :=
  Tree.node { id := 13, kind := "name", field := none, named := true, startByte := 38, endByte := 43, startRow := 2, startCol := 19, endRow := 2, endCol := 24 }
    []

def c2n11 : Tree :=
  Tree.node { id := 11, kind := "variable_name", field := some "name", named := true, startByte := 37, endByte := 43, startRow := 2, startCol := 18, endRow := 2, endCol := 24 }
    [c2n12, c2n13]

def c2n14 : Tree :=
  Tree.node { id := 14, kind := "=", field := none, named := false, startByte := 44, endByte := 45, startRow := 2, startCol := 25, endRow := 2, endCol := 26 }
    []

def c2n16 : Tree :=
  Tree.node { id := 16, kind := "[", field := none, named := false, startByte := 46, endByte := 47, startRow := 2, startCol := 27, endRow := 2, endCol := 28 }
    []

def c2n17 : Tree :=
  Tree.node { id := 17, kind := "]", field := none, named := false, startByte := 47, endByte := 48, startRow := 2, startCol := 28, endRow := 2, endCol := 29 }
    []

def c2n15 : Tree :=
  Tree.node { id := 15, kind := "array_creation_expression", field := none, named := true, startByte := 46, endByte := 48, startRow := 2, startCol := 27, endRow := 2, endCol := 29 }
    [c2n16, c2n17]

def c2n10 : Tree :=
  Tree.node { id := 10, kind := "property_element", field := none, named := true, startByte := 37, endByte := 48, startRow := 2, startCol := 18, endRow := 2, endCol := 29 }
    [c2n11, c2n14, c2n15]

def c2n18 : Tree :=
  Tree.node { id := 18, kind := ";", field := none, named := false, startByte := 48, endByte := 49, startRow := 2, startCol := 29, endRow := 2, endCol := 30 }
    []

def c2n7 : Tree :=
  Tree.node { id := 7, kind := "property_declaration", field := none, named := true, startByte := 23, endByte := 49, startRow := 2, startCol := 4, endRow := 2, endCol := 30 }
    [c2n8, c2n9, c2n10, c2n18]

def c2n20 : Tree :=
  Tree.node { id := 20, kind := "visibility_modifier", field := none, named := true, startByte := 55, endByte := 61, startRow := 4, startCol := 4, endRow := 4, endCol := 10 }
    []

def c2n21 : Tree :=
  Tree.node { id := 21, kind := "function", field := none, named := false, startByte := 62, endByte := 70, startRow := 4, startCol := 11, endRow := 4, endCol := 19 }
    []

def c2n22 : Tree :=
  Tree.node { id := 22, kind := "name", field := some "name", named := true, startByte := 71, endByte := 74, startRow := 4, startCol := 20, endRow := 4, endCol := 23 }
    []

def c2n24 : Tree :=
  Tree.node { id := 24, kind := "(", field := none, named := false, startByte := 74, endByte := 75, startRow := 4, startCol := 23, endRow := 4, endCol := 24 }
    []

def c2n26 : Tree :=
  Tree.node { id := 26, kind := "primitive_type", field := some "type", named := true, startByte := 75, endByte := 81, startRow := 4, startCol := 24, endRow := 4, endCol := 30 }
    []

def c2n28 : Tree :=
  Tree.node { id := 28, kind := "$", field := none, named := false, startByte := 82, endByte := 83, startRow := 4, startCol := 31, endRow := 4, endCol := 32 }
    []

def c2n29 : Tree :=
  Tree.node { id := 29, kind := "name", field := none, named := true, startByte := 83, endByte := 84, startRow := 4, startCol := 32, endRow := 4, endCol := 33 }
    []

def c2n27 : Tree :=
  Tree.node { id := 27, kind := "variable_name", field := some "name", named := true, startByte := 82, endByte := 84, startRow := 4, startCol := 31, endRow := 4, endCol := 33 }
    [c2n28, c2n29]

def c2n25 : Tree :=
  Tree.node { id := 25, kind := "simple_parameter", field := none, named := true, startByte := 75, endByte := 84, startRow := 4, startCol := 24, endRow := 4, endCol := 33 }
    [c2n26, c2n27]

def c2n30 : Tree :=
  Tree.node { id := 30, kind := ")", field := none, named := false, startByte := 84, endByte := 85, startRow := 4, startCol := 33, endRow := 4, endCol := 34 }
    []

def c2n23 : Tree :=
  Tree.node { id := 23, kind := "formal_parameters", field := some "parameters", named := true, startByte := 74, endByte := 85, startRow := 4, startCol := 23, endRow := 4, endCol := 34 }
    [c2n24, c2n25, c2n30]

def c2n31 : Tree :=
  Tree.node { id := 31, kind := ":", field := none, named := false, startByte := 85, endByte := 86, startRow := 4, startCol := 34, endRow := 4, endCol := 35 }
    []

def c2n32 : Tree :=
  Tree.node { id := 32, kind := "primitive_type", field := some "return_type", named := true, startByte := 87, endByte := 91, startRow := 4, startCol := 36, endRow := 4, endCol := 40 }
    []

def c2n34 : Tree :=
  Tree.node { id := 34, kind := "\x7b", field := none, named := false, startByte := 92, endByte := 93, startRow := 4, startCol := 41, endRow := 4, endCol := 42 }
    []

def c2n40 : Tree :=
  Tree.node { id := 40, kind := "$", field := none, named := false, startByte := 102, endByte := 103, startRow := 5, startCol := 8, endRow := 5, endCol := 9 }
    []

def c2n41 : Tree :=
  Tree.node { id := 41, kind := "name", field := none, named := true, startByte := 103, endByte := 107, startRow := 5, startCol := 9, endRow := 5, endCol := 13 }
    []

def c2n39 : Tree :=
  Tree.node { id := 39, kind := "variable_name", field := some "object", named := true, startByte := 102, endByte := 107, startRow := 5, startCol := 8, endRow := 5, endCol := 13 }
    [c2n40, c2n41]

def c2n42 : Tree :=
  Tree.node { id := 42, kind := "->", field := none, named := false, startByte := 107, endByte := 109, startRow := 5, startCol := 13, endRow := 5, endCol := 15 }
    []

def c2n43 : Tree :=
  Tree.node { id := 43, kind := "name", field := some "name", named := true, startByte := 109, endByte := 114, startRow := 5, startCol := 15, endRow := 5, endCol := 20 }
    []

def c2n38 : Tree :=
  Tree.node { id := 38, kind := "member_access_expression", field := none, named := true, startByte := 102, endByte := 114, startRow := 5, startCol := 8, endRow := 5, endCol := 20 }
    [c2n39, c2n42, c2n43]

def c2n44 : Tree :=
  Tree.node { id := 44, kind := "[", field := none, named := false, startByte := 114, endByte := 115, startRow := 5, startCol := 20, endRow := 5, endCol := 21 }
    []

def c2n45 : Tree :=
  Tree.node { id := 45, kind := "]", field := none, named := false, startByte := 115, endByte := 116, startRow := 5, startCol := 21, endRow := 5, endCol := 22 }
    []

def c2n37 : Tree :=
  Tree.node { id := 37, kind := "subscript_expression", field := some "left", named := true, startByte := 102, endByte := 116, startRow := 5, startCol := 8, endRow := 5, endCol := 22 }
    [c2n38, c2n44, c2n45]

def c2n46 : Tree :=
  Tree.node { id := 46, kind := "=", field := none, named := false, startByte := 117, endByte := 118, startRow := 5, startCol := 23, endRow := 5, endCol := 24 }
    []

def c2n48 : Tree :=
  Tree.node { id := 48, kind := "$", field := none, named := false, startByte := 119, endByte := 120, startRow := 5, startCol := 25, endRow := 5, endCol := 26 }
    []

def c2n49 : Tree :=
  Tree.node { id := 49, kind := "name", field := none, named := true, startByte := 120, endByte := 121, startRow := 5, startCol := 26, endRow := 5, endCol := 27 }
    []

def c2n47 : Tree :=
  Tree.node { id := 47, kind := "variable_name", field := some "right", named := true, startByte := 119, endByte := 121, startRow := 5, startCol := 25, endRow := 5, endCol := 27 }
    [c2n48, c2n49]

def c2n36 : Tree :=
  Tree.node { id := 36, kind := "assignment_expression", field := none, named := true, startByte := 102, endByte := 121, startRow := 5, startCol := 8, endRow := 5, endCol := 27 }
    [c2n37, c2n46, c2n47]

def c2n50 : Tree :=
  Tree.node { id := 50, kind := ";", field := none, named := false, startByte := 121, endByte := 122, startRow := 5, startCol := 27, endRow := 5, endCol := 28 }
    []

def c2n35 : Tree :=
  Tree.node { id := 35, kind := "expression_statement", field := none, named := true, startByte := 102, endByte := 122, startRow := 5, startCol := 8, endRow := 5, endCol := 28 }
    [c2n36, c2n50]

def c2n52 : Tree :=
  Tree.node { id := 52, kind := "echo", field := none, named := false, startByte := 131, endByte := 135, startRow := 6, startCol := 8, endRow := 6, endCol := 12 }
    []

def c2n57 : Tree :=
  Tree.node { id := 57, kind := "$", field := none, named := false, startByte := 136, endByte := 137, startRow := 6, startCol := 13, endRow := 6, endCol := 14 }
    []

def c2n58 : Tree :=
  Tree.node { id := 58, kind := "name", field := none, named := true, startByte := 137, endByte := 141, startRow := 6, startCol := 14, endRow := 6, endCol := 18 }
    []

def c2n56 : Tree :=
  Tree.node { id := 56, kind := "variable_name", field := some "object", named := true, startByte := 136, endByte := 141, startRow := 6, startCol := 13, endRow := 6, endCol := 18 }
    [c2n57, c2n58]

def c2n59 : Tree :=
  Tree.node { id := 59, kind := "->", field := none, named := false, startByte := 141, endByte := 143, startRow := 6, startCol := 18, endRow := 6, endCol := 20 }
    []

def c2n60 : Tree :=
  Tree.node { id := 60, kind := "name", field := some "name", named := true, startByte := 143, endByte := 148, startRow := 6, startCol := 20, endRow := 6, endCol := 25 }
    []

def c2n55 : Tree :=
  Tree.node { id := 55, kind := "member_access_expression", field := none, named := true, startByte := 136, endByte := 148, startRow := 6, startCol := 13, endRow := 6, endCol := 25 }
    [c2n56, c2n59, c2n60]

def c2n61 : Tree :=
  Tree.node { id := 61, kind := "[", field := none, named := false, startByte := 148, endByte := 149, startRow := 6, startCol := 25, endRow := 6, endCol := 26 }
    []

def c2n62 : Tree :=
  Tree.node { id := 62, kind := "integer", field := none, named := true, startByte := 149, endByte := 150, startRow := 6, startCol := 26, endRow := 6, endCol := 27 }
    []

def c2n63 : Tree :=
  Tree.node { id := 63, kind := "]", field := none, named := false, startByte := 150, endByte := 151, startRow := 6, startCol := 27, endRow := 6, endCol := 28 }
    []

def c2n54 : Tree :=
  Tree.node { id := 54, kind := "subscript_expression", field := some "left", named := true, startByte := 136, endByte := 151, startRow := 6, startCol := 13, endRow := 6, endCol := 28 }
    [c2n55, c2n61, c2n62, c2n63]

def c2n64 : Tree :=
  Tree.node { id := 64, kind := "??", field := some "operator", named := false, startByte := 152, endByte := 154, startRow := 6, startCol := 29, endRow := 6, endCol := 31 }
    []

def c2n65 : Tree :=
  Tree.node { id := 65, kind := "string", field := some "right", named := true, startByte := 155, endByte := 157, startRow := 6, startCol := 32, endRow := 6, endCol := 34 }
    []

def c2n53 : Tree :=
  Tree.node { id := 53, kind := "binary_expression", field := none, named := true, startByte := 136, endByte := 157, startRow := 6, startCol := 13, endRow := 6, endCol := 34 }
    [c2n54, c2n64, c2n65]

def c2n66 : Tree :=
  Tree.node { id := 66, kind := ";", field := none, named := false, startByte := 157, endByte := 158, startRow := 6, startCol := 34, endRow := 6, endCol := 35 }
    []

def c2n51 : Tree :=
  Tree.node { id := 51, kind := "echo_statement", field := none, named := true, startByte := 131, endByte := 158, startRow := 6, startCol := 8, endRow := 6, endCol := 35 }
    [c2n52, c2n53, c2n66]

def c2n67 : Tree :=
  Tree.node { id := 67, kind := "\x7d", field := none, named := false, startByte := 163, endByte := 164, startRow := 7, startCol := 4, endRow := 7, endCol := 5 }
    []

def c2n33 : Tree :=
  Tree.node { id := 33, kind := "compound_statement", field := some "body", named := true, startByte := 92, endByte := 164, startRow := 4, startCol := 41, endRow := 7, endCol := 5 }
    [c2n34, c2n35, c2n51, c2n67]

def c2n19 : Tree :=
  Tree.node { id := 19, kind := "method_declaration", field := none, named := true, startByte := 55, endByte := 164, startRow := 4, startCol := 4, endRow := 7, endCol := 5 }
    [c2n20, c2n21, c2n22, c2n23, c2n31, c2n32, c2n33]

def c2n68 : Tree :=
  Tree.node { id := 68, kind := "\x7d", field := none, named := false, startByte := 165, endByte := 166, startRow := 8, startCol := 0, endRow := 8, endCol := 1 }
    []

def c2n5 : Tree :=
  Tree.node { id := 5, kind := "declaration_list", field := some "body", named := true, startByte := 17, endByte := 166, startRow := 1, startCol := 11, endRow := 8, endCol := 1 }
    [c2n6, c2n7, c2n19, c2n68]

def c2n2 : Tree :=
  Tree.node { id := 2, kind := "class_declaration", field := none, named := true, startByte := 6, endByte := 166, startRow := 1, startCol := 0, endRow := 8, endCol := 1 }
    [c2n3, c2n4, c2n5]

def c2n0 : Tree :=
  Tree.node { id := 0, kind := "program", field := none, named := true, startByte := 0, endByte := 167, startRow := 0, startCol := 0, endRow := 9, endCol := 0 }
    [c2n1, c2n2]

def c2Tree : Tree := c2n0

def c5Source : String :=
  "<?php\nnamespace App;\nuse App\\Test\\Baz;\nclass Bar \x7b\n    public function greet(Baz $baz2): void \x7b\n        $baz2->test();\n    \x7d\n\x7d\n"

def c5n1 : Tree :=
  Tree.node { id := 1, kind := "php_tag", field := none, named := true, startByte := 0, endByte := 5, startRow := 0, startCol := 0, endRow := 0, endCol := 5 }
    []

def c5n3 : Tree :=
  Tree.node { id := 3, kind := "namespace", field := none, named := false, startByte := 6, endByte := 15, startRow := 1, startCol := 0, endRow := 1, endCol := 9 }
    []

def c5n5 : Tree :=
  Tree.node { id := 5, kind := "name", field := none, named := true, startByte := 16, endByte := 19, startRow := 1, startCol := 10, endRow := 1, endCol := 13 }
    []

def c5n4 : Tree :=
  Tree.node { id := 4, kind := "namespace_name", field := none, named := true, startByte := 16, endByte := 19, startRow := 1, startCol := 10, endRow := 1, endCol := 13 }
    [c5n5]

def c5n6 : Tree :=
  Tree.node { id := 6, kind := ";", field := none, named := false, startByte := 19, endByte := 20, startRow := 1, startCol := 13, endRow := 1, endCol := 14 }
    []

def c5n2 : Tree :=
  Tree.node { id := 2, kind := "namespace_definition", field := none, named := true, startByte := 6, endByte := 20, startRow := 1, startCol := 0, endRow := 1, endCol := 14 }
    [c5n3, c5n4, c5n6]

def c5n8 : Tree :=
  Tree.node { id := 8, kind := "use", field := none, named := false, startByte := 21, endByte := 24, startRow := 2, startCol := 0, endRow := 2, endCol := 3 }
    []

def c5n12 : Tree :=
  Tree.node { id := 12, kind := "name", field := none, named := true, startByte := 25, endByte := 28, startRow := 2, startCol := 4, endRow := 2, endCol := 7 }
    []

def c5n13 : Tree :=
  Tree.node { id := 13, kind := "\\", field := none, named := false, startByte := 28, endByte := 29, startRow := 2, startCol := 7, endRow := 2, endCol := 8 }
    []

def c5n14 : Tree :=
  Tree.node { id := 14, kind := "name", field := none, named := true, startByte := 29, endByte := 33, startRow := 2, startCol := 8, endRow := 2, endCol := 12 }
    []

def c5n11 : Tree :=
  Tree.node { id := 11, kind := "namespace_name", field := none, named := true, startByte := 25, endByte := 33, startRow := 2, startCol := 4, endRow := 2, endCol := 12 }
    [c5n12, c5n13, c5n14]

def c5n15 : Tree :=
  Tree.node { id := 15, kind := "\\", field := none, named := false, startByte := 33, endByte := 34, startRow := 2, startCol := 12, endRow := 2, endCol := 13 }
    []

def c5n16 : Tree :=
  Tree.node { id := 16, kind := "name", field := none, named := true, startByte := 34, endByte := 37, startRow := 2, startCol := 13, endRow := 2, endCol := 16 }
    []

def c5n10 : Tree :=
  Tree.node { id := 10, kind := "qualified_name", field := none, named := true, startByte := 25, endByte := 37, startRow := 2, startCol := 4, endRow := 2, endCol := 16 }
    [c5n11, c5n15, c5n16]

def c5n9 : Tree :=
  Tree.node { id := 9, kind := "namespace_use_clause", field := none, named := true, startByte := 25, endByte := 37, startRow := 2, startCol := 4, endRow := 2, endCol := 16 }
    [c5n10]

def c5n17 : Tree :=
  Tree.node { id := 17, kind := ";", field := none, named := false, startByte := 37, endByte := 38, startRow := 2, startCol := 16, endRow := 2, endCol := 17 }
    []

def c5n7 : Tree :=
  Tree.node { id := 7, kind := "namespace_use_declaration", field := none, named := true, startByte := 21, endByte := 38, startRow := 2, startCol := 0, endRow := 2, endCol := 17 }
    [c5n8, c5n9, c5n17]

def c5n19 : Tree :=
  Tree.node { id := 19, kind := "class", field := none, named := false, startByte := 39, endByte := 44, startRow := 3, startCol := 0, endRow := 3, endCol := 5 }
    []

def c5n20 : Tree :=
  Tree.node { id := 20, kind := "name", field := some "name", named := true, startByte := 45, endByte := 48, startRow := 3, startCol := 6, endRow := 3, endCol := 9 }
    []

def c5n22 : Tree :=
  Tree.node { id := 22, kind := "\x7b", field := none, named := false, startByte := 49, endByte := 50, startRow := 3, startCol := 10, endRow := 3, endCol := 11 }
    []

def c5n24 : Tree :=
  Tree.node { id := 24, kind := "visibility_modifier", field := none, named := true, startByte := 55, endByte := 61, startRow := 4, startCol := 4, endRow := 4, endCol := 10 }
    []

def c5n25 : Tree :=
  Tree.node { id := 25, kind := "function", field := none, named := false, startByte := 62, endByte := 70, startRow := 4, startCol := 11, endRow := 4, endCol := 19 }
    []

def c5n26 : Tree :=
  Tree.node { id := 26, kind := "name", field := some "name", named := true, startByte := 71, endByte := 76, startRow := 4, startCol := 20, endRow := 4, endCol := 25 }
    []

def c5n28 : Tree :=
  Tree.node { id := 28, kind := "(", field := none, named := false, startByte := 76, endByte := 77, startRow := 4, startCol := 25, endRow := 4, endCol := 26 }
    []

def c5n31 : Tree :=
  Tree.node { id := 31, kind := "name", field := none, named := true, startByte := 77, endByte := 80, startRow := 4, startCol := 26, endRow := 4, endCol := 29 }
    []

def c5n30 : Tree :=
  Tree.node { id := 30, kind := "named_type", field := some "type", named := true, startByte := 77, endByte := 80, startRow := 4, startCol := 26, endRow := 4, endCol := 29 }
    [c5n31]

def c5n33 : Tree :=
  Tree.node { id := 33, kind := "$", field := none, named := false, startByte := 81, endByte := 82, startRow := 4, startCol := 30, endRow := 4, endCol := 31 }
    []

def c5n34 : Tree :=
  Tree.node { id := 34, kind := "name", field := none, named := true, startByte := 82, endByte := 86, startRow := 4, startCol := 31, endRow := 4, endCol := 35 }
    []

def c5n32 : Tree :=
  Tree.node { id := 32, kind := "variable_name", field := some "name", named := true, startByte := 81, endByte := 86, startRow := 4, startCol := 30, endRow := 4, endCol := 35 }
    [c5n33, c5n34]

def c5n29 : Tree :=
  Tree.node { id := 29, kind := "simple_parameter", field := none, named := true, startByte := 77, endByte := 86, startRow := 4, startCol := 26, endRow := 4, endCol := 35 }
    [c5n30, c5n32]

def c5n35 : Tree :=
  Tree.node { id := 35, kind := ")", field := none, named := false, startByte := 86, endByte := 87, startRow := 4, startCol := 35, endRow := 4, endCol := 36 }
    []

def c5n27 : Tree :=
  Tree.node { id := 27, kind := "formal_parameters", field := some "parameters", named := true, startByte := 76, endByte := 87, startRow := 4, startCol := 25, endRow := 4, endCol := 36 }
    [c5n28, c5n29, c5n35]

def c5n36 : Tree :=
  Tree.node { id := 36, kind := ":", field := none, named := false, startByte := 87, endByte := 88, startRow := 4, startCol := 36, endRow := 4, endCol := 37 }
    []

def c5n37 : Tree :=
  Tree.node { id := 37, kind := "primitive_type", field := some "return_type", named := true, startByte := 89, endByte := 93, startRow := 4, startCol := 38, endRow := 4, endCol := 42 }
    []

def c5n39 : Tree :=
  Tree.node { id := 39, kind := "\x7b", field := none, named := false, startByte := 94, endByte := 95, startRow := 4, startCol := 43, endRow := 4, endCol := 44 }
    []

def c5n43 : Tree :=
  Tree.node { id := 43, kind := "$", field := none, named := false, startByte := 104, endByte := 105, startRow := 5, startCol := 8, endRow := 5, endCol := 9 }
    []

def c5n44 : Tree :=
  Tree.node { id := 44, kind := "name", field := none, named := true, startByte := 105, endByte := 109, startRow := 5, startCol := 9, endRow := 5, endCol := 13 }
    []

def c5n42 : Tree :=
  Tree.node { id := 42, kind := "variable_name", field := some "object", named := true, startByte := 104, endByte := 109, startRow := 5, startCol := 8, endRow := 5, endCol := 13 }
    [c5n43, c5n44]

def c5n45 : Tree :=
  Tree.node { id := 45, kind := "->", field := none, named := false, startByte := 109, endByte := 111, startRow := 5, startCol := 13, endRow := 5, endCol := 15 }
    []

def c5n46 : Tree :=
  Tree.node { id := 46, kind := "name", field := some "name", named := true, startByte := 111, endByte := 115, startRow := 5, startCol := 15, endRow := 5, endCol := 19 }
    []

def c5n48 : Tree :=
  Tree.node { id := 48, kind := "(", field := none, named := false, startByte := 115, endByte := 116, startRow := 5, startCol := 19, endRow := 5, endCol := 20 }
    []

def c5n49 : Tree :=
  Tree.node { id := 49, kind := ")", field := none, named := false, startByte := 116, endByte := 117, startRow := 5, startCol := 20, endRow := 5, endCol := 21 }
    []

def c5n47 : Tree :=
  Tree.node { id := 47, kind := "arguments", field := some "arguments", named := true, startByte := 115, endByte := 117, startRow := 5, startCol := 19, endRow := 5, endCol := 21 }
    [c5n48, c5n49]

def c5n41 : Tree :=
  Tree.node { id := 41, kind := "member_call_expression", field := none, named := true, startByte := 104, endByte := 117, startRow := 5, startCol := 8, endRow := 5, endCol := 21 }
    [c5n42, c5n45, c5n46, c5n47]

def c5n50 : Tree :=
  Tree.node { id := 50, kind := ";", field := none, named := false, startByte := 117, endByte := 118, startRow := 5, startCol := 21, endRow := 5, endCol := 22 }
    []

def c5n40 : Tree :=
  Tree.node { id := 40, kind := "expression_statement", field := none, named := true, startByte := 104, endByte := 118, startRow := 5, startCol := 8, endRow := 5, endCol := 22 }
    [c5n41, c5n50]

def c5n51 : Tree :=
  Tree.node { id := 51, kind := "\x7d", field := none, named := false, startByte := 123, endByte := 124, startRow := 6, startCol := 4, endRow := 6, endCol := 5 }
    []

def c5n38 : Tree :=
  Tree.node { id := 38, kind := "compound_statement", field := some "body", named := true, startByte := 94, endByte := 124, startRow := 4, startCol := 43, endRow := 6, endCol := 5 }
    [c5n39, c5n40, c5n51]

def c5n23 : Tree :=
  Tree.node { id := 23, kind := "method_declaration", field := none, named := true, startByte := 55, endByte := 124, startRow := 4, startCol := 4, endRow := 6, endCol := 5 }
    [c5n24, c5n25, c5n26, c5n27, c5n36, c5n37, c5n38]

def c5n52 : Tree :=
  Tree.node { id := 52, kind := "\x7d", field := none, named := false, startByte := 125, endByte := 126, startRow := 7, startCol := 0, endRow := 7, endCol := 1 }
    []

def c5n21 : Tree :=
  Tree.node { id := 21, kind := "declaration_list", field := some "body", named := true, startByte := 49, endByte := 126, startRow := 3, startCol := 10, endRow := 7, endCol := 1 }
    [c5n22, c5n23, c5n52]

def c5n18 : Tree :=
  Tree.node { id := 18, kind := "class_declaration", field := none, named := true, startByte := 39, endByte := 126, startRow := 3, startCol := 0, endRow := 7, endCol := 1 }
    [c5n19, c5n20, c5n21]

def c5n0 : Tree :=
  Tree.node { id := 0, kind := "program", field := none, named := true, startByte := 0, endByte := 127, startRow := 0, startCol := 0, endRow := 8, endCol := 0 }
    [c5n1, c5n2, c5n7, c5n18]

def c5Tree : Tree := c5n0

def c1ParentSource : String :=
  "<?php\nnamespace App;\nclass SoapHandler \x7b\n    protected function okResponse() \x7b\x7d\n\x7d\n"

def c1Parentn1 : Tree :=
  Tree.node { id := 1, kind := "php_tag", field := none, named := true, startByte := 0, endByte := 5, startRow := 0, startCol := 0, endRow := 0, endCol := 5 }
    []

def c1Parentn3 : Tree :=
  Tree.node { id := 3, kind := "namespace", field := none, named := false, startByte := 6, endByte := 15, startRow := 1, startCol := 0, endRow := 1, endCol := 9 }
    []

def c1Parentn5 : Tree :=
  Tree.node { id := 5, kind := "name", field := none, named := true, startByte := 16, endByte := 19, startRow := 1, startCol := 10, endRow := 1, endCol := 13 }
    []

def c1Parentn4 : Tree :=
  Tree.node { id := 4, kind := "namespace_name", field := none, named := true, startByte := 16, endByte := 19, startRow := 1, startCol := 10, endRow := 1, endCol := 13 }
    [c1Parentn5]

def c1Parentn6 : Tree :=
  Tree.node { id := 6, kind := ";", field := none, named := false, startByte := 19, endByte := 20, startRow := 1, startCol := 13, endRow := 1, endCol := 14 }
    []

def c1Parentn2 : Tree :=
  Tree.node { id := 2, kind := "namespace_definition", field := none, named := true, startByte := 6, endByte := 20, startRow := 1, startCol := 0, endRow := 1, endCol := 14 }
    [c1Parentn3, c1Parentn4, c1Parentn6]

def c1Parentn8 : Tree :=
  Tree.node { id := 8, kind := "class", field := none, named := false, startByte := 21, endByte := 26, startRow := 2, startCol := 0, endRow := 2, endCol := 5 }
    []

def c1Parentn9 : Tree :=
  Tree.node { id := 9, kind := "name", field := some "name", named := true, startByte := 27, endByte := 38, startRow := 2, startCol := 6, endRow := 2, endCol := 17 }
    []

def c1Parentn11 : Tree :=
  Tree.node { id := 11, kind := "\x7b", field := none, named := false, startByte := 39, endByte := 40, startRow := 2, startCol := 18, endRow := 2, endCol := 19 }
    []

def c1Parentn13 : Tree :=
  Tree.node { id := 13, kind := "visibility_modifier", field := none, named := true, startByte := 45, endByte := 54, startRow := 3, startCol := 4, endRow := 3, endCol := 13 }
    []

def c1Parentn14 : Tree :=
  Tree.node { id := 14, kind := "function", field := none, named := false, startByte := 55, endByte := 63, startRow := 3, startCol := 14, endRow := 3, endCol := 22 }
    []

def c1Parentn15 : Tree :=
  Tree.node { id := 15, kind := "name", field := some "name", named := true, startByte := 64, endByte := 74, startRow := 3, startCol := 23, endRow := 3, endCol := 33 }
    []

def c1Parentn17 : Tree :=
  Tree.node { id := 17, kind := "(", field := none, named := false, startByte := 74, endByte := 75, startRow := 3, startCol := 33, endRow := 3, endCol := 34 }
    []

def c1Parentn18 : Tree :=
  Tree.node { id := 18, kind := ")", field := none, named := false, startByte := 75, endByte := 76, startRow := 3, startCol := 34, endRow := 3, endCol := 35 }
    []

def c1Parentn16 : Tree :=
  Tree.node { id := 16, kind := "formal_parameters", field := some "parameters", named := true, startByte := 74, endByte := 76, startRow := 3, startCol := 33, endRow := 3, endCol := 35 }
    [c1Parentn17, c1Parentn18]

def c1Parentn20 : Tree :=
  Tree.node { id := 20, kind := "\x7b", field := none, named := false, startByte := 77, endByte := 78, startRow := 3, startCol := 36, endRow := 3, endCol := 37 }
    []

def c1Parentn21 : Tree :=
  Tree.node { id := 21, kind := "\x7d", field := none, named := false, startByte := 78, endByte := 79, startRow := 3, startCol := 37, endRow := 3, endCol := 38 }
    []

def c1Parentn19 : Tree :=
  Tree.node { id := 19, kind := "compound_statement", field := some "body", named := true, startByte := 77, endByte := 79, startRow := 3, startCol := 36, endRow := 3, endCol := 38 }
    [c1Parentn20, c1Parentn21]

def c1Parentn12 : Tree :=
  Tree.node { id := 12, kind := "method_declaration", field := none, named := true, startByte := 45, endByte := 79, startRow := 3, startCol := 4, endRow := 3, endCol := 38 }
    [c1Parentn13, c1Parentn14, c1Parentn15, c1Parentn16, c1Parentn19]

def c1Parentn22 : Tree :=
  Tree.node { id := 22, kind := "\x7d", field := none, named := false, startByte := 80, endByte := 81, startRow := 4, startCol := 0, endRow := 4, endCol := 1 }
    []

def c1Parentn10 : Tree :=
  Tree.node { id := 10, kind := "declaration_list", field := some "body", named := true, startByte := 39, endByte := 81, startRow := 2, startCol := 18, endRow := 4, endCol := 1 }
    [c1Parentn11, c1Parentn12, c1Parentn22]

def c1Parentn7 : Tree :=
  Tree.node { id := 7, kind := "class_declaration", field := none, named := true, startByte := 21, endByte := 81, startRow := 2, startCol := 0, endRow := 4, endCol := 1 }
    [c1Parentn8, c1Parentn9, c1Parentn10]

def c1Parentn0 : Tree :=
  Tree.node { id := 0, kind := "program", field := none, named := true, startByte := 0, endByte := 82, startRow := 0, startCol := 0, endRow := 5, endCol := 0 }
    [c1Parentn1, c1Parentn2, c1Parentn7]

def c1ParentTree : Tree := c1Parentn0

def c1ChildSource : String :=
  "<?php\nnamespace App;\nclass TestHandler extends SoapHandler \x7b\n\x7d\n"

def c1Childn1 : Tree :=
  Tree.node { id := 1, kind := "php_tag", field := none, named := true, startByte := 0, endByte := 5, startRow := 0, startCol := 0, endRow := 0, endCol := 5 }
    []

def c1Childn3 : Tree :=
  Tree.node { id := 3, kind := "namespace", field := none, named := false, startByte := 6, endByte := 15, startRow := 1, startCol := 0, endRow := 1, endCol := 9 }
    []

def c1Childn5 : Tree :=
  Tree.node { id := 5, kind := "name", field := none, named := true, startByte := 16, endByte := 19, startRow := 1, startCol := 10, endRow := 1, endCol := 13 }
    []

def c1Childn4 : Tree :=
  Tree.node { id := 4, kind := "namespace_name", field := none, named := true, startByte := 16, endByte := 19, startRow := 1, startCol := 10, endRow := 1, endCol := 13 }
    [c1Childn5]

def c1Childn6 : Tree :=
  Tree.node { id := 6, kind := ";", field := none, named := false, startByte := 19, endByte := 20, startRow := 1, startCol := 13, endRow := 1, endCol := 14 }
    []

def c1Childn2 : Tree :=
  Tree.node { id := 2, kind := "namespace_definition", field := none, named := true, startByte := 6, endByte := 20, startRow := 1, startCol := 0, endRow := 1, endCol := 14 }
    [c1Childn3, c1Childn4, c1Childn6]

def c1Childn8 : Tree :=
  Tree.node { id := 8, kind := "class", field := none, named := false, startByte := 21, endByte := 26, startRow := 2, startCol := 0, endRow := 2, endCol := 5 }
    []

def c1Childn9 : Tree :=
  Tree.node { id := 9, kind := "name", field := some "name", named := true, startByte := 27, endByte := 38, startRow := 2, startCol := 6, endRow := 2, endCol := 17 }
    []

def c1Childn11 : Tree :=
  Tree.node { id := 11, kind := "extends", field := none, named := false, startByte := 39, endByte := 46, startRow := 2, startCol := 18, endRow := 2, endCol := 25 }
    []

def c1Childn12 : Tree :=
  Tree.node { id := 12, kind := "name", field := none, named := true, startByte := 47, endByte := 58, startRow := 2, startCol := 26, endRow := 2, endCol := 37 }
    []

def c1Childn10 : Tree :=
  Tree.node { id := 10, kind := "base_clause", field := none, named := true, startByte := 39, endByte := 58, startRow := 2, startCol := 18, endRow := 2, endCol := 37 }
    [c1Childn11, c1Childn12]

def c1Childn14 : Tree :=
  Tree.node { id := 14, kind := "\x7b", field := none, named := false, startByte := 59, endByte := 60, startRow := 2, startCol := 38, endRow := 2, endCol := 39 }
    []

def c1Childn15 : Tree :=
  Tree.node { id := 15, kind := "\x7d", field := none, named := false, startByte := 61, endByte := 62, startRow := 3, startCol := 0, endRow := 3, endCol := 1 }
    []

def c1Childn13 : Tree :=
  Tree.node { id := 13, kind := "declaration_list", field := some "body", named := true, startByte := 59, endByte := 62, startRow := 2, startCol := 38, endRow := 3, endCol := 1 }
    [c1Childn14, c1Childn15]

def c1Childn7 : Tree :=
  Tree.node { id := 7, kind := "class_declaration", field := none, named := true, startByte := 21, endByte := 62, startRow := 2, startCol := 0, endRow := 3, endCol := 1 }
    [c1Childn8, c1Childn9, c1Childn10, c1Childn13]

def c1Childn0 : Tree :=
  Tree.node { id := 0, kind := "program", field := none, named := true, startByte := 0, endByte := 63, startRow := 0, startCol := 0, endRow := 4, endCol := 0 }
    [c1Childn1, c1Childn2, c1Childn7]

def c1ChildTree : Tree := c1Childn0


/-- The `name` node of `test` in `$baz2->test()`, with its ancestor
stack, as `find_node_at_point` returns it. -/
def c5TestLoc : Loc :=
  ⟨c5n46, [(c5n41, 2), (c5n40, 0), (c5n38, 1), (c5n23, 6), (c5n21, 1),
    (c5n18, 2), (c5n0, 3)]⟩

/-- The use statement of the C5 digest. -/
def c5UseBaz : UseStatement :=
  { fqn := "App\\Test\\Baz", alias_ := none, kind := .Class,
    range := (2, 4, 2, 16) }

/-- The class symbol of the C5 digest. -/
def c5SymBar : SymbolInfo :=
  { name := "Bar", fqn := "App\\Bar", kind := .Class,
    uri := "file:///bar.php", range := (3, 0, 7, 1),
    selection_range := (3, 6, 3, 9), visibility := .Public,
    modifiers := {}, doc_comment := none, signature := none,
    parent_fqn := none }

/-- The method symbol of the C5 digest. -/
def c5SymGreet : SymbolInfo :=
  { name := "greet", fqn := "App\\Bar::greet", kind := .Method,
    uri := "file:///bar.php", range := (4, 4, 6, 5),
    selection_range := (4, 20, 4, 25), visibility := .Public,
    modifiers := {}, doc_comment := none,
    signature := some (extractSignature c5n23 c5Source),
    parent_fqn := some "App\\Bar" }

/-- The digest `extract_file_symbols` produces for the C5 source. -/
def c5Fs : FileSymbols :=
  { namespace_ := some "App"
    use_statements := [c5UseBaz]
    symbols := [c5SymBar, c5SymGreet] }

theorem c5_digest :
    extractFileSymbols c5Tree c5Source "file:///bar.php" = c5Fs := by
  have hphp : ∀ (r : FileSymbols) (ns : Option String),
      extractFromNode ⟨c5n1, [(c5n0, 0)]⟩ c5Source "file:///bar.php" r ns
        = r := by
    intro r ns
    rw [extractFromNode.eq_def, extractChildren_eq]
    rfl
  have huse : ∀ (r : FileSymbols) (ns : Option String),
      extractFromNode ⟨c5n7, [(c5n0, 2)]⟩ c5Source "file:///bar.php" r ns
        = extractUseStatements c5n7 c5Source r := by
    intro r ns
    rw [extractFromNode.eq_def]
    rfl
  have hcls : ∀ (r : FileSymbols) (ns : Option String),
      extractFromNode ⟨c5n18, [(c5n0, 3)]⟩ c5Source "file:///bar.php" r ns
        = extractClassLike ⟨c5n18, [(c5n0, 3)]⟩ c5Source "file:///bar.php"
            r ns .Class := by
    intro r ns
    rw [extractFromNode.eq_def]
    rfl
  have hcl : (Loc.root c5Tree).childLocs =
      [⟨c5n1, [(c5n0, 0)]⟩, ⟨c5n2, [(c5n0, 1)]⟩, ⟨c5n7, [(c5n0, 2)]⟩,
       ⟨c5n18, [(c5n0, 3)]⟩] := rfl
  have hns2 : findNamespaceName c5n2 c5Source = some "App" := rfl
  have hbody : Loc.childByFieldLoc ⟨c5n2, [(c5n0, 1)]⟩ "body" = none := rfl
  rw [extractFileSymbols, hcl]
  simp +decide only [List.foldl_cons, List.foldl_nil, hphp, huse, hcls,
    hns2, hbody, ite_true, ite_false]
  rfl

theorem c5_node :
    findNodeAtPoint c5Tree (5, 16) = some c5TestLoc := by
  have d1 : descendToPoint (Loc.root c5Tree) (5, 16) =
      descendToPoint ⟨c5n18, [(c5n0, 3)]⟩ (5, 16) := by
    conv_lhs => rw [descendToPoint_eq]
    rfl
  have d2 : descendToPoint ⟨c5n18, [(c5n0, 3)]⟩ (5, 16) =
      descendToPoint ⟨c5n21, [(c5n18, 2), (c5n0, 3)]⟩ (5, 16) := by
    conv_lhs => rw [descendToPoint_eq]
    rfl
  have d3 : descendToPoint ⟨c5n21, [(c5n18, 2), (c5n0, 3)]⟩ (5, 16) =
      descendToPoint ⟨c5n23, [(c5n21, 1), (c5n18, 2), (c5n0, 3)]⟩ (5, 16) := by
    conv_lhs => rw [descendToPoint_eq]
    rfl
  have d4 : descendToPoint ⟨c5n23, [(c5n21, 1), (c5n18, 2), (c5n0, 3)]⟩ (5, 16) =
      descendToPoint ⟨c5n38, [(c5n23, 6), (c5n21, 1), (c5n18, 2), (c5n0, 3)]⟩ (5, 16) := by
    conv_lhs => rw [descendToPoint_eq]
    rfl
  have d5 : descendToPoint ⟨c5n38, [(c5n23, 6), (c5n21, 1), (c5n18, 2), (c5n0, 3)]⟩ (5, 16) =
      descendToPoint ⟨c5n40, [(c5n38, 1), (c5n23, 6), (c5n21, 1), (c5n18, 2), (c5n0, 3)]⟩ (5, 16) := by
    conv_lhs => rw [descendToPoint_eq]
    rfl
  have d6 : descendToPoint ⟨c5n40, [(c5n38, 1), (c5n23, 6), (c5n21, 1), (c5n18, 2), (c5n0, 3)]⟩ (5, 16) =
      descendToPoint ⟨c5n41, [(c5n40, 0), (c5n38, 1), (c5n23, 6), (c5n21, 1), (c5n18, 2), (c5n0, 3)]⟩ (5, 16) := by
    conv_lhs => rw [descendToPoint_eq]
    rfl
  have d7 : descendToPoint ⟨c5n41, [(c5n40, 0), (c5n38, 1), (c5n23, 6), (c5n21, 1), (c5n18, 2), (c5n0, 3)]⟩ (5, 16) =
      descendToPoint ⟨c5n46, [(c5n41, 2), (c5n40, 0), (c5n38, 1), (c5n23, 6), (c5n21, 1), (c5n18, 2), (c5n0, 3)]⟩ (5, 16) := by
    conv_lhs => rw [descendToPoint_eq]
    rfl
  have d8 : descendToPoint ⟨c5n46, [(c5n41, 2), (c5n40, 0), (c5n38, 1), (c5n23, 6), (c5n21, 1), (c5n18, 2), (c5n0, 3)]⟩ (5, 16) = c5TestLoc := by
    conv_lhs => rw [descendToPoint_eq]
    rfl
  have hdesc : descendToPoint (Loc.root c5Tree) (5, 16) = c5TestLoc :=
    (d1).trans ((d2).trans ((d3).trans ((d4).trans ((d5).trans ((d6).trans ((d7).trans (d8)))))))
  have hcl : climbToNamed c5TestLoc = some c5TestLoc := by
    conv_lhs => rw [climbToNamed_eq]
    rfl
  rw [findNodeAtPoint, descendantForPoint]
  rw [if_pos (by decide : treeContainsPoint c5Tree (5, 16) = true)]
  rw [hdesc]
  simp only [hcl]
  rfl


/-- `$baz2` (the object of the call), with its ancestor stack. -/
def c5ObjLoc : Loc :=
  ⟨c5n42, [(c5n41, 0), (c5n40, 0), (c5n38, 1), (c5n23, 6), (c5n21, 1),
    (c5n18, 2), (c5n0, 3)]⟩

/-- The enclosing `method_declaration` of the call site. -/
def c5ScopeLoc : Loc :=
  ⟨c5n23, [(c5n21, 1), (c5n18, 2), (c5n0, 3)]⟩

/-- The parent `member_call_expression` node of the `test` name. -/
def c5ParLoc : Loc :=
  ⟨c5n41, [(c5n40, 0), (c5n38, 1), (c5n23, 6), (c5n21, 1), (c5n18, 2),
    (c5n0, 3)]⟩

theorem c5_extractTypeName : extractTypeName c5n30 c5Source = some "Baz" := by
  conv_lhs => rw [extractTypeName.eq_def]
  rfl

theorem c5_enclosing : findEnclosingFunction c5ObjLoc = some c5ScopeLoc := by
  have e1 : findEnclosingFunction c5ObjLoc =
      findEnclosingFunction ⟨c5n41, [(c5n40, 0), (c5n38, 1), (c5n23, 6),
        (c5n21, 1), (c5n18, 2), (c5n0, 3)]⟩ := by
    conv_lhs => rw [findEnclosingFunction_eq]
    rfl
  have e2 : findEnclosingFunction (⟨c5n41, [(c5n40, 0), (c5n38, 1),
        (c5n23, 6), (c5n21, 1), (c5n18, 2), (c5n0, 3)]⟩ : Loc) =
      findEnclosingFunction ⟨c5n40, [(c5n38, 1), (c5n23, 6), (c5n21, 1),
        (c5n18, 2), (c5n0, 3)]⟩ := by
    conv_lhs => rw [findEnclosingFunction_eq]
    rfl
  have e3 : findEnclosingFunction (⟨c5n40, [(c5n38, 1), (c5n23, 6),
        (c5n21, 1), (c5n18, 2), (c5n0, 3)]⟩ : Loc) =
      findEnclosingFunction ⟨c5n38, [(c5n23, 6), (c5n21, 1), (c5n18, 2),
        (c5n0, 3)]⟩ := by
    conv_lhs => rw [findEnclosingFunction_eq]
    rfl
  have e4 : findEnclosingFunction (⟨c5n38, [(c5n23, 6), (c5n21, 1),
        (c5n18, 2), (c5n0, 3)]⟩ : Loc) = some c5ScopeLoc := by
    conv_lhs => rw [findEnclosingFunction_eq]
    rfl
  exact e1.trans (e2.trans (e3.trans e4))

/-! ## Branch lemmas for the resolver

Each lemma isolates one branch of a recursive resolve.rs function with
the participating nodes abstract, so that instantiating it on concrete
trees never forces reduction of a recursive call. -/

theorem inferVariableTypeInScope_param (fuel : Nat) (scopeNode : Loc)
    (varName : String) (usageStart : Nat) (source : String)
    (fs : FileSymbols) (params param nameNode typeNode : Tree)
    (className : String)
    (h1 : scopeNode.t.childByField "parameters" = some params)
    (h2 : params.namedChildren = [param])
    (h3 : param.data.kind = "simple_parameter")
    (h4 : param.childByField "name" = some nameNode)
    (h5 : normalizeVarName (nodeText source nameNode) = varName)
    (h6 : param.childByField "type" = some typeNode)
    (h7 : extractTypeName typeNode source = some className) :
    inferVariableTypeInScope fuel scopeNode varName usageStart source fs =
      some (resolveClassName className fs) := by
  rw [inferVariableTypeInScope.eq_def]
  simp +decide only [h1, h2, h3, h4, h5, h6, h7, List.findSome?_cons,
    List.findSome?_nil, ite_true, ite_false]

theorem inferVariableType_scope (fuel : Nat) (varNode : Loc)
    (varName : String) (source : String) (fs : FileSymbols) (scope : Loc)
    (h : findEnclosingFunction varNode = some scope) :
    inferVariableType fuel varNode varName source fs =
      inferVariableTypeInScope fuel scope varName varNode.t.data.startByte
        source fs := by
  rw [inferVariableType.eq_def, h]

theorem tryResolveObjectType_var_other (f : Nat) (objectNode : Loc)
    (source : String) (fs : FileSymbols)
    (h1 : objectNode.t.data.kind = "variable_name")
    (h2 : ¬ nodeText source objectNode.t = "$this") :
    tryResolveObjectType (f + 1) objectNode source fs =
      inferVariableType f objectNode (nodeText source objectNode.t) source
        fs := by
  rw [tryResolveObjectType_succ]
  simp +decide only [h1, h2, ite_true, ite_false]

theorem tryResolveObjectType_var_this (f : Nat) (objectNode : Loc)
    (source : String) (fs : FileSymbols)
    (h1 : objectNode.t.data.kind = "variable_name")
    (h2 : nodeText source objectNode.t = "$this") :
    tryResolveObjectType (f + 1) objectNode source fs =
      findParentClassFqn objectNode source fs := by
  rw [tryResolveObjectType_succ]
  simp +decide only [h1, h2, ite_true, ite_false]

theorem resolveNode_member_call (fuel : Nat) (node parent obj : Loc)
    (source : String) (fs : FileSymbols) (cls : String)
    (hp : node.parent = some parent)
    (hk : parent.t.data.kind = "member_call_expression")
    (hname : (parent.t.childByField "name").map (fun c => c.data.id) =
      some node.t.data.id)
    (hobj : parent.childByFieldLoc "object" = some obj)
    (hcls : tryResolveObjectType fuel obj source fs = some cls) :
    resolveNode fuel node source fs =
      some { fqn := cls ++ "::" ++ nodeText source node.t
             name := nodeText source node.t
             ref_kind := .MethodCall
             object_expr := some (nodeText source obj.t)
             range := nodeRange node.t } := by
  rw [resolveNode, hp]
  simp +decide only [hk, hname, hobj, hcls, Option.some_bind,
    ite_true, ite_false]
  rfl

theorem resolveNode_member_access (fuel : Nat) (node parent obj : Loc)
    (source : String) (fs : FileSymbols) (cls : String)
    (hp : node.parent = some parent)
    (hk : parent.t.data.kind = "member_access_expression")
    (hname : (parent.t.childByField "name").map (fun c => c.data.id) =
      some node.t.data.id)
    (hdollar : ¬ (nodeText source node.t).toList.head? = some '$')
    (hobj : parent.childByFieldLoc "object" = some obj)
    (hcls : tryResolveObjectType fuel obj source fs = some cls) :
    resolveNode fuel node source fs =
      some { fqn := cls ++ "::" ++ ("$" ++ nodeText source node.t)
             name := nodeText source node.t
             ref_kind := .PropertyAccess
             object_expr := some (nodeText source obj.t)
             range := nodeRange node.t } := by
  rw [resolveNode, hp]
  simp +decide only [hk, hname, hdollar, hobj, hcls, Option.some_bind,
    ite_true, ite_false]
  rfl

theorem c5_in_scope :
    inferVariableTypeInScope (c5Source.toList.length) c5ScopeLoc "$baz2"
      104 c5Source c5Fs = some "App\\Test\\Baz" := by
  rw [inferVariableTypeInScope_param (c5Source.toList.length) c5ScopeLoc
    "$baz2" 104 c5Source c5Fs c5n27 c5n29 c5n32 c5n30 "Baz" rfl rfl rfl
    rfl rfl rfl c5_extractTypeName]
  rfl

theorem c5_object_type :
    tryResolveObjectType (c5Source.toList.length + 1) c5ObjLoc c5Source
      c5Fs = some "App\\Test\\Baz" := by
  rw [tryResolveObjectType_var_other (c5Source.toList.length) c5ObjLoc
    c5Source c5Fs rfl (by decide)]
  rw [inferVariableType_scope (c5Source.toList.length) c5ObjLoc
    (nodeText c5Source c5ObjLoc.t) c5Source c5Fs c5ScopeLoc c5_enclosing]
  show inferVariableTypeInScope (c5Source.toList.length) c5ScopeLoc
    (nodeText c5Source c5ObjLoc.t) 104 c5Source c5Fs =
    some "App\\Test\\Baz"
  rw [show nodeText c5Source c5ObjLoc.t = "$baz2" from rfl]
  exact c5_in_scope

theorem c5_resolution :
    (symbolAtPosition c5Tree c5Source 5 16
        (extractFileSymbols c5Tree c5Source "file:///bar.php")).map
      (fun s => (s.fqn, s.ref_kind)) =
    some ("App\\Test\\Baz::test", RefKind.MethodCall) := by
  rw [c5_digest, symbolAtPosition, c5_node]
  show (resolveNode (c5Source.toList.length + 1) c5TestLoc c5Source
      c5Fs).map (fun s => (s.fqn, s.ref_kind)) =
    some ("App\\Test\\Baz::test", RefKind.MethodCall)
  rw [resolveNode_member_call (c5Source.toList.length + 1) c5TestLoc
    c5ParLoc c5ObjLoc c5Source c5Fs "App\\Test\\Baz" rfl rfl rfl rfl
    c5_object_type]
  decide

/-! ## Branch lemmas for the member-resolution walk -/

theorem rmihList_nil (idx : WorkspaceIndex) (m fqn : String)
    (visited : List String) :
    rmihList idx [] m fqn visited = (none, []) := by
  rw [rmihList.eq_def]

theorem rmihList_cons (idx : WorkspaceIndex) (p : String)
    (rest : List String) (m fqn : String) (visited : List String) :
    rmihList idx (p :: rest) m fqn visited =
      (let r := rmihGo idx p m fqn visited
       match r.1 with
       | some sym => (some sym, r.2)
       | none =>
         let r2 := rmihList idx rest m fqn (visited ++ r.2)
         (r2.1, r.2 ++ r2.2)) := by
  rw [rmihList.eq_def]

theorem rmihGo_visited (idx : WorkspaceIndex) (c m fqn : String)
    (visited : List String) (hv : visited.contains c = true) :
    rmihGo idx c m fqn visited = (none, []) := by
  rw [rmihGo_eq]
  simp +decide only [hv, ite_true, ite_false]

theorem rmihGo_direct_fqn (idx : WorkspaceIndex) (c m fqn : String)
    (visited : List String) (s : SymbolInfo)
    (hv : visited.contains c = false)
    (hf : (getDirectMembers idx c).find? (fun mem => mem.fqn = fqn) =
      some s) :
    rmihGo idx c m fqn visited = (some s, [c]) := by
  rw [rmihGo_eq]
  simp +decide only [hv, hf, ite_true, ite_false]

theorem rmihGo_direct_name (idx : WorkspaceIndex) (c m fqn : String)
    (visited : List String) (s : SymbolInfo)
    (hv : visited.contains c = false)
    (hf1 : (getDirectMembers idx c).find? (fun mem => mem.fqn = fqn) =
      none)
    (hf2 : (getDirectMembers idx c).find? (fun mem => mem.name = m) =
      some s) :
    rmihGo idx c m fqn visited = (some s, [c]) := by
  rw [rmihGo_eq]
  simp +decide only [hv, hf1, hf2, ite_true, ite_false]

theorem rmihGo_expand (idx : WorkspaceIndex) (c m fqn : String)
    (visited : List String) (classSym : SymbolInfo)
    (hv : visited.contains c = false)
    (hf1 : (getDirectMembers idx c).find? (fun mem => mem.fqn = fqn) =
      none)
    (hf2 : (getDirectMembers idx c).find? (fun mem => mem.name = m) =
      none)
    (hty : alLookup idx.types c = some classSym) :
    rmihGo idx c m fqn visited =
      (let r1 := rmihList idx classSym.extends_ m fqn (visited ++ [c])
       match r1.1 with
       | some sym => (some sym, c :: r1.2)
       | none =>
         let r2 := rmihList idx classSym.implements_ m fqn
           ((visited ++ [c]) ++ r1.2)
         (r2.1, c :: (r1.2 ++ r2.2))) := by
  rw [rmihGo_eq]
  simp +decide only [hv, hf1, hf2, hty, ite_true, ite_false]

theorem rmihGo_noclass (idx : WorkspaceIndex) (c m fqn : String)
    (visited : List String)
    (hv : visited.contains c = false)
    (hf1 : (getDirectMembers idx c).find? (fun mem => mem.fqn = fqn) =
      none)
    (hf2 : (getDirectMembers idx c).find? (fun mem => mem.name = m) =
      none)
    (hty : alLookup idx.types c = none) :
    rmihGo idx c m fqn visited = (none, [c]) := by
  rw [rmihGo_eq]
  simp +decide only [hv, hf1, hf2, hty, ite_true, ite_false]

theorem resolveMember_split (idx : WorkspaceIndex) (fqn c m : String)
    (r : Option SymbolInfo × List String)
    (hs : rsplitOnceStr fqn "::" = some (c, m))
    (hg : rmihGo idx c m fqn [] = r) :
    resolveMember idx fqn = r.1 := by
  rw [resolveMember, hs]
  show (rmihGo idx c m fqn []).1 = r.1
  rw [hg]

theorem resolveMember_nosep (idx : WorkspaceIndex) (fqn : String)
    (hs : rsplitOnceStr fqn "::" = none) :
    resolveMember idx fqn = none := by
  rw [resolveMember, hs]

theorem resolveFqn_toplevel_miss (idx : WorkspaceIndex) (fqn : String)
    (r : Option SymbolInfo)
    (h1 : alLookup idx.types fqn = none)
    (h2 : alLookup idx.functions fqn = none)
    (h3 : alLookup idx.constants fqn = none)
    (h4 : resolveMember idx fqn = r) :
    resolveFqn idx fqn = r := by
  rw [resolveFqn, h1, h2, h3]
  exact h4

/-! ## Branch lemmas for the member-collection walk -/

theorem cmrList_nil (idx : WorkspaceIndex) (visited : List String) :
    cmrList idx [] visited = ([], []) := by
  rw [cmrList.eq_def]

theorem cmrList_cons (idx : WorkspaceIndex) (p : String)
    (rest : List String) (visited : List String) :
    cmrList idx (p :: rest) visited =
      (let r := cmrGo idx p visited
       let r2 := cmrList idx rest (visited ++ r.2)
       (r.1 ++ r2.1, r.2 ++ r2.2)) := by
  rw [cmrList.eq_def]

theorem cmrGo_expand (idx : WorkspaceIndex) (c : String)
    (visited : List String) (classSym : SymbolInfo)
    (hv : visited.contains c = false)
    (hty : alLookup idx.types c = some classSym) :
    cmrGo idx c visited =
      (let r1 := cmrList idx classSym.extends_ (visited ++ [c])
       let r2 := cmrList idx classSym.implements_ ((visited ++ [c]) ++ r1.2)
       (getDirectMembers idx c ++ r1.1 ++ r2.1, c :: (r1.2 ++ r2.2))) := by
  rw [cmrGo_eq]
  simp +decide only [hv, hty, ite_true, ite_false]

theorem cmrGo_noclass (idx : WorkspaceIndex) (c : String)
    (visited : List String)
    (hv : visited.contains c = false)
    (hty : alLookup idx.types c = none) :
    cmrGo idx c visited = (getDirectMembers idx c, [c]) := by
  rw [cmrGo_eq]
  simp +decide only [hv, hty, ite_true, ite_false]

/-! ## C3 input: a two-class `extends` cycle -/

def symA : SymbolInfo :=
  { name := "A", fqn := "A", kind := .Class, uri := "file:///a.php",
    range := (0, 0, 0, 0), selection_range := (0, 0, 0, 0),
    visibility := .Public, modifiers := {}, doc_comment := none,
    signature := none, parent_fqn := none, extends_ := ["B"],
    implements_ := [] }

def symB : SymbolInfo :=
  { name := "B", fqn := "B", kind := .Class, uri := "file:///b.php",
    range := (0, 0, 0, 0), selection_range := (0, 0, 0, 0),
    visibility := .Public, modifiers := {}, doc_comment := none,
    signature := none, parent_fqn := none, extends_ := ["A"],
    implements_ := [] }

/-- Index state after `update_file` of the two cyclic classes
(`A extends B`, `B extends A`). -/
def cycIdx : WorkspaceIndex :=
  updateFile
    (updateFile WorkspaceIndex.empty "file:///a.php" { symbols := [symA] })
    "file:///b.php" { symbols := [symB] }

theorem cyc_rmihGo_A :
    rmihGo cycIdx "A" "nonexistent" "A::nonexistent" [] =
      (none, ["A", "B"]) := by
  have hA2 : rmihGo cycIdx "A" "nonexistent" "A::nonexistent" ["A", "B"] =
      (none, []) :=
    rmihGo_visited cycIdx "A" "nonexistent" "A::nonexistent" ["A", "B"] rfl
  have hLA : rmihList cycIdx ["A"] "nonexistent" "A::nonexistent"
      ["A", "B"] = (none, []) := by
    rw [rmihList_cons, hA2]
    simp only [rmihList_nil]
    rfl
  have hB : rmihGo cycIdx "B" "nonexistent" "A::nonexistent" ["A"] =
      (none, ["B"]) := by
    rw [rmihGo_expand cycIdx "B" "nonexistent" "A::nonexistent" ["A"] symB
      rfl rfl rfl rfl]
    rw [show symB.extends_ = ["A"] from rfl,
      show symB.implements_ = ([] : List String) from rfl]
    rw [show (["A"] : List String) ++ ["B"] = ["A", "B"] from rfl]
    rw [hLA]
    simp only [rmihList_nil]
    rfl
  have hLB : rmihList cycIdx ["B"] "nonexistent" "A::nonexistent" ["A"] =
      (none, ["B"]) := by
    rw [rmihList_cons, hB]
    simp only [rmihList_nil]
    rfl
  rw [rmihGo_expand cycIdx "A" "nonexistent" "A::nonexistent" [] symA
    rfl rfl rfl rfl]
  rw [show symA.extends_ = ["B"] from rfl,
    show symA.implements_ = ([] : List String) from rfl]
  rw [show ([] : List String) ++ ["A"] = ["A"] from rfl]
  rw [hLB]
  simp only [rmihList_nil]
  rfl

theorem cyc_resolve_none :
    resolveFqn cycIdx "A::nonexistent" = none ∧
      resolveMember cycIdx "A::nonexistent" = none := by
  have hm : resolveMember cycIdx "A::nonexistent" = none :=
    resolveMember_split cycIdx "A::nonexistent" "A" "nonexistent"
      (none, ["A", "B"]) rfl cyc_rmihGo_A
  exact ⟨resolveFqn_toplevel_miss cycIdx "A::nonexistent" none rfl rfl rfl
    hm, hm⟩

/-! ## C10 witness input: a class with one property -/

def c10SymC : SymbolInfo :=
  { name := "C", fqn := "C", kind := .Class, uri := "file:///c.php",
    range := (0, 0, 0, 0), selection_range := (0, 0, 0, 0),
    visibility := .Public, modifiers := {}, doc_comment := none,
    signature := none, parent_fqn := none }

def c10SymP : SymbolInfo :=
  { name := "p", fqn := "C::$p", kind := .Property, uri := "file:///c.php",
    range := (1, 0, 1, 10), selection_range := (1, 2, 1, 4),
    visibility := .Private, modifiers := {}, doc_comment := none,
    signature := none, parent_fqn := some "C" }

def c10Idx : WorkspaceIndex :=
  updateFile WorkspaceIndex.empty "file:///c.php"
    { symbols := [c10SymC, c10SymP] }

/-! ## C1 inputs: digests of the two files -/

/-- The class symbol of the C1 parent digest. -/
def c1SymSoap : SymbolInfo :=
  { name := "SoapHandler", fqn := "App\\SoapHandler", kind := .Class,
    uri := "file:///parent.php", range := (2, 0, 4, 1),
    selection_range := (2, 6, 2, 17), visibility := .Public,
    modifiers := {}, doc_comment := none, signature := none,
    parent_fqn := none }

/-- The method symbol of the C1 parent digest. -/
def c1SymOk : SymbolInfo :=
  { name := "okResponse", fqn := "App\\SoapHandler::okResponse",
    kind := .Method, uri := "file:///parent.php", range := (3, 4, 3, 38),
    selection_range := (3, 23, 3, 33), visibility := .Protected,
    modifiers := {}, doc_comment := none,
    signature := some (extractSignature c1Parentn12 c1ParentSource),
    parent_fqn := some "App\\SoapHandler" }

/-- The digest of the C1 parent file. -/
def c1ParentFs : FileSymbols :=
  { namespace_ := some "App"
    use_statements := []
    symbols := [c1SymSoap, c1SymOk] }

/-- The class symbol of the C1 child digest: `extract_class_like` emits
it with no parents recorded (`SymbolInfo` carries none). -/
def c1SymTest : SymbolInfo :=
  { name := "TestHandler", fqn := "App\\TestHandler", kind := .Class,
    uri := "file:///child.php", range := (2, 0, 3, 1),
    selection_range := (2, 6, 2, 17), visibility := .Public,
    modifiers := {}, doc_comment := none, signature := none,
    parent_fqn := none }

/-- The digest of the C1 child file. -/
def c1ChildFs : FileSymbols :=
  { namespace_ := some "App"
    use_statements := []
    symbols := [c1SymTest] }

/-- Index state after `update_file` of both C1 files. -/
def c1Idx : WorkspaceIndex :=
  updateFile
    (updateFile WorkspaceIndex.empty "file:///parent.php" c1ParentFs)
    "file:///child.php" c1ChildFs

theorem c1p_digest :
    extractFileSymbols c1ParentTree c1ParentSource "file:///parent.php" =
      c1ParentFs := by
  have hphp : ∀ (r : FileSymbols) (ns : Option String),
      extractFromNode ⟨c1Parentn1, [(c1Parentn0, 0)]⟩ c1ParentSource
        "file:///parent.php" r ns = r := by
    intro r ns
    rw [extractFromNode.eq_def, extractChildren_eq]
    rfl
  have hcls : ∀ (r : FileSymbols) (ns : Option String),
      extractFromNode ⟨c1Parentn7, [(c1Parentn0, 2)]⟩ c1ParentSource
        "file:///parent.php" r ns =
        extractClassLike ⟨c1Parentn7, [(c1Parentn0, 2)]⟩ c1ParentSource
          "file:///parent.php" r ns .Class := by
    intro r ns
    rw [extractFromNode.eq_def]
    rfl
  have hcl : (Loc.root c1ParentTree).childLocs =
      [⟨c1Parentn1, [(c1Parentn0, 0)]⟩, ⟨c1Parentn2, [(c1Parentn0, 1)]⟩,
       ⟨c1Parentn7, [(c1Parentn0, 2)]⟩] := rfl
  have hns2 : findNamespaceName c1Parentn2 c1ParentSource = some "App" :=
    rfl
  have hbody : Loc.childByFieldLoc ⟨c1Parentn2, [(c1Parentn0, 1)]⟩
      "body" = none := rfl
  rw [extractFileSymbols, hcl]
  simp +decide only [List.foldl_cons, List.foldl_nil, hphp, hcls, hns2,
    hbody, ite_true, ite_false]
  rfl

theorem c1c_digest :
    extractFileSymbols c1ChildTree c1ChildSource "file:///child.php" =
      c1ChildFs := by
  have hphp : ∀ (r : FileSymbols) (ns : Option String),
      extractFromNode ⟨c1Childn1, [(c1Childn0, 0)]⟩ c1ChildSource
        "file:///child.php" r ns = r := by
    intro r ns
    rw [extractFromNode.eq_def, extractChildren_eq]
    rfl
  have hcls : ∀ (r : FileSymbols) (ns : Option String),
      extractFromNode ⟨c1Childn7, [(c1Childn0, 2)]⟩ c1ChildSource
        "file:///child.php" r ns =
        extractClassLike ⟨c1Childn7, [(c1Childn0, 2)]⟩ c1ChildSource
          "file:///child.php" r ns .Class := by
    intro r ns
    rw [extractFromNode.eq_def]
    rfl
  have hcl : (Loc.root c1ChildTree).childLocs =
      [⟨c1Childn1, [(c1Childn0, 0)]⟩, ⟨c1Childn2, [(c1Childn0, 1)]⟩,
       ⟨c1Childn7, [(c1Childn0, 2)]⟩] := rfl
  have hns2 : findNamespaceName c1Childn2 c1ChildSource = some "App" := rfl
  have hbody : Loc.childByFieldLoc ⟨c1Childn2, [(c1Childn0, 1)]⟩
      "body" = none := rfl
  rw [extractFileSymbols, hcl]
  simp +decide only [List.foldl_cons, List.foldl_nil, hphp, hcls, hns2,
    hbody, ite_true, ite_false]
  rfl

theorem c1_resolve_child_method_none :
    resolveFqn c1Idx "App\\TestHandler::okResponse" = none := by
  have hgo : rmihGo c1Idx "App\\TestHandler" "okResponse"
      "App\\TestHandler::okResponse" [] =
      (none, ["App\\TestHandler"]) := by
    rw [rmihGo_expand c1Idx "App\\TestHandler" "okResponse"
      "App\\TestHandler::okResponse" [] c1SymTest rfl rfl rfl rfl]
    rw [show c1SymTest.extends_ = ([] : List String) from rfl,
      show c1SymTest.implements_ = ([] : List String) from rfl]
    simp only [rmihList_nil]
    rfl
  exact resolveFqn_toplevel_miss c1Idx "App\\TestHandler::okResponse"
    none rfl rfl rfl
    (resolveMember_split c1Idx "App\\TestHandler::okResponse"
      "App\\TestHandler" "okResponse" (none, ["App\\TestHandler"])
      rfl hgo)

theorem c1_getMembers_child_empty :
    getMembers c1Idx "App\\TestHandler" = [] := by
  rw [getMembers, cmrGo_expand c1Idx "App\\TestHandler" [] c1SymTest
    rfl rfl]
  rw [show c1SymTest.extends_ = ([] : List String) from rfl,
    show c1SymTest.implements_ = ([] : List String) from rfl]
  simp only [cmrList_nil]
  rfl

theorem c1_resolve_parent_method :
    resolveFqn c1Idx "App\\SoapHandler::okResponse" = some c1SymOk := by
  exact resolveFqn_toplevel_miss c1Idx "App\\SoapHandler::okResponse"
    (some c1SymOk) rfl rfl rfl
    (resolveMember_split c1Idx "App\\SoapHandler::okResponse"
      "App\\SoapHandler" "okResponse" (some c1SymOk, ["App\\SoapHandler"])
      rfl
      (rmihGo_direct_fqn c1Idx "App\\SoapHandler" "okResponse"
        "App\\SoapHandler::okResponse" [] c1SymOk rfl rfl))

/-! ## C2 inputs: digest and cursor of the property-rename file -/

def c2Uri : String := "file:///repo.php"

/-- The class symbol of the C2 digest. -/
def c2SymRepo : SymbolInfo :=
  { name := "Repo", fqn := "Repo", kind := .Class, uri := c2Uri,
    range := (1, 0, 8, 1), selection_range := (1, 6, 1, 10),
    visibility := .Public, modifiers := {}, doc_comment := none,
    signature := none, parent_fqn := none }

/-- The signature recorded for the C2 property. -/
def c2UsersSig : Signature :=
  { params := [], return_type := some (parseTypeNode c2n9 c2Source) }

/-- The property symbol of the C2 digest. -/
def c2SymUsers : SymbolInfo :=
  { name := "users", fqn := "Repo::$users", kind := .Property,
    uri := c2Uri, range := (2, 4, 2, 30),
    selection_range := (2, 18, 2, 24), visibility := .Private,
    modifiers := {}, doc_comment := none,
    signature := some c2UsersSig,
    parent_fqn := some "Repo" }

/-- The method symbol of the C2 digest. -/
def c2SymAdd : SymbolInfo :=
  { name := "add", fqn := "Repo::add", kind := .Method, uri := c2Uri,
    range := (4, 4, 7, 5), selection_range := (4, 20, 4, 23),
    visibility := .Public, modifiers := {}, doc_comment := none,
    signature := some (extractSignature c2n19 c2Source),
    parent_fqn := some "Repo" }

/-- The digest `extract_file_symbols` produces for the C2 source. -/
def c2Fs : FileSymbols :=
  { namespace_ := none
    use_statements := []
    symbols := [c2SymRepo, c2SymUsers, c2SymAdd] }

/-- Index state after `update_file` of the C2 file. -/
def c2Idx : WorkspaceIndex :=
  updateFile WorkspaceIndex.empty c2Uri c2Fs

/-- The `name` node of `users` in `$this->users[]`, with its ancestor
stack, as `find_node_at_point` returns it. -/
def c2UsersLoc : Loc :=
  ⟨c2n43, [(c2n38, 2), (c2n37, 0), (c2n36, 0), (c2n35, 0), (c2n33, 1),
    (c2n19, 6), (c2n5, 2), (c2n2, 2), (c2n0, 1)]⟩

/-- The parent `member_access_expression` node. -/
def c2ParLoc : Loc :=
  ⟨c2n38, [(c2n37, 0), (c2n36, 0), (c2n35, 0), (c2n33, 1), (c2n19, 6),
    (c2n5, 2), (c2n2, 2), (c2n0, 1)]⟩

/-- `$this` (the object of the access), with its ancestor stack. -/
def c2ObjLoc : Loc :=
  ⟨c2n39, [(c2n38, 0), (c2n37, 0), (c2n36, 0), (c2n35, 0), (c2n33, 1),
    (c2n19, 6), (c2n5, 2), (c2n2, 2), (c2n0, 1)]⟩

/-- The symbol the resolver reports at the C2 cursor. -/
def c2Sym : SymbolAtPosition :=
  { fqn := "Repo::$users", name := "users", ref_kind := .PropertyAccess,
    object_expr := some "$this", range := (5, 15, 5, 20) }

theorem c2_digest :
    extractFileSymbols c2Tree c2Source c2Uri = c2Fs := by
  have hphp : ∀ (r : FileSymbols) (ns : Option String),
      extractFromNode ⟨c2n1, [(c2n0, 0)]⟩ c2Source c2Uri r ns = r := by
    intro r ns
    rw [extractFromNode.eq_def, extractChildren_eq]
    rfl
  have hcls : ∀ (r : FileSymbols) (ns : Option String),
      extractFromNode ⟨c2n2, [(c2n0, 1)]⟩ c2Source c2Uri r ns =
        extractClassLike ⟨c2n2, [(c2n0, 1)]⟩ c2Source c2Uri r ns
          .Class := by
    intro r ns
    rw [extractFromNode.eq_def]
    rfl
  have hcl : (Loc.root c2Tree).childLocs =
      [⟨c2n1, [(c2n0, 0)]⟩, ⟨c2n2, [(c2n0, 1)]⟩] := rfl
  rw [extractFileSymbols, hcl]
  simp +decide only [List.foldl_cons, List.foldl_nil, hphp, hcls,
    ite_true, ite_false]
  rfl

theorem c2_node :
    findNodeAtPoint c2Tree (5, 16) = some c2UsersLoc := by
  have d1 : descendToPoint (Loc.root c2Tree) (5, 16) =
      descendToPoint ⟨c2n2, [(c2n0, 1)]⟩ (5, 16) := by
    conv_lhs => rw [descendToPoint_eq]
    rfl
  have d2 : descendToPoint ⟨c2n2, [(c2n0, 1)]⟩ (5, 16) =
      descendToPoint ⟨c2n5, [(c2n2, 2), (c2n0, 1)]⟩ (5, 16) := by
    conv_lhs => rw [descendToPoint_eq]
    rfl
  have d3 : descendToPoint ⟨c2n5, [(c2n2, 2), (c2n0, 1)]⟩ (5, 16) =
      descendToPoint ⟨c2n19, [(c2n5, 2), (c2n2, 2), (c2n0, 1)]⟩ (5, 16) := by
    conv_lhs => rw [descendToPoint_eq]
    rfl
  have d4 : descendToPoint ⟨c2n19, [(c2n5, 2), (c2n2, 2), (c2n0, 1)]⟩ (5, 16) =
      descendToPoint ⟨c2n33, [(c2n19, 6), (c2n5, 2), (c2n2, 2), (c2n0, 1)]⟩ (5, 16) := by
    conv_lhs => rw [descendToPoint_eq]
    rfl
  have d5 : descendToPoint ⟨c2n33, [(c2n19, 6), (c2n5, 2), (c2n2, 2), (c2n0, 1)]⟩ (5, 16) =
      descendToPoint ⟨c2n35, [(c2n33, 1), (c2n19, 6), (c2n5, 2), (c2n2, 2), (c2n0, 1)]⟩ (5, 16) := by
    conv_lhs => rw [descendToPoint_eq]
    rfl
  have d6 : descendToPoint ⟨c2n35, [(c2n33, 1), (c2n19, 6), (c2n5, 2), (c2n2, 2), (c2n0, 1)]⟩ (5, 16) =
      descendToPoint ⟨c2n36, [(c2n35, 0), (c2n33, 1), (c2n19, 6), (c2n5, 2), (c2n2, 2), (c2n0, 1)]⟩ (5, 16) := by
    conv_lhs => rw [descendToPoint_eq]
    rfl
  have d7 : descendToPoint ⟨c2n36, [(c2n35, 0), (c2n33, 1), (c2n19, 6), (c2n5, 2), (c2n2, 2), (c2n0, 1)]⟩ (5, 16) =
      descendToPoint ⟨c2n37, [(c2n36, 0), (c2n35, 0), (c2n33, 1), (c2n19, 6), (c2n5, 2), (c2n2, 2), (c2n0, 1)]⟩ (5, 16) := by
    conv_lhs => rw [descendToPoint_eq]
    rfl
  have d8 : descendToPoint ⟨c2n37, [(c2n36, 0), (c2n35, 0), (c2n33, 1), (c2n19, 6), (c2n5, 2), (c2n2, 2), (c2n0, 1)]⟩ (5, 16) =
      descendToPoint ⟨c2n38, [(c2n37, 0), (c2n36, 0), (c2n35, 0), (c2n33, 1), (c2n19, 6), (c2n5, 2), (c2n2, 2), (c2n0, 1)]⟩ (5, 16) := by
    conv_lhs => rw [descendToPoint_eq]
    rfl
  have d9 : descendToPoint ⟨c2n38, [(c2n37, 0), (c2n36, 0), (c2n35, 0), (c2n33, 1), (c2n19, 6), (c2n5, 2), (c2n2, 2), (c2n0, 1)]⟩ (5, 16) =
      descendToPoint ⟨c2n43, [(c2n38, 2), (c2n37, 0), (c2n36, 0), (c2n35, 0), (c2n33, 1), (c2n19, 6), (c2n5, 2), (c2n2, 2), (c2n0, 1)]⟩ (5, 16) := by
    conv_lhs => rw [descendToPoint_eq]
    rfl
  have d10 : descendToPoint ⟨c2n43, [(c2n38, 2), (c2n37, 0), (c2n36, 0), (c2n35, 0), (c2n33, 1), (c2n19, 6), (c2n5, 2), (c2n2, 2), (c2n0, 1)]⟩ (5, 16) = c2UsersLoc := by
    conv_lhs => rw [descendToPoint_eq]
    rfl
  have hdesc : descendToPoint (Loc.root c2Tree) (5, 16) = c2UsersLoc :=
    (d1).trans ((d2).trans ((d3).trans ((d4).trans ((d5).trans ((d6).trans ((d7).trans ((d8).trans ((d9).trans (d10)))))))))
  have hcl : climbToNamed c2UsersLoc = some c2UsersLoc := by
    conv_lhs => rw [climbToNamed_eq]
    rfl
  rw [findNodeAtPoint, descendantForPoint]
  rw [if_pos (by decide : treeContainsPoint c2Tree (5, 16) = true)]
  rw [hdesc]
  simp only [hcl]
  rfl


theorem c2_walk_empty :
    walkForMemberRefs c2n0 c2Source c2Fs "Repo::$users" "$users" = [] := by
  have hnc_c2n1 : Tree.namedChildren c2n1 = [] := rfl
  have hw_c2n1 : walkForMemberRefs c2n1 c2Source c2Fs
      "Repo::$users" "$users" = [] := by
    rw [walkForMemberRefs_eq, hnc_c2n1]
    rfl
  have hnc_c2n4 : Tree.namedChildren c2n4 = [] := rfl
  have hw_c2n4 : walkForMemberRefs c2n4 c2Source c2Fs
      "Repo::$users" "$users" = [] := by
    rw [walkForMemberRefs_eq, hnc_c2n4]
    rfl
  have hnc_c2n8 : Tree.namedChildren c2n8 = [] := rfl
  have hw_c2n8 : walkForMemberRefs c2n8 c2Source c2Fs
      "Repo::$users" "$users" = [] := by
    rw [walkForMemberRefs_eq, hnc_c2n8]
    rfl
  have hnc_c2n9 : Tree.namedChildren c2n9 = [] := rfl
  have hw_c2n9 : walkForMemberRefs c2n9 c2Source c2Fs
      "Repo::$users" "$users" = [] := by
    rw [walkForMemberRefs_eq, hnc_c2n9]
    rfl
  have hnc_c2n13 : Tree.namedChildren c2n13 = [] := rfl
  have hw_c2n13 : walkForMemberRefs c2n13 c2Source c2Fs
      "Repo::$users" "$users" = [] := by
    rw [walkForMemberRefs_eq, hnc_c2n13]
    rfl
  have hnc_c2n11 : Tree.namedChildren c2n11 = [c2n13] := rfl
  have hw_c2n11 : walkForMemberRefs c2n11 c2Source c2Fs
      "Repo::$users" "$users" = [] := by
    rw [walkForMemberRefs_eq, hnc_c2n11]
    simp only [List.flatMap_cons, List.flatMap_nil, hw_c2n13]
    rfl
  have hnc_c2n15 : Tree.namedChildren c2n15 = [] := rfl
  have hw_c2n15 : walkForMemberRefs c2n15 c2Source c2Fs
      "Repo::$users" "$users" = [] := by
    rw [walkForMemberRefs_eq, hnc_c2n15]
    rfl
  have hnc_c2n10 : Tree.namedChildren c2n10 = [c2n11, c2n15] := rfl
  have hw_c2n10 : walkForMemberRefs c2n10 c2Source c2Fs
      "Repo::$users" "$users" = [] := by
    rw [walkForMemberRefs_eq, hnc_c2n10]
    simp only [List.flatMap_cons, List.flatMap_nil, hw_c2n11, hw_c2n15]
    rfl
  have hnc_c2n7 : Tree.namedChildren c2n7 = [c2n8, c2n9, c2n10] := rfl
  have hw_c2n7 : walkForMemberRefs c2n7 c2Source c2Fs
      "Repo::$users" "$users" = [] := by
    rw [walkForMemberRefs_eq, hnc_c2n7]
    simp only [List.flatMap_cons, List.flatMap_nil, hw_c2n8, hw_c2n9, hw_c2n10]
    rfl
  have hnc_c2n20 : Tree.namedChildren c2n20 = [] := rfl
  have hw_c2n20 : walkForMemberRefs c2n20 c2Source c2Fs
      "Repo::$users" "$users" = [] := by
    rw [walkForMemberRefs_eq, hnc_c2n20]
    rfl
  have hnc_c2n22 : Tree.namedChildren c2n22 = [] := rfl
  have hw_c2n22 : walkForMemberRefs c2n22 c2Source c2Fs
      "Repo::$users" "$users" = [] := by
    rw [walkForMemberRefs_eq, hnc_c2n22]
    rfl
  have hnc_c2n26 : Tree.namedChildren c2n26 = [] := rfl
  have hw_c2n26 : walkForMemberRefs c2n26 c2Source c2Fs
      "Repo::$users" "$users" = [] := by
    rw [walkForMemberRefs_eq, hnc_c2n26]
    rfl
  have hnc_c2n29 : Tree.namedChildren c2n29 = [] := rfl
  have hw_c2n29 : walkForMemberRefs c2n29 c2Source c2Fs
      "Repo::$users" "$users" = [] := by
    rw [walkForMemberRefs_eq, hnc_c2n29]
    rfl
  have hnc_c2n27 : Tree.namedChildren c2n27 = [c2n29] := rfl
  have hw_c2n27 : walkForMemberRefs c2n27 c2Source c2Fs
      "Repo::$users" "$users" = [] := by
    rw [walkForMemberRefs_eq, hnc_c2n27]
    simp only [List.flatMap_cons, List.flatMap_nil, hw_c2n29]
    rfl
  have hnc_c2n25 : Tree.namedChildren c2n25 = [c2n26, c2n27] := rfl
  have hw_c2n25 : walkForMemberRefs c2n25 c2Source c2Fs
      "Repo::$users" "$users" = [] := by
    rw [walkForMemberRefs_eq, hnc_c2n25]
    simp only [List.flatMap_cons, List.flatMap_nil, hw_c2n26, hw_c2n27]
    rfl
  have hnc_c2n23 : Tree.namedChildren c2n23 = [c2n25] := rfl
  have hw_c2n23 : walkForMemberRefs c2n23 c2Source c2Fs
      "Repo::$users" "$users" = [] := by
    rw [walkForMemberRefs_eq, hnc_c2n23]
    simp only [List.flatMap_cons, List.flatMap_nil, hw_c2n25]
    rfl
  have hnc_c2n32 : Tree.namedChildren c2n32 = [] := rfl
  have hw_c2n32 : walkForMemberRefs c2n32 c2Source c2Fs
      "Repo::$users" "$users" = [] := by
    rw [walkForMemberRefs_eq, hnc_c2n32]
    rfl
  have hnc_c2n41 : Tree.namedChildren c2n41 = [] := rfl
  have hw_c2n41 : walkForMemberRefs c2n41 c2Source c2Fs
      "Repo::$users" "$users" = [] := by
    rw [walkForMemberRefs_eq, hnc_c2n41]
    rfl
  have hnc_c2n39 : Tree.namedChildren c2n39 = [c2n41] := rfl
  have hw_c2n39 : walkForMemberRefs c2n39 c2Source c2Fs
      "Repo::$users" "$users" = [] := by
    rw [walkForMemberRefs_eq, hnc_c2n39]
    simp only [List.flatMap_cons, List.flatMap_nil, hw_c2n41]
    rfl
  have hnc_c2n43 : Tree.namedChildren c2n43 = [] := rfl
  have hw_c2n43 : walkForMemberRefs c2n43 c2Source c2Fs
      "Repo::$users" "$users" = [] := by
    rw [walkForMemberRefs_eq, hnc_c2n43]
    rfl
  have hnc_c2n38 : Tree.namedChildren c2n38 = [c2n39, c2n43] := rfl
  have hw_c2n38 : walkForMemberRefs c2n38 c2Source c2Fs
      "Repo::$users" "$users" = [] := by
    rw [walkForMemberRefs_eq, hnc_c2n38]
    simp only [List.flatMap_cons, List.flatMap_nil, hw_c2n39, hw_c2n43]
    rfl
  have hnc_c2n37 : Tree.namedChildren c2n37 = [c2n38] := rfl
  have hw_c2n37 : walkForMemberRefs c2n37 c2Source c2Fs
      "Repo::$users" "$users" = [] := by
    rw [walkForMemberRefs_eq, hnc_c2n37]
    simp only [List.flatMap_cons, List.flatMap_nil, hw_c2n38]
    rfl
  have hnc_c2n49 : Tree.namedChildren c2n49 = [] := rfl
  have hw_c2n49 : walkForMemberRefs c2n49 c2Source c2Fs
      "Repo::$users" "$users" = [] := by
    rw [walkForMemberRefs_eq, hnc_c2n49]
    rfl
  have hnc_c2n47 : Tree.namedChildren c2n47 = [c2n49] := rfl
  have hw_c2n47 : walkForMemberRefs c2n47 c2Source c2Fs
      "Repo::$users" "$users" = [] := by
    rw [walkForMemberRefs_eq, hnc_c2n47]
    simp only [List.flatMap_cons, List.flatMap_nil, hw_c2n49]
    rfl
  have hnc_c2n36 : Tree.namedChildren c2n36 = [c2n37, c2n47] := rfl
  have hw_c2n36 : walkForMemberRefs c2n36 c2Source c2Fs
      "Repo::$users" "$users" = [] := by
    rw [walkForMemberRefs_eq, hnc_c2n36]
    simp only [List.flatMap_cons, List.flatMap_nil, hw_c2n37, hw_c2n47]
    rfl
  have hnc_c2n35 : Tree.namedChildren c2n35 = [c2n36] := rfl
  have hw_c2n35 : walkForMemberRefs c2n35 c2Source c2Fs
      "Repo::$users" "$users" = [] := by
    rw [walkForMemberRefs_eq, hnc_c2n35]
    simp only [List.flatMap_cons, List.flatMap_nil, hw_c2n36]
    rfl
  have hnc_c2n58 : Tree.namedChildren c2n58 = [] := rfl
  have hw_c2n58 : walkForMemberRefs c2n58 c2Source c2Fs
      "Repo::$users" "$users" = [] := by
    rw [walkForMemberRefs_eq, hnc_c2n58]
    rfl
  have hnc_c2n56 : Tree.namedChildren c2n56 = [c2n58] := rfl
  have hw_c2n56 : walkForMemberRefs c2n56 c2Source c2Fs
      "Repo::$users" "$users" = [] := by
    rw [walkForMemberRefs_eq, hnc_c2n56]
    simp only [List.flatMap_cons, List.flatMap_nil, hw_c2n58]
    rfl
  have hnc_c2n60 : Tree.namedChildren c2n60 = [] := rfl
  have hw_c2n60 : walkForMemberRefs c2n60 c2Source c2Fs
      "Repo::$users" "$users" = [] := by
    rw [walkForMemberRefs_eq, hnc_c2n60]
    rfl
  have hnc_c2n55 : Tree.namedChildren c2n55 = [c2n56, c2n60] := rfl
  have hw_c2n55 : walkForMemberRefs c2n55 c2Source c2Fs
      "Repo::$users" "$users" = [] := by
    rw [walkForMemberRefs_eq, hnc_c2n55]
    simp only [List.flatMap_cons, List.flatMap_nil, hw_c2n56, hw_c2n60]
    rfl
  have hnc_c2n62 : Tree.namedChildren c2n62 = [] := rfl
  have hw_c2n62 : walkForMemberRefs c2n62 c2Source c2Fs
      "Repo::$users" "$users" = [] := by
    rw [walkForMemberRefs_eq, hnc_c2n62]
    rfl
  have hnc_c2n54 : Tree.namedChildren c2n54 = [c2n55, c2n62] := rfl
  have hw_c2n54 : walkForMemberRefs c2n54 c2Source c2Fs
      "Repo::$users" "$users" = [] := by
    rw [walkForMemberRefs_eq, hnc_c2n54]
    simp only [List.flatMap_cons, List.flatMap_nil, hw_c2n55, hw_c2n62]
    rfl
  have hnc_c2n65 : Tree.namedChildren c2n65 = [] := rfl
  have hw_c2n65 : walkForMemberRefs c2n65 c2Source c2Fs
      "Repo::$users" "$users" = [] := by
    rw [walkForMemberRefs_eq, hnc_c2n65]
    rfl
  have hnc_c2n53 : Tree.namedChildren c2n53 = [c2n54, c2n65] := rfl
  have hw_c2n53 : walkForMemberRefs c2n53 c2Source c2Fs
      "Repo::$users" "$users" = [] := by
    rw [walkForMemberRefs_eq, hnc_c2n53]
    simp only [List.flatMap_cons, List.flatMap_nil, hw_c2n54, hw_c2n65]
    rfl
  have hnc_c2n51 : Tree.namedChildren c2n51 = [c2n53] := rfl
  have hw_c2n51 : walkForMemberRefs c2n51 c2Source c2Fs
      "Repo::$users" "$users" = [] := by
    rw [walkForMemberRefs_eq, hnc_c2n51]
    simp only [List.flatMap_cons, List.flatMap_nil, hw_c2n53]
    rfl
  have hnc_c2n33 : Tree.namedChildren c2n33 = [c2n35, c2n51] := rfl
  have hw_c2n33 : walkForMemberRefs c2n33 c2Source c2Fs
      "Repo::$users" "$users" = [] := by
    rw [walkForMemberRefs_eq, hnc_c2n33]
    simp only [List.flatMap_cons, List.flatMap_nil, hw_c2n35, hw_c2n51]
    rfl
  have hnc_c2n19 : Tree.namedChildren c2n19 = [c2n20, c2n22, c2n23, c2n32, c2n33] := rfl
  have hw_c2n19 : walkForMemberRefs c2n19 c2Source c2Fs
      "Repo::$users" "$users" = [] := by
    rw [walkForMemberRefs_eq, hnc_c2n19]
    simp only [List.flatMap_cons, List.flatMap_nil, hw_c2n20, hw_c2n22, hw_c2n23, hw_c2n32, hw_c2n33]
    rfl
  have hnc_c2n5 : Tree.namedChildren c2n5 = [c2n7, c2n19] := rfl
  have hw_c2n5 : walkForMemberRefs c2n5 c2Source c2Fs
      "Repo::$users" "$users" = [] := by
    rw [walkForMemberRefs_eq, hnc_c2n5]
    simp only [List.flatMap_cons, List.flatMap_nil, hw_c2n7, hw_c2n19]
    rfl
  have hnc_c2n2 : Tree.namedChildren c2n2 = [c2n4, c2n5] := rfl
  have hw_c2n2 : walkForMemberRefs c2n2 c2Source c2Fs
      "Repo::$users" "$users" = [] := by
    rw [walkForMemberRefs_eq, hnc_c2n2]
    simp only [List.flatMap_cons, List.flatMap_nil, hw_c2n4, hw_c2n5]
    rfl
  have hnc_c2n0 : Tree.namedChildren c2n0 = [c2n1, c2n2] := rfl
  have hw_c2n0 : walkForMemberRefs c2n0 c2Source c2Fs
      "Repo::$users" "$users" = [] := by
    rw [walkForMemberRefs_eq, hnc_c2n0]
    simp only [List.flatMap_cons, List.flatMap_nil, hw_c2n1, hw_c2n2]
    rfl
  exact hw_c2n0

theorem c2_parent_class :
    findParentClassFqn c2ObjLoc c2Source c2Fs = some "Repo" := by
  have p1 : findParentClassFqn c2ObjLoc c2Source c2Fs =
      findParentClassFqn ⟨c2n38, [(c2n37, 0), (c2n36, 0), (c2n35, 0), (c2n33, 1), (c2n19, 6), (c2n5, 2), (c2n2, 2), (c2n0, 1)]⟩ c2Source c2Fs := by
    conv_lhs => rw [findParentClassFqn_eq]
    rfl
  have p2 : findParentClassFqn (⟨c2n38, [(c2n37, 0), (c2n36, 0), (c2n35, 0), (c2n33, 1), (c2n19, 6), (c2n5, 2), (c2n2, 2), (c2n0, 1)]⟩ : Loc) c2Source c2Fs =
      findParentClassFqn ⟨c2n37, [(c2n36, 0), (c2n35, 0), (c2n33, 1), (c2n19, 6), (c2n5, 2), (c2n2, 2), (c2n0, 1)]⟩ c2Source c2Fs := by
    conv_lhs => rw [findParentClassFqn_eq]
    rfl
  have p3 : findParentClassFqn (⟨c2n37, [(c2n36, 0), (c2n35, 0), (c2n33, 1), (c2n19, 6), (c2n5, 2), (c2n2, 2), (c2n0, 1)]⟩ : Loc) c2Source c2Fs =
      findParentClassFqn ⟨c2n36, [(c2n35, 0), (c2n33, 1), (c2n19, 6), (c2n5, 2), (c2n2, 2), (c2n0, 1)]⟩ c2Source c2Fs := by
    conv_lhs => rw [findParentClassFqn_eq]
    rfl
  have p4 : findParentClassFqn (⟨c2n36, [(c2n35, 0), (c2n33, 1), (c2n19, 6), (c2n5, 2), (c2n2, 2), (c2n0, 1)]⟩ : Loc) c2Source c2Fs =
      findParentClassFqn ⟨c2n35, [(c2n33, 1), (c2n19, 6), (c2n5, 2), (c2n2, 2), (c2n0, 1)]⟩ c2Source c2Fs := by
    conv_lhs => rw [findParentClassFqn_eq]
    rfl
  have p5 : findParentClassFqn (⟨c2n35, [(c2n33, 1), (c2n19, 6), (c2n5, 2), (c2n2, 2), (c2n0, 1)]⟩ : Loc) c2Source c2Fs =
      findParentClassFqn ⟨c2n33, [(c2n19, 6), (c2n5, 2), (c2n2, 2), (c2n0, 1)]⟩ c2Source c2Fs := by
    conv_lhs => rw [findParentClassFqn_eq]
    rfl
  have p6 : findParentClassFqn (⟨c2n33, [(c2n19, 6), (c2n5, 2), (c2n2, 2), (c2n0, 1)]⟩ : Loc) c2Source c2Fs =
      findParentClassFqn ⟨c2n19, [(c2n5, 2), (c2n2, 2), (c2n0, 1)]⟩ c2Source c2Fs := by
    conv_lhs => rw [findParentClassFqn_eq]
    rfl
  have p7 : findParentClassFqn (⟨c2n19, [(c2n5, 2), (c2n2, 2), (c2n0, 1)]⟩ : Loc) c2Source c2Fs =
      findParentClassFqn ⟨c2n5, [(c2n2, 2), (c2n0, 1)]⟩ c2Source c2Fs := by
    conv_lhs => rw [findParentClassFqn_eq]
    rfl
  have p8 : findParentClassFqn (⟨c2n5, [(c2n2, 2), (c2n0, 1)]⟩ : Loc) c2Source c2Fs =
      some "Repo" := by
    conv_lhs => rw [findParentClassFqn_eq]
    rfl
  exact (p1).trans ((p2).trans ((p3).trans ((p4).trans ((p5).trans ((p6).trans ((p7).trans (p8)))))))


theorem c2_object_type :
    tryResolveObjectType (c2Source.toList.length + 1) c2ObjLoc c2Source
      c2Fs = some "Repo" := by
  rw [tryResolveObjectType_var_this (c2Source.toList.length) c2ObjLoc
    c2Source c2Fs rfl rfl]
  exact c2_parent_class

theorem c2_resolution :
    symbolAtPosition c2Tree c2Source 5 16
      (extractFileSymbols c2Tree c2Source c2Uri) = some c2Sym := by
  rw [c2_digest, symbolAtPosition, c2_node]
  show resolveNode (c2Source.toList.length + 1) c2UsersLoc c2Source c2Fs
    = some c2Sym
  rw [resolveNode_member_access (c2Source.toList.length + 1) c2UsersLoc
    c2ParLoc c2ObjLoc c2Source c2Fs "Repo" rfl rfl rfl (by decide) rfl
    c2_object_type]
  decide

theorem c2_refs :
    findReferencesInFile c2Tree c2Source c2Fs "Repo::$users"
      PhpSymbolKind.Property true =
      [{ range := (2, 18, 2, 24) }] := by
  rw [show findReferencesInFile c2Tree c2Source c2Fs "Repo::$users"
      PhpSymbolKind.Property true =
    findMemberReferences c2Tree c2Source c2Fs "Repo::$users" true
    from rfl]
  rw [findMemberReferences]
  rw [show rfindStr "Repo::$users" "::" = some 4 from rfl]
  show (if true = true then memberDeclRefs c2Fs "Repo::$users" else []) ++
      walkForMemberRefs c2Tree c2Source c2Fs "Repo::$users"
        (strDrop "Repo::$users" (4 + 2)) =
    [{ range := (2, 18, 2, 24) }]
  rw [show strDrop "Repo::$users" (4 + 2) = "$users" from rfl]
  rw [show c2Tree = c2n0 from rfl, c2_walk_empty]
  rfl

/-- Branch lemma for the rename handler: a valid new name and a
successfully resolved property symbol reach `renameApplyEdits`. -/
theorem renameAtPosition_resolved
    (openFiles : List (String × Tree × String)) (idx : WorkspaceIndex)
    (uriStr : String) (line character : Nat) (newName : String)
    (tree : Tree) (source : String) (sym : SymbolAtPosition)
    (hne : newName.isEmpty = false)
    (hsp : strContainsChar newName ' ' = false)
    (hbs : strContainsChar newName '\\' = false)
    (hopen : alLookup openFiles uriStr = some (tree, source))
    (hsym : symbolAtPosition tree source line character
      (extractFileSymbols tree source uriStr) = some sym)
    (hkind : sym.ref_kind = RefKind.PropertyAccess) :
    renameAtPosition openFiles idx uriStr line character newName =
      renameApplyEdits openFiles idx newName sym := by
  rw [renameAtPosition]
  simp +decide only [hne, hsp, hbs, hopen, hsym, hkind, ite_true,
    ite_false]

theorem c2_resolveFqn :
    resolveFqn c2Idx "Repo::$users" = some c2SymUsers := by
  exact resolveFqn_toplevel_miss c2Idx "Repo::$users" (some c2SymUsers)
    rfl rfl rfl
    (resolveMember_split c2Idx "Repo::$users" "Repo" "$users"
      (some c2SymUsers, ["Repo"]) rfl
      (rmihGo_direct_fqn c2Idx "Repo" "$users" "Repo::$users" []
        c2SymUsers rfl rfl))

theorem c2_rwf :
    resolveFqnWithFallback c2Idx c2Sym.fqn c2Sym.ref_kind =
      some c2SymUsers := by
  rw [show c2Sym.fqn = "Repo::$users" from rfl]
  rw [resolveFqnWithFallback, c2_resolveFqn]

theorem c2_resolveFqn_proj :
    resolveFqn c2Idx c2SymUsers.fqn = some c2SymUsers := by
  rw [show c2SymUsers.fqn = "Repo::$users" from rfl]
  exact c2_resolveFqn

theorem c2_refs_proj :
    findReferencesInFile c2Tree c2Source c2Fs c2SymUsers.fqn
      c2SymUsers.kind true = [{ range := (2, 18, 2, 24) }] := by
  rw [show c2SymUsers.fqn = "Repo::$users" from rfl,
    show c2SymUsers.kind = PhpSymbolKind.Property from rfl]
  exact c2_refs

theorem c2_apply :
    renameApplyEdits [(c2Uri, (c2Tree, c2Source))] c2Idx "users2" c2Sym =
      .edits [(c2Uri,
        [{ range := (2, 18, 2, 24), new_text := "$users2" }])] := by
  have hfsyms : c2Idx.file_symbols = [(c2Uri, c2Fs)] := rfl
  have hopen : alLookup [(c2Uri, (c2Tree, c2Source))] c2Uri =
      some (c2Tree, c2Source) := rfl
  rw [renameApplyEdits]
  rw [c2_rwf]
  simp +decide only [c2_resolveFqn_proj, c2_refs_proj, hfsyms, hopen,
    List.foldl_cons, List.foldl_nil, ite_true, ite_false]

theorem c2_rename :
    renameAtPosition [(c2Uri, (c2Tree, c2Source))] c2Idx c2Uri 5 16
      "users2" =
      .edits [(c2Uri,
        [{ range := (2, 18, 2, 24), new_text := "$users2" }])] := by
  rw [renameAtPosition_resolved [(c2Uri, (c2Tree, c2Source))] c2Idx c2Uri
    5 16 "users2" c2Tree c2Source c2Sym rfl rfl rfl rfl c2_resolution rfl]
  exact c2_apply

/-! ## C6: the composer resolver vs the spec wording -/

/-- The PSR-4 map of the spec example (`"App\\" -> "src/"` under
`/project`). -/
def c6Map : NamespaceMap :=
  { psr4 := [("App\\", ["/project/src/"])], psr0 := [], classmap := [],
    files := [] }

theorem resolveClassToPaths_eq_spec (m : NamespaceMap) (fqn : String) :
    resolveClassToPaths m fqn = resolveClassToPathsSpec m fqn := by
  have h4 : (fun pd : String × List String =>
      match stripPre fqn pd.1 with
      | some rel =>
        let relativePath := strReplaceChar rel '\\' '/' ++ ".php"
        pd.2.map (fun dir => pathJoin dir relativePath)
      | none => []) =
      (fun pd : String × List String =>
      if pd.1.toList.isPrefixOf fqn.toList then
        let tail := String.mk (fqn.toList.drop pd.1.toList.length)
        pd.2.map (fun dir =>
          pathJoin dir (strReplaceChar tail '\\' '/' ++ ".php"))
      else []) := by
    funext pd
    by_cases h : pd.1.toList.isPrefixOf fqn.toList = true
    · rw [stripPre, if_pos h, if_pos h]
    · rw [stripPre, if_neg h, if_neg h]
  have h0 : (fun pd : String × List String =>
      match stripPre fqn pd.1 with
      | some rel =>
        let relativePath := strReplaceTwoChars rel '\\' '_' '/' ++ ".php"
        pd.2.map (fun dir => pathJoin dir relativePath)
      | none => []) =
      (fun pd : String × List String =>
      if pd.1.toList.isPrefixOf fqn.toList then
        let tail := String.mk (fqn.toList.drop pd.1.toList.length)
        pd.2.map (fun dir =>
          pathJoin dir (strReplaceTwoChars tail '\\' '_' '/' ++ ".php"))
      else []) := by
    funext pd
    by_cases h : pd.1.toList.isPrefixOf fqn.toList = true
    · rw [stripPre, if_pos h, if_pos h]
    · rw [stripPre, if_neg h, if_neg h]
  unfold resolveClassToPaths resolveClassToPathsSpec
  rw [h4, h0]

/-! ## C7: include_declaration difference -/

/-- The declaration locations `find_references_in_file` prepends when
`include_declaration` is set, by target kind. -/
def declRefsFor (fs : FileSymbols) (targetFqn : String)
    (targetKind : PhpSymbolKind) : List ReferenceLocation :=
  match targetKind with
  | .Class | .Interface | .Trait | .Enum => classDeclRefs fs targetFqn
  | .Function => functionDeclRefs fs targetFqn
  | .Method | .Property | .ClassConstant | .EnumCase =>
    if (rfindStr targetFqn "::").isSome then memberDeclRefs fs targetFqn
    else []
  | .GlobalConstant => constantDeclRefs fs targetFqn
  | .Namespace => []

theorem findReferencesInFile_decl_split (root : Tree) (source : String)
    (fs : FileSymbols) (targetFqn : String) (targetKind : PhpSymbolKind) :
    findReferencesInFile root source fs targetFqn targetKind true =
      declRefsFor fs targetFqn targetKind ++
        findReferencesInFile root source fs targetFqn targetKind false := by
  cases targetKind <;>
    simp +decide only [findReferencesInFile, findClassReferences,
      findFunctionReferences, findMemberReferences, findConstantReferences,
      declRefsFor, ite_true, ite_false, List.nil_append, List.append_nil,
      List.append_assoc]
  case Method =>
    rcases h : rfindStr targetFqn "::" with _ | pos <;> simp +decide [h]
  case Property =>
    rcases h : rfindStr targetFqn "::" with _ | pos <;> simp +decide [h]
  case ClassConstant =>
    rcases h : rfindStr targetFqn "::" with _ | pos <;> simp +decide [h]
  case EnumCase =>
    rcases h : rfindStr targetFqn "::" with _ | pos <;> simp +decide [h]

/-- A file whose CST is a bare `program` node. -/
def c7Tree : Tree :=
  Tree.node
    { id := 0, kind := "program", field := none, named := true,
      startByte := 0, endByte := 0, startRow := 0, startCol := 0,
      endRow := 1, endCol := 0 } []

/-- A digest carrying one method symbol whose FQN has no `::`. -/
def c7Sym : SymbolInfo :=
  { name := "foo", fqn := "foo", kind := .Method, uri := "file:///7.php",
    range := (1, 0, 3, 4), selection_range := (1, 2, 3, 4),
    visibility := .Public, modifiers := {}, doc_comment := none,
    signature := none, parent_fqn := some "X" }

def c7Fs : FileSymbols := { symbols := [c7Sym] }

/-! ## C8: rope position clamping -/

theorem lineStartsAux_le {cs : List Char} {i : Nat} {x : Nat}
    (hx : x ∈ lineStartsAux cs i) : x ≤ i + cs.length := by
  induction cs generalizing i with
  | nil => simp [lineStartsAux] at hx
  | cons c rest ih =>
    rw [lineStartsAux] at hx
    by_cases h : c = '\n'
    · rw [if_pos h] at hx
      rcases List.mem_cons.mp hx with rfl | hx2
      · simp
      · have := ih hx2
        simp only [List.length_cons]
        omega
    · rw [if_neg h] at hx
      have := ih hx
      simp only [List.length_cons]
      omega

theorem lineToByte_le (s : String) (i : Nat) :
    lineToByte s i ≤ ropeLenBytes s := by
  unfold lineToByte
  rcases h : (lineStarts s.toList)[i]? with _ | x
  · rw [List.getD_eq_getElem?_getD, h]
    simp
  · rw [List.getD_eq_getElem?_getD, h]
    have hx : x ∈ lineStarts s.toList := List.getElem?_mem h
    unfold lineStarts at hx
    rcases List.mem_cons.mp hx with rfl | hx2
    · simp
    · have := lineStartsAux_le hx2
      unfold ropeLenBytes
      simp only [Option.getD_some]
      omega

theorem positionToByteRope_le (s : String) (line ch : Nat) :
    positionToByteRope s line ch ≤ ropeLenBytes s := by
  unfold positionToByteRope
  by_cases h : ropeLenLines s ≤ line
  · rw [if_pos h]
  · rw [if_neg h]
    have ha := lineToByte_le s line
    have hb := lineToByte_le s (line + 1)
    show lineToByte s line + min ch
        (if line + 1 < ropeLenLines s then
          lineToByte s (line + 1) - lineToByte s line
        else ropeLenBytes s - lineToByte s line) ≤ ropeLenBytes s
    by_cases h2 : line + 1 < ropeLenLines s
    · rw [if_pos h2]
      have hm := Nat.min_le_right ch (lineToByte s (line + 1) -
        lineToByte s line)
      omega
    · rw [if_neg h2]
      have hm := Nat.min_le_right ch (ropeLenBytes s - lineToByte s line)
      omega

theorem positionToByteRope_line_clamp (s : String) (line ch : Nat)
    (h : ropeLenLines s ≤ line) :
    positionToByteRope s line ch = ropeLenBytes s := by
  unfold positionToByteRope
  rw [if_pos h]

theorem byteToPositionRope_clamp (s : String) (b : Nat) :
    byteToPositionRope s b = byteToPositionRope s (min b (ropeLenBytes s)) := by
  unfold byteToPositionRope
  rw [Nat.min_assoc, Nat.min_self]

/-! ## C9: the index-map invariants under arbitrary edit sequences -/

/-- An edit-session step: the two mutating entry points of
`WorkspaceIndex`. -/
inductive IndexOp where
  | update (uri : String) (d : FileSymbols)
  | remove (uri : String)

def applyOp (idx : WorkspaceIndex) : IndexOp → WorkspaceIndex
  | .update u d => updateFile idx u d
  | .remove u => removeFile idx u

/-- Replay a session from the empty index. -/
def runOps (ops : List IndexOp) : WorkspaceIndex :=
  ops.foldl applyOp WorkspaceIndex.empty

/-- The member kinds, which the top-level maps must never hold. -/
def isMemberKind (k : PhpSymbolKind) : Bool :=
  match k with
  | .Method | .Property | .ClassConstant | .EnumCase | .Namespace => true
  | _ => false

/-- Well-formedness of the three top-level maps: every entry is keyed by
its symbol's FQN and sits in the map of its kind. -/
def mapsWF (idx : WorkspaceIndex) : Prop :=
  (∀ p ∈ idx.types, p.1 = p.2.fqn ∧ isClassLikeKind p.2.kind = true) ∧
  (∀ p ∈ idx.functions, p.1 = p.2.fqn ∧
    p.2.kind = PhpSymbolKind.Function) ∧
  (∀ p ∈ idx.constants, p.1 = p.2.fqn ∧
    p.2.kind = PhpSymbolKind.GlobalConstant)

theorem mem_alInsert {α : Type} {l : List (String × α)} {k : String}
    {v : α} {p : String × α} (hp : p ∈ alInsert l k v) :
    p ∈ l ∨ p = (k, v) := by
  unfold alInsert at hp
  by_cases h : (l.find? (fun q => q.1 = k)).isSome
  · rw [if_pos h] at hp
    rcases List.mem_map.mp hp with ⟨q, hq, hqe⟩
    by_cases h2 : q.1 = k
    · right
      rw [← hqe]
      simp [h2]
    · left
      rw [← hqe]
      simp only [h2, if_false, ite_false]
      simpa [h2] using hq
  · rw [if_neg h] at hp
    rcases List.mem_append.mp hp with h1 | h1
    · exact Or.inl h1
    · right
      simpa using h1

theorem projInsertSym_wf (s : SymbolInfo) {idx : WorkspaceIndex}
    (h : mapsWF idx) : mapsWF (projInsertSym idx s) := by
  obtain ⟨ht, hf, hc⟩ := h
  unfold projInsertSym
  cases hk : s.kind <;>
    refine ⟨?_, ?_, ?_⟩ <;>
    intro p hp <;>
    first
      | exact ht p hp
      | exact hf p hp
      | exact hc p hp
      | (rcases mem_alInsert hp with h1 | h1
         · first
             | exact ht p h1
             | exact hf p h1
             | exact hc p h1
         · subst h1
           exact ⟨rfl, by simp [hk, isClassLikeKind]⟩)

theorem projRemoveSym_wf (s : SymbolInfo) {idx : WorkspaceIndex}
    (h : mapsWF idx) : mapsWF (projRemoveSym idx s) := by
  obtain ⟨ht, hf, hc⟩ := h
  unfold projRemoveSym
  cases hk : s.kind <;>
    refine ⟨?_, ?_, ?_⟩ <;>
    intro p hp <;>
    first
      | exact ht p hp
      | exact hf p hp
      | exact hc p hp
      | exact ht p (List.mem_of_mem_filter hp)
      | exact hf p (List.mem_of_mem_filter hp)
      | exact hc p (List.mem_of_mem_filter hp)

theorem foldl_wf {α : Type} (f : WorkspaceIndex → α → WorkspaceIndex)
    (hf : ∀ idx a, mapsWF idx → mapsWF (f idx a)) :
    ∀ (l : List α) (idx : WorkspaceIndex), mapsWF idx →
      mapsWF (l.foldl f idx) := by
  intro l
  induction l with
  | nil => intro idx h; exact h
  | cons a t ih =>
    intro idx h
    exact ih (f idx a) (hf idx a h)

theorem removeFile_wf (u : String) {idx : WorkspaceIndex}
    (h : mapsWF idx) : mapsWF (removeFile idx u) := by
  unfold removeFile
  rcases halt : alLookup idx.file_symbols u with _ | old
  · exact h
  · exact foldl_wf projRemoveSym (fun i s hi => projRemoveSym_wf s hi)
      old.symbols idx h

theorem updateFile_wf (u : String) (d : FileSymbols)
    {idx : WorkspaceIndex} (h : mapsWF idx) :
    mapsWF (updateFile idx u d) := by
  unfold updateFile
  exact foldl_wf projInsertSym (fun i s hi => projInsertSym_wf s hi)
    d.symbols (removeFile idx u) (removeFile_wf u h)

theorem runOps_wf (ops : List IndexOp) : mapsWF (runOps ops) := by
  unfold runOps
  have hstep : ∀ idx op, mapsWF idx → mapsWF (applyOp idx op) := by
    intro idx op h
    cases op with
    | update u d => exact updateFile_wf u d h
    | remove u => exact removeFile_wf u h
  have hempty : mapsWF WorkspaceIndex.empty := by
    refine ⟨?_, ?_, ?_⟩ <;> intro p hp <;> simp [WorkspaceIndex.empty] at hp
  exact foldl_wf applyOp hstep ops WorkspaceIndex.empty hempty

/-! ## C4: top-level symbols of a fresh digest resolve to themselves -/

/-- The kinds `update_file` projects into a top-level map. -/
def isTopLevelKind (k : PhpSymbolKind) : Bool :=
  match k with
  | .Class | .Interface | .Trait | .Enum | .Function | .GlobalConstant =>
    true
  | _ => false

theorem alLookup_alInsert {α : Type} (l : List (String × α))
    (k k' : String) (v : α) :
    alLookup (alInsert l k v) k' =
      if k' = k then some v else alLookup l k' := by
  unfold alInsert
  by_cases hc : (l.find? (fun p => p.1 = k)).isSome
  · rw [if_pos hc]
    unfold alLookup
    rw [List.find?_map]
    have hpe : ((fun p : String × α => decide (p.1 = k')) ∘
        (fun p => if p.1 = k then (k, v) else p)) =
        (fun p : String × α => decide (p.1 = k')) := by
      funext p
      by_cases h2 : p.1 = k <;> simp [h2]
    rw [hpe]
    by_cases h3 : k' = k
    · subst h3
      rw [if_pos rfl]
      rcases ho : l.find? (fun p => decide (p.1 = k')) with _ | q
      · rw [ho] at hc
        simp at hc
      · have hq : q.1 = k' := by simpa using List.find?_some ho
        simp [ho, hq]
    · rw [if_neg h3]
      rcases ho : l.find? (fun p => decide (p.1 = k')) with _ | q
      · simp [ho]
      · have hq : q.1 = k' := by simpa using List.find?_some ho
        have hqk : ¬ q.1 = k := by
          rw [hq]
          exact h3
        simp [ho, hqk]
  · rw [if_neg hc]
    unfold alLookup
    rw [List.find?_append]
    have hnone : l.find? (fun p : String × α => decide (p.1 = k)) =
        none := by
      rcases ho : l.find? (fun p : String × α => decide (p.1 = k)) with
        _ | q
      · rfl
      · rw [ho] at hc
        simp at hc
    by_cases h3 : k' = k
    · subst h3
      rw [hnone]
      simp
    · rw [if_neg h3]
      have hs : List.find? (fun p : String × α => decide (p.1 = k'))
          [(k, v)] = none := by
        have : ¬ ((k, v).1 = k') := fun h => h3 h.symm
        simp [this]
      rw [hs]
      simp

/-- The lookup order of `resolve_fqn` over the three top-level maps. -/
def topLookup (idx : WorkspaceIndex) (f : String) : Option SymbolInfo :=
  match alLookup idx.types f with
  | some x => some x
  | none =>
    match alLookup idx.functions f with
    | some x => some x
    | none => alLookup idx.constants f

theorem resolveFqn_of_topLookup (idx : WorkspaceIndex) (fqn : String)
    (s : SymbolInfo) (h : topLookup idx fqn = some s) :
    resolveFqn idx fqn = some s := by
  unfold topLookup at h
  rcases h1 : alLookup idx.types fqn with _ | x <;> rw [h1] at h
  · rcases h2 : alLookup idx.functions fqn with _ | x <;> rw [h2] at h
    · rcases h3 : alLookup idx.constants fqn with _ | x <;> rw [h3] at h
      · exact absurd h (by simp)
      · simp only [resolveFqn, h1, h2, h3]
        exact h
    · simp only [resolveFqn, h1, h2]
      exact h
  · simp only [resolveFqn, h1]
    exact h

theorem projInsertSym_lookup_types (idx : WorkspaceIndex)
    (x : SymbolInfo) (f : String) :
    alLookup (projInsertSym idx x).types f =
      if isClassLikeKind x.kind = true ∧ f = x.fqn then some x
      else alLookup idx.types f := by
  unfold projInsertSym
  cases hk : x.kind <;>
    by_cases h2 : f = x.fqn <;>
    simp [isClassLikeKind, alLookup_alInsert, h2]

theorem projInsertSym_lookup_functions (idx : WorkspaceIndex)
    (x : SymbolInfo) (f : String) :
    alLookup (projInsertSym idx x).functions f =
      if x.kind = PhpSymbolKind.Function ∧ f = x.fqn then some x
      else alLookup idx.functions f := by
  unfold projInsertSym
  cases hk : x.kind <;>
    by_cases h2 : f = x.fqn <;>
    simp [alLookup_alInsert, h2, hk]

theorem projInsertSym_lookup_constants (idx : WorkspaceIndex)
    (x : SymbolInfo) (f : String) :
    alLookup (projInsertSym idx x).constants f =
      if x.kind = PhpSymbolKind.GlobalConstant ∧ f = x.fqn then some x
      else alLookup idx.constants f := by
  unfold projInsertSym
  cases hk : x.kind <;>
    by_cases h2 : f = x.fqn <;>
    simp [alLookup_alInsert, h2, hk]

/-- Invariant of the `update_file` insertion loop relative to one
symbol `s`: each top-level map is clean at `s.fqn`, or already holds
exactly `s` in the map of `s`'s kind. -/
def freshFor (idx : WorkspaceIndex) (s : SymbolInfo) : Prop :=
  (alLookup idx.types s.fqn = none ∨
    (isClassLikeKind s.kind = true ∧
      alLookup idx.types s.fqn = some s)) ∧
  (alLookup idx.functions s.fqn = none ∨
    (s.kind = PhpSymbolKind.Function ∧
      alLookup idx.functions s.fqn = some s)) ∧
  (alLookup idx.constants s.fqn = none ∨
    (s.kind = PhpSymbolKind.GlobalConstant ∧
      alLookup idx.constants s.fqn = some s))

theorem isTopLevel_of_classLike {k : PhpSymbolKind}
    (h : isClassLikeKind k = true) : isTopLevelKind k = true := by
  cases k <;> simp_all [isClassLikeKind, isTopLevelKind]

theorem freshFor_insert (x s : SymbolInfo) {idx : WorkspaceIndex}
    (hx : isTopLevelKind x.kind = true → x.fqn = s.fqn → x = s)
    (h : freshFor idx s) :
    freshFor (projInsertSym idx x) s ∧
      (topLookup idx s.fqn = some s →
        topLookup (projInsertSym idx x) s.fqn = some s) := by
  obtain ⟨ht, hf, hc⟩ := h
  by_cases hfq : s.fqn = x.fqn
  case neg =>
    have e1 := projInsertSym_lookup_types idx x s.fqn
    have e2 := projInsertSym_lookup_functions idx x s.fqn
    have e3 := projInsertSym_lookup_constants idx x s.fqn
    rw [if_neg (fun hand => hfq hand.2)] at e1
    rw [if_neg (fun hand => hfq hand.2)] at e2
    rw [if_neg (fun hand => hfq hand.2)] at e3
    refine ⟨⟨?_, ?_, ?_⟩, ?_⟩
    · rw [e1]; exact ht
    · rw [e2]; exact hf
    · rw [e3]; exact hc
    · intro hpres
      unfold topLookup at hpres ⊢
      rw [e1, e2, e3]
      exact hpres
  case pos =>
    by_cases htop : isTopLevelKind x.kind = true
    case neg =>
      have e1 := projInsertSym_lookup_types idx x s.fqn
      have e2 := projInsertSym_lookup_functions idx x s.fqn
      have e3 := projInsertSym_lookup_constants idx x s.fqn
      rw [if_neg (fun hand => htop (isTopLevel_of_classLike hand.1))] at e1
      rw [if_neg (fun hand => htop (by cases x.kind <;>
        simp_all [isTopLevelKind]))] at e2
      rw [if_neg (fun hand => htop (by cases x.kind <;>
        simp_all [isTopLevelKind]))] at e3
      refine ⟨⟨?_, ?_, ?_⟩, ?_⟩
      · rw [e1]; exact ht
      · rw [e2]; exact hf
      · rw [e3]; exact hc
      · intro hpres
        unfold topLookup at hpres ⊢
        rw [e1, e2, e3]
        exact hpres
    case pos =>
      have hxs : x = s := hx htop hfq.symm
      subst hxs
      have e1 := projInsertSym_lookup_types idx x x.fqn
      have e2 := projInsertSym_lookup_functions idx x x.fqn
      have e3 := projInsertSym_lookup_constants idx x x.fqn
      by_cases hcl : isClassLikeKind x.kind = true
      · rw [if_pos ⟨hcl, rfl⟩] at e1
        have hnf : ¬ x.kind = PhpSymbolKind.Function := by
          cases hk2 : x.kind <;> simp_all [isClassLikeKind]
        have hnc : ¬ x.kind = PhpSymbolKind.GlobalConstant := by
          cases hk2 : x.kind <;> simp_all [isClassLikeKind]
        rw [if_neg (fun hand => hnf hand.1)] at e2
        rw [if_neg (fun hand => hnc hand.1)] at e3
        refine ⟨⟨Or.inr ⟨hcl, e1⟩, ?_, ?_⟩, ?_⟩
        · rw [e2]; exact hf
        · rw [e3]; exact hc
        · intro _
          unfold topLookup
          rw [e1]
      · by_cases hkf : x.kind = PhpSymbolKind.Function
        · rw [if_neg (fun hand => hcl hand.1)] at e1
          rw [if_pos ⟨hkf, rfl⟩] at e2
          have hnc : ¬ x.kind = PhpSymbolKind.GlobalConstant := by
            rw [hkf]
            intro hcon
            exact absurd hcon (by simp)
          rw [if_neg (fun hand => hnc hand.1)] at e3
          have htypes_none : alLookup idx.types x.fqn = none := by
            rcases ht with h1 | h1
            · exact h1
            · exact absurd h1.1 hcl
          refine ⟨⟨Or.inl (by rw [e1]; exact htypes_none),
            Or.inr ⟨hkf, e2⟩, ?_⟩, ?_⟩
          · rw [e3]; exact hc
          · intro _
            unfold topLookup
            rw [e1, htypes_none, e2]
        · have hkc : x.kind = PhpSymbolKind.GlobalConstant := by
            cases hk2 : x.kind <;>
              simp_all [isTopLevelKind, isClassLikeKind]
          rw [if_neg (fun hand => hcl hand.1)] at e1
          rw [if_neg (fun hand => hkf hand.1)] at e2
          rw [if_pos ⟨hkc, rfl⟩] at e3
          have htypes_none : alLookup idx.types x.fqn = none := by
            rcases ht with h1 | h1
            · exact h1
            · exact absurd h1.1 hcl
          have hfun_none : alLookup idx.functions x.fqn = none := by
            rcases hf with h1 | h1
            · exact h1
            · exact absurd h1.1 hkf
          refine ⟨⟨Or.inl (by rw [e1]; exact htypes_none),
            Or.inl (by rw [e2]; exact hfun_none),
            Or.inr ⟨hkc, e3⟩⟩, ?_⟩
          intro _
          unfold topLookup
          rw [e1, htypes_none, e2, hfun_none, e3]

theorem freshFor_insert_self (s : SymbolInfo) {idx : WorkspaceIndex}
    (htop : isTopLevelKind s.kind = true) (h : freshFor idx s) :
    topLookup (projInsertSym idx s) s.fqn = some s := by
  obtain ⟨ht, hf, hc⟩ := h
  have e1 := projInsertSym_lookup_types idx s s.fqn
  have e2 := projInsertSym_lookup_functions idx s s.fqn
  have e3 := projInsertSym_lookup_constants idx s s.fqn
  by_cases hcl : isClassLikeKind s.kind = true
  · rw [if_pos ⟨hcl, rfl⟩] at e1
    unfold topLookup
    rw [e1]
  · by_cases hkf : s.kind = PhpSymbolKind.Function
    · rw [if_neg (fun hand => hcl hand.1)] at e1
      rw [if_pos ⟨hkf, rfl⟩] at e2
      have htypes_none : alLookup idx.types s.fqn = none := by
        rcases ht with h1 | h1
        · exact h1
        · exact absurd h1.1 hcl
      unfold topLookup
      rw [e1, htypes_none, e2]
    · have hkc : s.kind = PhpSymbolKind.GlobalConstant := by
        cases hk2 : s.kind <;>
          simp_all [isTopLevelKind, isClassLikeKind]
      rw [if_neg (fun hand => hcl hand.1)] at e1
      rw [if_neg (fun hand => hkf hand.1)] at e2
      rw [if_pos ⟨hkc, rfl⟩] at e3
      have htypes_none : alLookup idx.types s.fqn = none := by
        rcases ht with h1 | h1
        · exact h1
        · exact absurd h1.1 hcl
      have hfun_none : alLookup idx.functions s.fqn = none := by
        rcases hf with h1 | h1
        · exact h1
        · exact absurd h1.1 hkf
      unfold topLookup
      rw [e1, htypes_none, e2, hfun_none, e3]

theorem fold_topLookup (s : SymbolInfo)
    (hk : isTopLevelKind s.kind = true) :
    ∀ (syms : List SymbolInfo) (idx : WorkspaceIndex),
      (∀ x ∈ syms, isTopLevelKind x.kind = true → x.fqn = s.fqn →
        x = s) →
      freshFor idx s →
      (s ∈ syms ∨ topLookup idx s.fqn = some s) →
      topLookup (syms.foldl projInsertSym idx) s.fqn = some s := by
  intro syms
  induction syms with
  | nil =>
    intro idx huniq hP hs
    rcases hs with h | h
    · simp at h
    · simpa using h
  | cons x rest ih =>
    intro idx huniq hP hs
    have hx : isTopLevelKind x.kind = true → x.fqn = s.fqn → x = s :=
      huniq x (List.mem_cons_self x rest)
    have hstep := freshFor_insert x s hx hP
    rw [List.foldl_cons]
    rcases hs with hmem | hpres
    · rcases List.mem_cons.mp hmem with heq | hmem2
      · subst heq
        exact ih (projInsertSym idx s)
          (fun y hy => huniq y (List.mem_cons_of_mem _ hy)) hstep.1
          (Or.inr (freshFor_insert_self s hk hP))
      · exact ih (projInsertSym idx x)
          (fun y hy => huniq y (List.mem_cons_of_mem _ hy)) hstep.1
          (Or.inl hmem2)
    · exact ih (projInsertSym idx x)
        (fun y hy => huniq y (List.mem_cons_of_mem _ hy)) hstep.1
        (Or.inr (hstep.2 hpres))

theorem updateFile_resolves_toplevel (idx : WorkspaceIndex)
    (u : String) (d : FileSymbols) (s : SymbolInfo)
    (hs : s ∈ d.symbols) (hk : isTopLevelKind s.kind = true)
    (huniq : ∀ x ∈ d.symbols, isTopLevelKind x.kind = true →
      x.fqn = s.fqn → x = s)
    (h1 : alLookup (removeFile idx u).types s.fqn = none)
    (h2 : alLookup (removeFile idx u).functions s.fqn = none)
    (h3 : alLookup (removeFile idx u).constants s.fqn = none) :
    resolveFqn (updateFile idx u d) s.fqn = some s := by
  apply resolveFqn_of_topLookup
  show topLookup { d.symbols.foldl projInsertSym (removeFile idx u) with
    file_symbols := alInsert (d.symbols.foldl projInsertSym
      (removeFile idx u)).file_symbols u d } s.fqn = some s
  have hfold := fold_topLookup s hk d.symbols (removeFile idx u) huniq
    ⟨Or.inl h1, Or.inl h2, Or.inl h3⟩ (Or.inl hs)
  unfold topLookup at hfold ⊢
  exact hfold

/-! ## C4 and C6 witness and counterexample inputs -/

/-- A lone global function, for the C4 witness. -/
def c4wSym : SymbolInfo :=
  { name := "f", fqn := "App\\f", kind := .Function,
    uri := "file:///w.php", range := (0, 0, 0, 10),
    selection_range := (0, 9, 0, 10), visibility := .Public,
    modifiers := {}, doc_comment := none, signature := none,
    parent_fqn := none }

/-- A class and a function sharing the FQN `X` (C4 counterexample). -/
def c4Sym1 : SymbolInfo :=
  { name := "X", fqn := "X", kind := .Class, uri := "file:///x.php",
    range := (0, 0, 0, 10), selection_range := (0, 6, 0, 7),
    visibility := .Public, modifiers := {}, doc_comment := none,
    signature := none, parent_fqn := none }

def c4Sym2 : SymbolInfo :=
  { name := "X", fqn := "X", kind := .Function, uri := "file:///x.php",
    range := (1, 0, 1, 10), selection_range := (1, 9, 1, 10),
    visibility := .Public, modifiers := {}, doc_comment := none,
    signature := none, parent_fqn := none }

/-! ## The claims -/

/-- C1: the spec says the extractor records each class-like
declaration's `extends`/`implements` clauses as resolved FQNs so that
`resolve_fqn("App\\TestHandler::okResponse")` finds the parent method
and `get_members("App\\TestHandler")` includes it.  Against the code:
`extract_class_like` never reads the `base_clause`, `SymbolInfo` has no
parent fields to record them in, and on the exact two-file input the
query resolves to nothing and the member list is empty, while the same
query on the parent class itself succeeds — the inheritance link is
lost, not the member. -/
theorem C1_extends_implements_not_recorded :
    ((extractFileSymbols c1ChildTree c1ChildSource
      "file:///child.php").symbols.map (fun s => s.extends_) = [[]]) ∧
    ((extractFileSymbols c1ChildTree c1ChildSource
      "file:///child.php").symbols.map (fun s => s.implements_) =
      [[]]) ∧
    resolveFqn c1Idx "App\\TestHandler::okResponse" = none ∧
    getMembers c1Idx "App\\TestHandler" = [] ∧
    resolveFqn c1Idx "App\\SoapHandler::okResponse" = some c1SymOk := by
  refine ⟨?_, ?_, c1_resolve_child_method_none, c1_getMembers_child_empty,
    c1_resolve_parent_method⟩
  · rw [c1c_digest]
    rfl
  · rw [c1c_digest]
    rfl

/-- C2: the spec expects renaming `users` in `$this->users[]` to
`users2` to produce three edits (declaration plus two usages).  Against
the code: `find_member_references` takes the member part of
`"Repo::$users"` verbatim — `$users`, dollar included — while the name
tokens at the two `->users` accesses read `users`, so neither usage
matches and the rename emits exactly one edit, at the declaration. -/
theorem C2_property_rename_single_edit :
    renameAtPosition [(c2Uri, (c2Tree, c2Source))] c2Idx c2Uri 5 16
      "users2" =
      RenameOutcome.edits [(c2Uri,
        [{ range := (2, 18, 2, 24), new_text := "$users2" }])] ∧
    findReferencesInFile c2Tree c2Source c2Fs "Repo::$users"
      PhpSymbolKind.Property true = [{ range := (2, 18, 2, 24) }] ∧
    symbolAtPosition c2Tree c2Source 5 16
      (extractFileSymbols c2Tree c2Source c2Uri) = some c2Sym :=
  ⟨c2_rename, c2_refs, c2_resolution⟩

/-- C3: member resolution terminates on cyclic class graphs
(`A extends B`, `B extends A`) because the visited set bounds the walk;
`resolve_fqn("A::nonexistent")` and `resolve_member` both answer
`none`.  The embedding's `rmihGo`/`rmihList` are accepted by well-founded
recursion on the number of unvisited `types` keys — the termination
argument itself. -/
theorem C3_member_resolution_cycle_safe :
    resolveFqn cycIdx "A::nonexistent" = none ∧
    resolveMember cycIdx "A::nonexistent" = none :=
  cyc_resolve_none

/-- C4: after `update_file(u, d)`, a top-level symbol `s` of `d` is
returned by `resolve_fqn(s.fqn)` — provided no other top-level symbol of
`d` shares its FQN and the rest of the index holds nothing under that
FQN; without those side conditions the claim fails (see the
counterexample: a class and a function with the same FQN). -/
theorem C4_update_resolves_unique_toplevel (idx : WorkspaceIndex)
    (u : String) (d : FileSymbols) (s : SymbolInfo)
    (hs : s ∈ d.symbols) (hk : isTopLevelKind s.kind = true)
    (huniq : ∀ x ∈ d.symbols, isTopLevelKind x.kind = true →
      x.fqn = s.fqn → x = s)
    (h1 : alLookup (removeFile idx u).types s.fqn = none)
    (h2 : alLookup (removeFile idx u).functions s.fqn = none)
    (h3 : alLookup (removeFile idx u).constants s.fqn = none) :
    resolveFqn (updateFile idx u d) s.fqn = some s :=
  updateFile_resolves_toplevel idx u d s hs hk huniq h1 h2 h3

theorem C4_update_resolves_unique_toplevel_witness :
    resolveFqn (updateFile WorkspaceIndex.empty "file:///w.php"
      { symbols := [c4wSym] }) c4wSym.fqn = some c4wSym :=
  C4_update_resolves_unique_toplevel WorkspaceIndex.empty "file:///w.php"
    { symbols := [c4wSym] } c4wSym (by simp) rfl
    (by
      intro x hx h1 h2
      simpa using hx)
    rfl rfl rfl

/-- C4 counterexample: the digest holds a class and a function both
with FQN `X`; `resolve_fqn` consults the `types` map first, so the
function symbol never resolves to itself. -/
theorem C4_fqn_collision_counterexample :
    c4Sym2 ∈ ({ symbols := [c4Sym1, c4Sym2] } : FileSymbols).symbols ∧
    isTopLevelKind c4Sym2.kind = true ∧
    resolveFqn (updateFile WorkspaceIndex.empty "file:///x.php"
      { symbols := [c4Sym1, c4Sym2] }) c4Sym2.fqn = some c4Sym1 ∧
    ¬ resolveFqn (updateFile WorkspaceIndex.empty "file:///x.php"
      { symbols := [c4Sym1, c4Sym2] }) c4Sym2.fqn = some c4Sym2 := by
  have hval : resolveFqn (updateFile WorkspaceIndex.empty "file:///x.php"
      { symbols := [c4Sym1, c4Sym2] }) c4Sym2.fqn = some c4Sym1 := rfl
  refine ⟨by simp, rfl, hval, ?_⟩
  intro h
  rw [hval] at h
  have h2 := congrArg SymbolInfo.kind (Option.some.inj h)
  exact absurd h2 (by decide)

/-- C5: on the spec's file, `symbol_at_position` at the cursor on
`test` infers `$baz2`'s type from the typed parameter of the enclosing
method and reports `App\\Test\\Baz::test` as a method call. -/
theorem C5_typed_param_method_call :
    (symbolAtPosition c5Tree c5Source 5 16
        (extractFileSymbols c5Tree c5Source "file:///bar.php")).map
      (fun s => (s.fqn, s.ref_kind)) =
    some ("App\\Test\\Baz::test", RefKind.MethodCall) :=
  c5_resolution

/-- C6: `resolve_class_to_paths` maps every PSR-4/PSR-0 prefix accepted
by `strip_prefix` — a plain, *not* strict, prefix test (the spec's
example itself is reproduced).  The claim's "strict prefix" wording is
refuted by the counterexample where the prefix equals the FQN. -/
theorem C6_psr_resolution_nonstrict :
    (∀ (m : NamespaceMap) (fqn : String),
      resolveClassToPaths m fqn = resolveClassToPathsSpec m fqn) ∧
    resolveClassToPaths c6Map "App\\Service\\UserService" =
      ["/project/src/Service/UserService.php"] :=
  ⟨resolveClassToPaths_eq_spec, rfl⟩

/-- C6 counterexample: with prefix `App\\` and the query equal to the
prefix itself, the implementation emits `/project/src/.php` while the
claim's strict-prefix reading emits nothing. -/
theorem C6_equal_namespace_counterexample :
    resolveClassToPaths c6Map "App\\" = ["/project/src/.php"] ∧
    resolveClassToPathsStrict c6Map "App\\" = [] :=
  ⟨rfl, rfl⟩

/-- C7: with `include_declaration` the reference finder returns exactly
the declaration locations of `declRefsFor` prepended to the
`include_declaration = false` answer — so the true-set is a superset,
but the difference is *not* always "the declarations whose FQN matches":
for member kinds a target FQN without `::` returns before the
declaration scan (see the counterexample). -/
theorem C7_include_declaration_split :
    ∀ (root : Tree) (source : String) (fs : FileSymbols)
      (targetFqn : String) (targetKind : PhpSymbolKind),
      findReferencesInFile root source fs targetFqn targetKind true =
        declRefsFor fs targetFqn targetKind ++
          findReferencesInFile root source fs targetFqn targetKind
            false :=
  findReferencesInFile_decl_split

/-- C7 counterexample: a method target whose FQN `foo` has no `::` —
the digest holds a matching declaration, yet the
`include_declaration = true` answer is empty. -/
theorem C7_member_without_separator_counterexample :
    findReferencesInFile c7Tree "" c7Fs "foo" PhpSymbolKind.Method
      true = [] ∧
    (c7Fs.symbols.filter (fun s => s.fqn = "foo")).map
      (fun s => ({ range := s.selection_range } : ReferenceLocation)) =
      [{ range := (1, 2, 3, 4) }] :=
  ⟨rfl, rfl⟩

/-- C8: `position_to_byte` clamps — a line at or past the line count
maps to the byte length, every answer is bounded by the byte length,
and `byte_to_position` clamps its byte argument. -/
theorem C8_position_mapping_clamps (s : String) (line ch b : Nat)
    (h : ropeLenLines s ≤ line) :
    positionToByteRope s line ch = ropeLenBytes s ∧
    (∀ l2 c2, positionToByteRope s l2 c2 ≤ ropeLenBytes s) ∧
    byteToPositionRope s b =
      byteToPositionRope s (min b (ropeLenBytes s)) :=
  ⟨positionToByteRope_line_clamp s line ch h,
   fun l2 c2 => positionToByteRope_le s l2 c2,
   byteToPositionRope_clamp s b⟩

theorem C8_position_mapping_clamps_witness :
    ropeLenLines "ab\ncd" ≤ 9 ∧
    positionToByteRope "ab\ncd" 9 7 = ropeLenBytes "ab\ncd" ∧
    positionToByteRope "ab\ncd" 1 50 ≤ ropeLenBytes "ab\ncd" ∧
    byteToPositionRope "ab\ncd" 100 =
      byteToPositionRope "ab\ncd" (min 100 (ropeLenBytes "ab\ncd")) := by
  have h := C8_position_mapping_clamps "ab\ncd" 9 7 100 (by decide)
  exact ⟨by decide, h.1, h.2.1 1 50, h.2.2⟩

/-- C9: after any finite sequence of `update_file`/`remove_file` from
the empty index, every `types` entry is keyed by its symbol's FQN with a
class-like kind, every `functions` entry holds a `Function`, every
`constants` entry a `GlobalConstant`, and no member kind ever appears
in the three maps. -/
theorem C9_index_map_invariants (ops : List IndexOp) :
    mapsWF (runOps ops) ∧
    (∀ p ∈ (runOps ops).types ++ (runOps ops).functions ++
        (runOps ops).constants, isMemberKind p.2.kind = false) := by
  have h := runOps_wf ops
  refine ⟨h, ?_⟩
  intro p hp
  rcases List.mem_append.mp hp with h1 | h1
  · rcases List.mem_append.mp h1 with h2 | h2
    · have h3 := h.1 p h2
      cases hk : p.2.kind <;>
        simp_all [isClassLikeKind, isMemberKind]
    · have h3 := h.2.1 p h2
      rw [h3.2]
      rfl
  · have h3 := h.2.2 p h1
    rw [h3.2]
    rfl

/-- C10: when the top-level maps miss and the query `C::p` splits at its
last `::`, a direct member of `C` whose *name* is `p` is returned by the
name-only fallback provided no member matches the FQN exactly — and an
exact FQN match is always preferred. -/
theorem C10_member_name_fallback (idx : WorkspaceIndex) (q c p : String)
    (s : SymbolInfo)
    (hsplit : rsplitOnceStr q "::" = some (c, p))
    (ht : alLookup idx.types q = none)
    (hf : alLookup idx.functions q = none)
    (hc : alLookup idx.constants q = none) :
    ((getDirectMembers idx c).find? (fun mem => mem.fqn = q) = none →
      (getDirectMembers idx c).find? (fun mem => mem.name = p) = some s →
      resolveFqn idx q = some s) ∧
    (∀ s0 : SymbolInfo,
      (getDirectMembers idx c).find? (fun mem => mem.fqn = q) = some s0 →
      resolveFqn idx q = some s0) := by
  constructor
  · intro h1 h2
    exact resolveFqn_toplevel_miss idx q (some s) ht hf hc
      (resolveMember_split idx q c p (some s, [c]) hsplit
        (rmihGo_direct_name idx c p q [] s rfl h1 h2))
  · intro s0 h1
    exact resolveFqn_toplevel_miss idx q (some s0) ht hf hc
      (resolveMember_split idx q c p (some s0, [c]) hsplit
        (rmihGo_direct_fqn idx c p q [] s0 rfl h1))

theorem C10_member_name_fallback_witness :
    resolveFqn c10Idx "C::p" = some c10SymP ∧
    resolveFqn c10Idx "C::$p" = some c10SymP :=
  ⟨(C10_member_name_fallback c10Idx "C::p" "C" "p" c10SymP rfl rfl rfl
      rfl).1 rfl rfl,
   (C10_member_name_fallback c10Idx "C::$p" "C" "$p" c10SymP rfl rfl rfl
      rfl).2 c10SymP rfl⟩

end PhpLsp
